import Mathlib

/-!
# Battery model of `shared/lib_battery.cpp`

A shallow embedding of the battery stack (capacity, voltage, thermal, lifetime,
battery, bank and manual dispatch) and theorems about it.

Modelling conventions.

* A C++ `double` is an element of a linearly ordered field `F`; rounding, infinities and
  NaN are not modelled.  The definitions are computable and can be run on `ℚ`.
* `exp` is passed as a parameter `ex : F → F` to the functions whose source calls it.
* `int` members are `Int`.
* `std::vector<double>` is a `List F`; `push_back` appends at the end, `pop_back` drops the
  last element.  An access outside the vector, or a `pop_back` on an empty vector, is
  undefined behaviour in the source and is reported as `Fault.outOfBounds`.
* Loops are run with a fuel counter; a loop that is still running when the fuel is spent
  reports `Fault.outOfFuel`.
* Results of the external fitting routine `lsqfit` are parameters of the constructors.
-/

namespace Battery

/-- Ways in which a run of the embedded code can fail to produce a state. -/
inductive Fault where
  | outOfBounds : Fault
  | outOfFuel : Fault
  deriving DecidableEq, Repr

/-- Return codes of the rainflow steps (`LT_SUCCESS`, `LT_GET_DATA`, `LT_RERANGE`). -/
inductive RetCode where
  | LT_SUCCESS : RetCode
  | LT_GET_DATA : RetCode
  | LT_RERANGE : RetCode
  deriving DecidableEq, Repr

section Lifetime

variable {F : Type} [LinearOrderedField F]

/-- Members of `lifetime_t`.  `_a0 .. _a4` are the coefficients `_a[0] .. _a[4]` that the
constructor obtains from `lsqfit`. -/
structure lifetime_t (F : Type) where
  _a0 : F
  _a1 : F
  _a2 : F
  _a3 : F
  _a4 : F
  _Peaks : List F
  _nCycles : Int
  _Dlt : F
  _jlt : Int
  _klt : Int
  _Xlt : F
  _Ylt : F
  _Slt : F
  _Range : F

/-- The function `life_vs_DOD(R, a, user_data)`. -/
def life_vs_DOD (ex : F → F) (R a0 a1 a2 a3 a4 : F) : F :=
  a0 + a1 * ex (a2 * R) + a3 * ex (a4 * R)

/-- The fitted curve evaluated with the coefficients stored in the model:
`life_vs_DOD(R, _a, 0)`. -/
def lifetime_t.life (ex : F → F) (lt : lifetime_t F) (R : F) : F :=
  life_vs_DOD ex R lt._a0 lt._a1 lt._a2 lt._a3 lt._a4

/-- State set up by the constructor `lifetime_t::lifetime_t`, given the coefficients
returned by the curve fit. -/
def lifetime_t.init (a0 a1 a2 a3 a4 : F) : lifetime_t F :=
  { _a0 := a0, _a1 := a1, _a2 := a2, _a3 := a3, _a4 := a4,
    _Peaks := [], _nCycles := 0, _Dlt := 0, _jlt := 0, _klt := 0,
    _Xlt := 0, _Ylt := 0, _Slt := 0, _Range := 0 }

/-- The access `_Peaks[i]` with an `int` index. -/
def peakAt (xs : List F) (i : Int) : Except Fault F :=
  if 0 ≤ i then
    match xs[i.toNat]? with
    | some v => .ok v
    | none => .error Fault.outOfBounds
  else .error Fault.outOfBounds

/-- The call `_Peaks.pop_back()`. -/
def popBack (xs : List F) : Except Fault (List F) :=
  if xs = [] then .error Fault.outOfBounds else .ok xs.dropLast

/-- The function `lifetime_t::rainflow_ranges`. -/
def rainflow_ranges (lt : lifetime_t F) : Except Fault (lifetime_t F) := do
  let p1 ← peakAt lt._Peaks (lt._jlt - 1)
  let p2 ← peakAt lt._Peaks (lt._jlt - 2)
  let lt1 := { lt with _Ylt := |p1 - p2| }
  let p0 ← peakAt lt1._Peaks lt1._jlt
  let p1b ← peakAt lt1._Peaks (lt1._jlt - 1)
  .ok { lt1 with _Xlt := |p0 - p1b| }

/-- The function `lifetime_t::rainflow_ranges_circular`. -/
def rainflow_ranges_circular (lt : lifetime_t F) (index : Int) :
    Except Fault (lifetime_t F) := do
  let end_ : Int := (lt._Peaks.length : Int) - 1
  if index = 0 then
    let p0 ← peakAt lt._Peaks 0
    let pe ← peakAt lt._Peaks end_
    let lt1 := { lt with _Xlt := |p0 - pe| }
    let peb ← peakAt lt1._Peaks end_
    let pe1 ← peakAt lt1._Peaks (end_ - 1)
    .ok { lt1 with _Ylt := |peb - pe1| }
  else if index = 1 then
    let p1 ← peakAt lt._Peaks 1
    let p0 ← peakAt lt._Peaks 0
    let lt1 := { lt with _Xlt := |p1 - p0| }
    let p0b ← peakAt lt1._Peaks 0
    let pe ← peakAt lt1._Peaks end_
    .ok { lt1 with _Ylt := |p0b - pe| }
  else
    rainflow_ranges lt

/-- The test `(_Slt == _Peaks[_jlt - 1]) || (_Slt == _Peaks[_jlt - 2])`, evaluated left
to right with the short circuit of `||`. -/
def startIsEndpointOfY (lt : lifetime_t F) : Except Fault Bool := do
  let p1 ← peakAt lt._Peaks (lt._jlt - 1)
  if lt._Slt = p1 then .ok true
  else
    let p2 ← peakAt lt._Peaks (lt._jlt - 2)
    .ok (decide (lt._Slt = p2))

/-- Step 5 of `rainflow_compareRanges` and the `else` branch of step 8 of
`rainflow_finish`: count the range `Y`, discard three points, put the last one back. -/
def countRangeY (ex : F → F) (lt : lifetime_t F) : Except Fault (lifetime_t F) := do
  let lt1 := { lt with _Range := lt._Ylt }
  let Cf := lt1.life ex lt1._Range
  let lt2 := if |Cf| > 0 then { lt1 with _Dlt := lt1._Dlt + 100 / Cf } else lt1
  let lt3 := { lt2 with _nCycles := lt2._nCycles + 1 }
  let save ← peakAt lt3._Peaks lt3._jlt
  let ps1 ← popBack lt3._Peaks
  let ps2 ← popBack ps1
  let ps3 ← popBack ps2
  .ok { lt3 with _Peaks := ps3 ++ [save], _jlt := lt3._jlt - 2 }

/-- The function `lifetime_t::rainflow_compareRanges`; returns the new state and the
return code. -/
def rainflow_compareRanges (ex : F → F) (lt : lifetime_t F) :
    Except Fault (lifetime_t F × RetCode) := do
  let mut st := lt
  let mut retCode := RetCode.LT_SUCCESS
  let mut contained := true
  if st._Xlt < st._Ylt then
    retCode := RetCode.LT_GET_DATA
  else if st._Xlt = st._Ylt then
    if (← startIsEndpointOfY st) then
      retCode := RetCode.LT_GET_DATA
    else
      contained := false
  else if st._Xlt ≥ st._Ylt then
    if st._Xlt > st._Ylt then
      if (← startIsEndpointOfY st) then
        st := { st with _klt := st._klt + 1 }
        let s ← peakAt st._Peaks st._klt
        st := { st with _Slt := s }
        retCode := RetCode.LT_GET_DATA
      else
        contained := false
    else if st._Xlt = st._Ylt then
      let p1 ← peakAt st._Peaks (st._jlt - 1)
      if st._Slt ≠ p1 then
        let p2 ← peakAt st._Peaks (st._jlt - 2)
        if st._Slt ≠ p2 then
          contained := false
  if !contained then
    st ← countRangeY ex st
    retCode := RetCode.LT_RERANGE
  .ok (st, retCode)

/-- The `while (atStepTwo)` loop of `lifetime_t::rainflow`; returns the state and the
return code with which the loop was left. -/
def rainflow_loop (ex : F → F) : Nat → lifetime_t F → Except Fault (lifetime_t F × RetCode)
  | 0, _ => .error Fault.outOfFuel
  | fuel + 1, lt =>
    if lt._jlt ≥ 2 then do
      let lt1 ← rainflow_ranges lt
      let (lt2, retCode) ← rainflow_compareRanges ex lt1
      if retCode = RetCode.LT_GET_DATA then .ok (lt2, retCode)
      else rainflow_loop ex fuel lt2
    else .ok (lt, RetCode.LT_GET_DATA)

/-- The function `lifetime_t::rainflow`. -/
def rainflow (ex : F → F) (lt : lifetime_t F) (DOD : F) : Except Fault (lifetime_t F) := do
  let lt1 := { lt with _Peaks := lt._Peaks ++ [DOD] }
  let lt2 := if lt1._jlt = 0 then { lt1 with _Slt := DOD, _klt := lt1._jlt } else lt1
  let (lt3, retCode) ← rainflow_loop ex (lt2._Peaks.length + 1) lt2
  if retCode = RetCode.LT_GET_DATA then .ok { lt3 with _jlt := lt3._jlt + 1 }
  else .ok lt3

/-- The `while (atStepSeven)` loop of `lifetime_t::rainflow_finish` (steps 7 and 8).
The loop variables are the model state, the sweep index `ii`, `rereadCount` and
`atStepSeven`; `P` is the point read by the enclosing loop.  Returns the state, `ii`
and `rereadCount` on leaving the loop. -/
def rainflow_finish_inner (ex : F → F) (P : F) :
    Nat → lifetime_t F → Int → Nat → Bool → Except Fault (lifetime_t F × Int × Nat)
  | 0, _, _, _, _ => .error Fault.outOfFuel
  | fuel + 1, lt, ii, rereadCount, atStepSeven =>
    if atStepSeven = false then .ok (lt, ii, rereadCount)
    else if lt._jlt ≥ 2 then do
      let lt1 ← rainflow_ranges_circular lt ii
      if lt1._Xlt < lt1._Ylt then
        rainflow_finish_inner ex P fuel lt1 (ii + 1) rereadCount false
      else do
        let lt2 ← countRangeY ex lt1
        rainflow_finish_inner ex P fuel lt2 ii rereadCount true
    else if lt._jlt = 1 then do
      let ltp := { lt with _Peaks := lt._Peaks ++ [P], _jlt := lt._jlt + 1 }
      let ii1 := ltp._jlt
      let lt1 ← rainflow_ranges_circular ltp ii1
      if lt1._Xlt < lt1._Ylt then
        rainflow_finish_inner ex P fuel lt1 (ii1 + 1) rereadCount false
      else do
        let lt2 ← countRangeY ex lt1
        rainflow_finish_inner ex P fuel lt2 ii1 rereadCount false
    else .ok (lt, ii, rereadCount + 1)

/-- The `while (rereadCount <= 1)` loop of `lifetime_t::rainflow_finish`.  The test
`ii < _Peaks.size()` compares after conversion to an unsigned type, so it fails for a
negative `ii`. -/
def rainflow_finish_outer (ex : F → F) :
    Nat → lifetime_t F → Int → Nat → Except Fault (lifetime_t F)
  | 0, _, _, _ => .error Fault.outOfFuel
  | fuel + 1, lt, ii, rereadCount =>
    if rereadCount ≤ 1 then
      if 0 ≤ ii ∧ ii < (lt._Peaks.length : Int) then do
        let P ← peakAt lt._Peaks ii
        let rereadCount1 := if P = lt._Slt then rereadCount + 1 else rereadCount
        let (lt1, ii1, rereadCount2) ←
          rainflow_finish_inner ex P (lt._Peaks.length + 3) lt ii rereadCount1 true
        rainflow_finish_outer ex fuel lt1 ii1 rereadCount2
      else .ok lt
    else .ok lt

/-- The function `lifetime_t::rainflow_finish`. -/
def rainflow_finish (ex : F → F) (lt : lifetime_t F) : Except Fault (lifetime_t F) :=
  rainflow_finish_outer ex (2 * lt._Peaks.length + 6) { lt with _jlt := lt._jlt - 1 } 0 0

/-- The accessor `lifetime_t::cycles_elapsed`. -/
def lifetime_t.cycles_elapsed (lt : lifetime_t F) : Int := lt._nCycles

/-- The accessor `lifetime_t::damage`. -/
def lifetime_t.damage (lt : lifetime_t F) : F := lt._Dlt

/-- Feed a list of values to `rainflow`, one call per value, first value first. -/
def rainflow_all (ex : F → F) (lt : lifetime_t F) : List F → Except Fault (lifetime_t F)
  | [] => .ok lt
  | d :: ds => do
    let lt1 ← rainflow ex lt d
    rainflow_all ex lt1 ds

/-- The `while (rereadCount <= 1)` loop of `lifetime_t::rainflow_finish` once more, now
returning the loop variables `ii` and `rereadCount` with the state, together with a
count `met` of the iterations in which the point read equals `_Slt`. -/
def rainflow_finish_sweep (ex : F → F) :
    Nat → lifetime_t F → Int → Nat → Nat → Except Fault (lifetime_t F × Int × Nat × Nat)
  | 0, _, _, _, _ => .error Fault.outOfFuel
  | fuel + 1, lt, ii, rereadCount, met =>
    if rereadCount ≤ 1 then
      if 0 ≤ ii ∧ ii < (lt._Peaks.length : Int) then do
        let P ← peakAt lt._Peaks ii
        let rereadCount1 := if P = lt._Slt then rereadCount + 1 else rereadCount
        let met1 := if P = lt._Slt then met + 1 else met
        let (lt1, ii1, rereadCount2) ←
          rainflow_finish_inner ex P (lt._Peaks.length + 3) lt ii rereadCount1 true
        rainflow_finish_sweep ex fuel lt1 ii1 rereadCount2 met1
      else .ok (lt, ii, rereadCount, met)
    else .ok (lt, ii, rereadCount, met)

/-- The function `lifetime_t::rainflow_finish`, returning the final values of `ii`,
`rereadCount` and `met` as well. -/
def rainflow_finish_trace (ex : F → F) (lt : lifetime_t F) :
    Except Fault (lifetime_t F × Int × Nat × Nat) :=
  rainflow_finish_sweep ex (2 * lt._Peaks.length + 6) { lt with _jlt := lt._jlt - 1 } 0 0 0

/-- A bound on the number of iterations the outer loop of `rainflow_finish` can still
make from the loop state `(lt, ii, rereadCount)`.  Once `_jlt` is below 1 every
iteration raises `rereadCount`; an even `_jlt` stays even, so every iteration raises
`ii` or `rereadCount`; an odd `_jlt` can reach 1 once, where a point is appended and
`ii` is set anew. -/
def finish_measure (lt : lifetime_t F) (ii : Int) (rereadCount : Nat) : Int :=
  if lt._jlt ≤ 0 then 2 - (rereadCount : Int)
  else if lt._jlt % 2 = 0 then ((lt._Peaks.length : Int) - ii) + (2 - (rereadCount : Int))
  else (if ii < (lt._Peaks.length : Int) then (lt._Peaks.length : Int) - ii else 0)
    + (lt._Peaks.length : Int) + 3

/-- A bound on `finish_measure` of the loop state in which the inner loop of
`rainflow_finish`, entered with `(lt, ii, rereadCount)`, is left. -/
def finish_bound (lt : lifetime_t F) (ii : Int) (rereadCount : Nat) : Int :=
  if lt._jlt ≤ 0 then 1 - (rereadCount : Int)
  else if lt._jlt % 2 = 0 then
    (if ii < (lt._Peaks.length : Int) then (lt._Peaks.length : Int) - ii - 1 else -1)
      + (2 - (rereadCount : Int))
  else (if ii + 1 < (lt._Peaks.length : Int) then (lt._Peaks.length : Int) - ii - 1 else 0)
    + (lt._Peaks.length : Int) + 3

/-- The state of the indices between two `rainflow` calls, once a value has been fed:
`_jlt` is the number of stored peaks, `_klt` is an index below it, and `_Slt` is the
peak at `_klt`. -/
def rainflow_inv (lt : lifetime_t F) : Prop :=
  lt._jlt = (lt._Peaks.length : Int) ∧ 0 ≤ lt._klt ∧ lt._klt < lt._jlt
    ∧ peakAt lt._Peaks lt._klt = .ok lt._Slt

/-- The state of the indices inside the `while` loop of `rainflow`: `_jlt` is the index
of the last stored peak, `_klt` is at most `_jlt` and below it once three points are
stored, and `_Slt` is the peak at `_klt`. -/
def rainflow_loop_inv (lt : lifetime_t F) : Prop :=
  lt._jlt + 1 = (lt._Peaks.length : Int) ∧ 0 ≤ lt._klt ∧ lt._klt ≤ lt._jlt
    ∧ (2 ≤ lt._jlt → lt._klt < lt._jlt) ∧ peakAt lt._Peaks lt._klt = .ok lt._Slt

end Lifetime

section Capacity

variable {F : Type} [LinearOrderedField F]

/-- Members of the base class `capacity_t`. -/
structure capacity_t (F : Type) where
  _q0 : F
  _I : F
  _V : F
  _P : F
  _SOC : F
  _DOD : F
  _prev_charging : Bool
  _chargeChange : Bool

/-- The constructor `capacity_t::capacity_t(q, V)`. -/
def capacity_t.init (q V : F) : capacity_t F :=
  { _q0 := q, _I := 0, _V := V, _P := 0, _SOC := 100, _DOD := 0,
    _prev_charging := false, _chargeChange := false }

/-- Members added by `capacity_kibam_t`. -/
structure capacity_kibam_t (F : Type) extends capacity_t F where
  _q10 : F
  _q20 : F
  _I20 : F
  _q1 : F
  _q2 : F
  _t1 : F
  _t2 : F
  _F1 : F
  _F2 : F
  _k : F
  _c : F
  _qmax : F
  _qmaxI : F
  _q1_0 : F
  _q2_0 : F

/-- The function `capacity_kibam_t::c_compute`, split into numerator and denominator. -/
def c_compute_num (ex : F → F) (F_ t1 t2 k_guess : F) : F :=
  F_ * (1 - ex (-k_guess * t1)) * t2 - (1 - ex (-k_guess * t2)) * t1

/-- Denominator of `capacity_kibam_t::c_compute`. -/
def c_compute_denom (ex : F → F) (F_ t1 t2 k_guess : F) : F :=
  F_ * (1 - ex (-k_guess * t1)) * t2 - (1 - ex (-k_guess * t2)) * t1
    - k_guess * F_ * t1 * t2 + k_guess * t1 * t2

/-- The function `capacity_kibam_t::c_compute`. -/
def c_compute (ex : F → F) (F_ t1 t2 k_guess : F) : F :=
  c_compute_num ex F_ t1 t2 k_guess / c_compute_denom ex F_ t1 t2 k_guess

/-- The function `capacity_kibam_t::q1_compute`. -/
def capacity_kibam_t.q1_compute (ex : F → F) (kb : capacity_kibam_t F) (q10 q0 dt I : F) : F :=
  let A := q10 * ex (-kb._k * dt)
  let B := (q0 * kb._k * kb._c - I) * (1 - ex (-kb._k * dt)) / kb._k
  let C := I * kb._c * (kb._k * dt - 1 + ex (-kb._k * dt)) / kb._k
  A + B - C

/-- The function `capacity_kibam_t::q2_compute`. -/
def capacity_kibam_t.q2_compute (ex : F → F) (kb : capacity_kibam_t F) (q20 q0 dt I : F) : F :=
  let A := q20 * ex (-kb._k * dt)
  let B := q0 * (1 - kb._c) * (1 - ex (-kb._k * dt))
  let C := I * (1 - kb._c) * (kb._k * dt - 1 + ex (-kb._k * dt)) / kb._k
  A + B - C

/-- The function `capacity_kibam_t::Icmax_compute`. -/
def capacity_kibam_t.Icmax_compute (ex : F → F) (kb : capacity_kibam_t F) (q10 q0 dt : F) : F :=
  let num := -kb._k * kb._c * kb._qmax + kb._k * q10 * ex (-kb._k * dt)
    + q0 * kb._k * kb._c * (1 - ex (-kb._k * dt))
  let denom := 1 - ex (-kb._k * dt) + kb._c * (kb._k * dt - 1 + ex (-kb._k * dt))
  num / denom

/-- The function `capacity_kibam_t::Idmax_compute`. -/
def capacity_kibam_t.Idmax_compute (ex : F → F) (kb : capacity_kibam_t F) (q10 q0 dt : F) : F :=
  let num := kb._k * q10 * ex (-kb._k * dt) + q0 * kb._k * kb._c * (1 - ex (-kb._k * dt))
  let denom := 1 - ex (-kb._k * dt) + kb._c * (kb._k * dt - 1 + ex (-kb._k * dt))
  num / denom

/-- The function `capacity_kibam_t::qmax_compute`. -/
def capacity_kibam_t.qmax_compute (ex : F → F) (kb : capacity_kibam_t F) : F :=
  let num := kb._q20 * ((1 - ex (-kb._k * 20)) * (1 - kb._c) + kb._k * kb._c * 20)
  let denom := kb._k * kb._c * 20
  num / denom

/-- The function `capacity_kibam_t::qmax_of_i_compute`. -/
def capacity_kibam_t.qmax_of_i_compute (ex : F → F) (kb : capacity_kibam_t F) (T : F) : F :=
  (kb._qmax * kb._k * kb._c * T)
    / (1 - ex (-kb._k * T) + kb._c * (kb._k * T - 1 + ex (-kb._k * T)))

/-- One pass of the body of the `for` loop of `capacity_kibam_t::parameter_compute`, for
the loop counter `i`; the loop variables carried along are `minRes`, `_k` and `_c`.
When a denominator of `c_compute` is zero the source obtains an infinity or a NaN, for
which the test `fabs(c1 - c2) < minRes` is false; the guard on the denominators keeps
that outcome. -/
def parameter_compute_body (ex : F → F) (F1 F2 t1 t2 : F) (acc : F × F × F) (i : Nat) :
    F × F × F :=
  let k_guess : F := (i : F) * (1 / 1000)
  let c1 := c_compute ex F1 t1 20 k_guess
  let c2 := c_compute ex F2 t1 t2 k_guess
  if c_compute_denom ex F1 t1 20 k_guess ≠ 0 ∧ c_compute_denom ex F2 t1 t2 k_guess ≠ 0
      ∧ |c1 - c2| < acc.1 then
    (|c1 - c2|, k_guess, (1 / 2) * (c1 + c2))
  else acc

/-- The function `capacity_kibam_t::parameter_compute`.  The members `_k` and `_c` keep
the value they had on entry when no grid point passes the test. -/
def capacity_kibam_t.parameter_compute (ex : F → F) (kb : capacity_kibam_t F) :
    capacity_kibam_t F :=
  let r := (List.range 5000).foldl (parameter_compute_body ex kb._F1 kb._F2 kb._t1 kb._t2)
    (10000, kb._k, kb._c)
  let kb1 := { kb with _k := r.2.1, _c := r.2.2 }
  { kb1 with _qmax := kb1.qmax_compute ex }

/-- The constructor `capacity_kibam_t::capacity_kibam_t`.  The members `_k` and `_c` are
not initialised before `parameter_compute` runs; `k_init` and `c_init` stand for the
indeterminate values they hold at that point. -/
def capacity_kibam_t.init (ex : F → F) (k_init c_init : F)
    (q10 q20 I20 V t1 t2 q1 q2 : F) : capacity_kibam_t F :=
  let kb0 : capacity_kibam_t F :=
    { capacity_t.init q20 V with
      _q10 := q10, _q20 := q20, _I20 := I20, _q1 := q1, _q2 := q2, _t1 := t1, _t2 := t2,
      _F1 := q1 / q20, _F2 := q1 / q2, _k := k_init, _c := c_init,
      _qmax := 0, _qmaxI := 0, _q1_0 := 0, _q2_0 := 0 }
  let kb1 := kb0.parameter_compute ex
  let T := kb1._q0 / kb1._I20
  let kb2 := { kb1 with _qmaxI := kb1.qmax_of_i_compute ex T }
  let kb3 := { kb2 with _q0 := kb2._q20 }
  let kb4 := { kb3 with _q1_0 := kb3._q0 * kb3._c }
  { kb4 with _q2_0 := kb4._q0 - kb4._q1_0 }

/-- The function `capacity_kibam_t::updateCapacity`. -/
def capacity_kibam_t.updateCapacity (ex : F → F) (kb : capacity_kibam_t F)
    (P V dt : F) (_cycles : Int) : capacity_kibam_t F :=
  let I0 : F := P / V
  -- clamp the current and record the direction
  let (I, charging, no_charge) : F × Bool × Bool :=
    if I0 > 0 then
      let Idmax := kb.Idmax_compute ex kb._q1_0 kb._q0 dt
      let Id := min I0 Idmax
      (Id, false, false)
    else if I0 < 0 then
      let Icmax := kb.Icmax_compute ex kb._q1_0 kb._q0 dt
      let Ic := -(min |I0| |Icmax|)
      (Ic, true, false)
    else (I0, false, true)
  -- check if charge changed
  let chargeChange : Bool :=
    if charging ≠ kb._prev_charging ∧ no_charge = false then true else false
  -- new charge levels
  let q1 := kb.q1_compute ex kb._q1_0 kb._q0 dt I
  let q2 := kb.q2_compute ex kb._q2_0 kb._q0 dt I
  -- update max charge at this current
  let qmaxI := if |I| > 0 then kb.qmax_of_i_compute ex |kb._qmaxI / I| else kb._qmaxI
  -- update the SOC
  let SOC0 := ((q1 + q2) / kb._qmax) * 100
  let SOC := if SOC0 > 100 then 100 else if SOC0 < 0 then 0 else SOC0
  let DOD := 100 - SOC
  { kb with
    _chargeChange := chargeChange, _qmaxI := qmaxI, _SOC := SOC, _DOD := DOD,
    _q1_0 := q1, _q2_0 := q2, _q0 := q1 + q2, _I := I, _V := V, _P := P,
    _prev_charging := if I > 0 then false else true }

/-- The function `capacity_kibam_t::updateCapacityForThermal`; `capacity_percent` is
the value of `thermal->getCapacityPercent()`. -/
def capacity_kibam_t.updateCapacityForThermal (kb : capacity_kibam_t F)
    (capacity_percent : F) : capacity_kibam_t F :=
  { kb with
    _q0 := kb._q0 * (capacity_percent * (1 / 100)),
    _q1_0 := kb._q1_0 * (capacity_percent * (1 / 100)),
    _q2_0 := kb._q2_0 * (capacity_percent * (1 / 100)) }

/-- Members added by `capacity_lithium_ion_t`.  `_a0 .. _a3` are the coefficients
`_a[0] .. _a[3]` of the cubic that the constructor obtains from `lsqfit`. -/
structure capacity_lithium_ion_t (F : Type) extends capacity_t F where
  _qmax : F
  _qmax0 : F
  _a0 : F
  _a1 : F
  _a2 : F
  _a3 : F

/-- The function `third_order_polynomial(cycles, a, user_data)`. -/
def third_order_polynomial (cycles a0 a1 a2 a3 : F) : F :=
  a0 + a1 * cycles + a2 * cycles ^ 2 + a3 * cycles ^ 3

/-- The constructor `capacity_lithium_ion_t::capacity_lithium_ion_t`, given the
coefficients returned by the curve fit. -/
def capacity_lithium_ion_t.init (q V a0 a1 a2 a3 : F) : capacity_lithium_ion_t F :=
  { capacity_t.init q V with _qmax := q, _qmax0 := q, _a0 := a0, _a1 := a1, _a2 := a2, _a3 := a3 }

/-- The function `capacity_lithium_ion_t::updateCapacity`. -/
def capacity_lithium_ion_t.updateCapacity (li : capacity_lithium_ion_t F)
    (P V dt : F) (cycles : Int) : capacity_lithium_ion_t F :=
  let q0_old := li._q0
  -- update maximum capacity based on number of cycles
  let capacity_modifier := third_order_polynomial (cycles : F) li._a0 li._a1 li._a2 li._a3
  let s1 : capacity_lithium_ion_t F := { li with _qmax := li._qmax0 * capacity_modifier / 100 }
  let s2 : capacity_lithium_ion_t F := { s1 with _I := P / V, _P := P }
  let charging : Bool := if s2._I < 0 then true else false
  let no_charge : Bool := if s2._I < 0 then false else if s2._I = 0 then true else false
  -- check if charge changed
  let s3 : capacity_lithium_ion_t F :=
    { s2 with _chargeChange :=
        if charging ≠ s2._prev_charging ∧ no_charge = false then true else false }
  -- update for next time
  let s4 : capacity_lithium_ion_t F :=
    { s3 with _prev_charging := if s3._I < 0 then true else false }
  -- update charge (I > 0 discharging, I < 0 charging)
  let s5 : capacity_lithium_ion_t F := { s4 with _q0 := s4._q0 - s4._I * dt }
  -- check if overcharged
  let s6 : capacity_lithium_ion_t F :=
    if s5._q0 > s5._qmax then
      let I := -(s5._qmax - q0_old) / dt
      { s5 with _I := I, _P := I * V, _q0 := s5._qmax }
    else s5
  -- check if undercharged
  let s7 : capacity_lithium_ion_t F :=
    if s6._q0 < 0 then
      let I := q0_old / dt
      { s6 with _I := I, _P := I * V, _q0 := 0 }
    else s6
  -- update SOC, DOD
  let s8 : capacity_lithium_ion_t F := { s7 with _SOC := (s7._q0 / s7._qmax) * 100 }
  { s8 with _DOD := 100 - s8._SOC }

/-- The function `capacity_lithium_ion_t::updateCapacityForThermal`; `capacity_percent`
is the value of `thermal->getCapacityPercent()`. -/
def capacity_lithium_ion_t.updateCapacityForThermal (li : capacity_lithium_ion_t F)
    (capacity_percent : F) : capacity_lithium_ion_t F :=
  { li with _q0 := li._q0 * (capacity_percent * (1 / 100)) }

/-- The inputs of one call of `battery_t::runCapacityModel` on a Lithium-ion model: the
power and voltage passed to `updateCapacity`, the cycle count, and the value of
`thermal->getCapacityPercent()` used by `updateCapacityForThermal`. -/
structure capacity_step (F : Type) where
  P : F
  V : F
  cycles : Int
  capacity_percent : F

/-- A run of `battery_t::runCapacityModel` calls on a Lithium-ion model
(`updateCapacity`, then `updateCapacityForThermal`, once per step): the list of the
states right after each `updateCapacity` call. -/
def capacity_lithium_ion_t.runSteps (li : capacity_lithium_ion_t F) (dt : F) :
    List (capacity_step F) → List (capacity_lithium_ion_t F)
  | [] => []
  | s :: rest =>
    let li1 := li.updateCapacity s.P s.V dt s.cycles
    li1 :: (li1.updateCapacityForThermal s.capacity_percent).runSteps dt rest

/-- A capacity model behind a `capacity_t *`: one of the two derived classes. -/
inductive capacity (F : Type) where
  | kibam : capacity_kibam_t F → capacity F
  | lithium_ion : capacity_lithium_ion_t F → capacity F

/-- The base-class part of a capacity model. -/
def capacity.base : capacity F → capacity_t F
  | .kibam kb => kb.tocapacity_t
  | .lithium_ion li => li.tocapacity_t

/-- The accessor `capacity_t::chargeChanged`. -/
def capacity.chargeChanged (c : capacity F) : Bool := c.base._chargeChange

/-- The accessor `capacity_t::SOC`. -/
def capacity.SOC (c : capacity F) : F := c.base._SOC

/-- The accessor `capacity_t::DOD`. -/
def capacity.DOD (c : capacity F) : F := c.base._DOD

/-- The accessor `capacity_t::q0`. -/
def capacity.q0 (c : capacity F) : F := c.base._q0

/-- The accessor `capacity_t::I`. -/
def capacity.I (c : capacity F) : F := c.base._I

/-- The accessor `capacity_t::P`. -/
def capacity.P (c : capacity F) : F := c.base._P

/-- The virtual accessor `q1()`: `_q1_0` for KiBaM, `_q0` for Lithium-ion. -/
def capacity.q1 : capacity F → F
  | .kibam kb => kb._q1_0
  | .lithium_ion li => li._q0

/-- The virtual accessor `qmax()`. -/
def capacity.qmax : capacity F → F
  | .kibam kb => kb._qmax
  | .lithium_ion li => li._qmax

/-- The virtual accessor `qmaxI()`: `_qmaxI` for KiBaM, `_qmax` for Lithium-ion. -/
def capacity.qmaxI : capacity F → F
  | .kibam kb => kb._qmaxI
  | .lithium_ion li => li._qmax

/-- The virtual function `updateCapacity(P, V, dt, cycles)`. -/
def capacity.updateCapacity (ex : F → F) (c : capacity F) (P V dt : F) (cycles : Int) :
    capacity F :=
  match c with
  | .kibam kb => .kibam (kb.updateCapacity ex P V dt cycles)
  | .lithium_ion li => .lithium_ion (li.updateCapacity P V dt cycles)

/-- The virtual function `updateCapacityForThermal(thermal)`. -/
def capacity.updateCapacityForThermal (c : capacity F) (capacity_percent : F) : capacity F :=
  match c with
  | .kibam kb => .kibam (kb.updateCapacityForThermal capacity_percent)
  | .lithium_ion li => .lithium_ion (li.updateCapacityForThermal capacity_percent)

/-- The grid value `k_guess = i * 0.001` that `parameter_compute` visits at loop
counter `i`. -/
def grid_k (i : Nat) : F := (i : F) * (1 / 1000)

/-- Both estimates `c1`, `c2` of `parameter_compute` are defined at loop counter `i`:
neither denominator of `c_compute` is zero. -/
def grid_defined (ex : F → F) (F1 F2 t1 t2 : F) (i : Nat) : Prop :=
  c_compute_denom ex F1 t1 20 (grid_k i) ≠ 0 ∧ c_compute_denom ex F2 t1 t2 (grid_k i) ≠ 0

/-- The residual `|c1 - c2|` of `parameter_compute` at loop counter `i`. -/
def grid_residual (ex : F → F) (F1 F2 t1 t2 : F) (i : Nat) : F :=
  |c_compute ex F1 t1 20 (grid_k i) - c_compute ex F2 t1 t2 (grid_k i)|

/-- The value `0.5 * (c1 + c2)` of `parameter_compute` at loop counter `i`. -/
def grid_c (ex : F → F) (F1 F2 t1 t2 : F) (i : Nat) : F :=
  (1 / 2) * (c_compute ex F1 t1 20 (grid_k i) + c_compute ex F2 t1 t2 (grid_k i))

/-- A run of `updateCapacity` calls on a capacity model at the voltage `V` and the step
`dt`, one call per requested power: the values of `chargeChanged()` and `I()` after
each call. -/
def capacity.chargeChanged_run (ex : F → F) (c : capacity F) (V dt : F) :
    List F → List (Bool × F)
  | [] => []
  | P :: Ps =>
    let c1 := c.updateCapacity ex P V dt 0
    (c1.chargeChanged, c1.I) :: capacity.chargeChanged_run ex c1 V dt Ps

end Capacity

section Voltage

variable {F : Type} [LinearOrderedField F]

/-- Members of the base class `voltage_t`. -/
structure voltage_t (F : Type) where
  _num_cells : Int
  _cell_voltage : F

/-- Members added by `voltage_dynamic_t`. -/
structure voltage_dynamic_t (F : Type) extends voltage_t F where
  _Vfull : F
  _Vexp : F
  _Vnom : F
  _Qfull : F
  _Qexp : F
  _Qnom : F
  _C_rate : F
  _R : F
  _A : F
  _B : F
  _K : F
  _E0 : F

/-- The function `voltage_dynamic_t::parameter_compute`. -/
def voltage_dynamic_t.parameter_compute (ex : F → F) (v : voltage_dynamic_t F) :
    voltage_dynamic_t F :=
  let eta : F := 995 / 1000
  let I := v._Qfull * v._C_rate
  let v1 := { v with _R := v._Vnom * (1 - eta) / (v._C_rate * v._Qnom) }
  let v2 := { v1 with _A := v1._Vfull - v1._Vexp }
  let v3 := { v2 with _B := 3 / v2._Qexp }
  let K := ((v3._Vfull - v3._Vnom + v3._A * (ex (-v3._B * v3._Qnom) - 1))
    * (v3._Qfull - v3._Qnom)) / v3._Qnom
  let v4 := { v3 with _K := K }
  { v4 with _E0 := v4._Vfull + v4._K + v4._R * I - v4._A }

/-- The constructor `voltage_dynamic_t::voltage_dynamic_t`. -/
def voltage_dynamic_t.init (ex : F → F) (num_cells : Int)
    (voltage Vfull Vnom Vexp Qfull Qexp Qnom C_rate : F) : voltage_dynamic_t F :=
  let v0 : voltage_dynamic_t F :=
    { _num_cells := num_cells, _cell_voltage := voltage,
      _Vfull := Vfull, _Vexp := Vexp, _Vnom := Vnom, _Qfull := Qfull, _Qexp := Qexp,
      _Qnom := Qnom, _C_rate := C_rate, _R := 0, _A := 0, _B := 0, _K := 0, _E0 := 0 }
  -- assume fully charged, not the nominal value
  let v1 := { v0 with _cell_voltage := v0._Vfull }
  v1.parameter_compute ex

/-- The function `voltage_dynamic_t::voltage_model_tremblay_hybrid`. -/
def voltage_dynamic_t.voltage_model_tremblay_hybrid (ex : F → F) (v : voltage_dynamic_t F)
    (Q I q0 dt : F) : F :=
  let term1 := v._E0 - v._R * I
  let f := 1 - q0 / Q
  let term2 := v._K * (1 / (1 - f))
  let term3 := v._A * ex (-v._B * I * dt)
  term1 - term2 + term3

/-- The function `voltage_dynamic_t::updateVoltage`. -/
def voltage_dynamic_t.updateVoltage (ex : F → F) (v : voltage_dynamic_t F)
    (cap : capacity F) (dt : F) : voltage_dynamic_t F :=
  let Q := cap.qmaxI
  let I := cap.I
  let q0 := cap.q0
  if q0 / Q > 1 / 100 then
    let V := v.voltage_model_tremblay_hybrid ex (Q / (v._num_cells : F))
      (|I| / (v._num_cells : F)) (q0 / (v._num_cells : F)) dt
    { v with _cell_voltage := V }
  else v

/-- A voltage model behind a `voltage_t *`: one of the two derived classes;
`voltage_basic_t` adds no member. -/
inductive voltage (F : Type) where
  | dynamic : voltage_dynamic_t F → voltage F
  | basic : voltage_t F → voltage F

/-- The base-class part of a voltage model. -/
def voltage.base : voltage F → voltage_t F
  | .dynamic v => v.tovoltage_t
  | .basic v => v

/-- The accessor `voltage_t::battery_voltage`. -/
def voltage.battery_voltage (v : voltage F) : F :=
  (v.base._num_cells : F) * v.base._cell_voltage

/-- The accessor `voltage_t::cell_voltage`. -/
def voltage.cell_voltage (v : voltage F) : F := v.base._cell_voltage

/-- The virtual function `updateVoltage(capacity, dt)`; a no-op for `voltage_basic_t`. -/
def voltage.updateVoltage (ex : F → F) (v : voltage F) (cap : capacity F) (dt : F) :
    voltage F :=
  match v with
  | .dynamic d => .dynamic (d.updateVoltage ex cap dt)
  | .basic b => .basic b

end Voltage

section Thermal

variable {F : Type} [LinearOrderedField F]

/-- Members of `thermal_t`.  The table `_cap_vs_temp` is held through its interpolant:
`_cap_vs_temp T` is the value of `util::linterp_col(_cap_vs_temp, 0, T, 1)`, a routine
that is not among the sources.  `_hours_to_seconds` is the constant of that name
declared in the header. -/
structure thermal_t (F : Type) where
  _cap_vs_temp : F → F
  _mass : F
  _length : F
  _width : F
  _height : F
  _Cp : F
  _h : F
  _T_room : F
  _R : F
  _capacity_percent : F
  _A : F
  _T_battery : F
  _hours_to_seconds : F

/-- The constructor `thermal_t::thermal_t`; `interp` is the interpolant of the
converted table. -/
def thermal_t.init (hours_to_seconds mass length width height Cp h T_room R : F)
    (interp : F → F) : thermal_t F :=
  { _cap_vs_temp := interp, _mass := mass, _length := length, _width := width,
    _height := height, _Cp := Cp, _h := h, _T_room := T_room, _R := R,
    _capacity_percent := 100,
    _A := 2 * (length * width + length * height + width * height),
    _T_battery := T_room, _hours_to_seconds := hours_to_seconds }

/-- The function `thermal_t::f`. -/
def thermal_t.f (th : thermal_t F) (T_battery I : F) : F :=
  (1 / (th._mass * th._Cp)) * ((th._h * (th._T_room - T_battery) * th._A) + I ^ 2 * th._R)

/-- The function `thermal_t::rk4`. -/
def thermal_t.rk4 (th : thermal_t F) (I dt : F) : F :=
  let k1 := dt * th.f th._T_battery I
  let k2 := dt * th.f (th._T_battery + k1 / 2) I
  let k3 := dt * th.f (th._T_battery + k2 / 2) I
  let k4 := dt * th.f (th._T_battery + k3) I
  th._T_battery + (1 / 6) * (k1 + k4) + (1 / 3) * (k2 + k3)

/-- The function `thermal_t::trapezoidal`. -/
def thermal_t.trapezoidal (th : thermal_t F) (I dt : F) : F :=
  let B := 1 / (th._mass * th._Cp)
  let C := th._h * th._A
  let D := I ^ 2 * th._R
  let T_prime := th.f th._T_battery I
  (th._T_battery + (1 / 2) * dt * (T_prime + B * (C * th._T_room + D)))
    / (1 + (1 / 2) * dt * B * C)

/-- The function `thermal_t::updateTemperature`. -/
def thermal_t.updateTemperature (th : thermal_t F) (I dt : F) : thermal_t F :=
  let T_new := th.trapezoidal I (dt * th._hours_to_seconds)
  { th with _T_battery := T_new }

/-- The function `thermal_t::getCapacityPercent`. -/
def thermal_t.getCapacityPercent (th : thermal_t F) : F :=
  100 * th._cap_vs_temp th._T_battery

/-- The accessor `thermal_t::T_battery`. -/
def thermal_t.T_battery (th : thermal_t F) : F := th._T_battery

end Thermal

section BatteryAndBank

variable {F : Type} [LinearOrderedField F]

/-- Members of `battery_t`; the four sub-models are owned by value. -/
structure battery_t (F : Type) where
  _capacity : capacity F
  _lifetime : lifetime_t F
  _voltage : voltage F
  _thermal : thermal_t F
  _firstStep : Bool
  _dt : F
  _power_conversion_efficiency : F

/-- The constructor `battery_t::battery_t(power_conversion_efficiency, dt)` followed by
`battery_t::initialize`. -/
def battery_t.init (power_conversion_efficiency dt : F) (cap : capacity F)
    (vol : voltage F) (life : lifetime_t F) (therm : thermal_t F) : battery_t F :=
  { _capacity := cap, _lifetime := life, _voltage := vol, _thermal := therm,
    _firstStep := true, _dt := dt,
    _power_conversion_efficiency := power_conversion_efficiency }

/-- The function `battery_t::battery_voltage`. -/
def battery_t.battery_voltage (b : battery_t F) : F := b._voltage.battery_voltage

/-- The function `battery_t::cell_voltage`. -/
def battery_t.cell_voltage (b : battery_t F) : F := b._voltage.cell_voltage

/-- The function `battery_t::runLifetimeModel`. -/
def battery_t.runLifetimeModel (ex : F → F) (b : battery_t F) (DOD : F) :
    Except Fault (battery_t F) := do
  let lt ← rainflow ex b._lifetime DOD
  .ok { b with _lifetime := lt }

/-- The function `battery_t::runThermalModel`. -/
def battery_t.runThermalModel (b : battery_t F) (I : F) : battery_t F :=
  { b with _thermal := b._thermal.updateTemperature I b._dt }

/-- The function `battery_t::runCapacityModel`. -/
def battery_t.runCapacityModel (ex : F → F) (b : battery_t F) (P V : F) : battery_t F :=
  let c1 := b._capacity.updateCapacity ex P V b._dt b._lifetime.cycles_elapsed
  let c2 := c1.updateCapacityForThermal b._thermal.getCapacityPercent
  { b with _capacity := c2 }

/-- The function `battery_t::runVoltageModel`. -/
def battery_t.runVoltageModel (ex : F → F) (b : battery_t F) : battery_t F :=
  { b with _voltage := b._voltage.updateVoltage ex b._capacity b._dt }

/-- The function `battery_t::run`. -/
def battery_t.run (ex : F → F) (b : battery_t F) (P : F) : Except Fault (battery_t F) := do
  let lastDOD := b._capacity.DOD
  let b1 ←
    if b._capacity.chargeChanged || b._firstStep then do
      let r ← b.runLifetimeModel ex lastDOD
      pure { r with _firstStep := false }
    else pure b
  -- compute temperature at end of timestep
  let b2 := b1.runThermalModel (P / b1.battery_voltage)
  let b3 := b2.runCapacityModel ex P b2.battery_voltage
  .ok (b3.runVoltageModel ex)

/-- The function `battery_t::finish`. -/
def battery_t.finish (ex : F → F) (b : battery_t F) : Except Fault (battery_t F) := do
  let lt ← rainflow_finish ex b._lifetime
  .ok { b with _lifetime := lt }

/-- The function `battery_t::chargeNeededToFill`. -/
def battery_t.chargeNeededToFill (b : battery_t F) : F :=
  let charge_needed := b._capacity.qmax - b._capacity.q0
  if charge_needed > 0 then charge_needed else 0

/-- The function `battery_t::getCurrentCharge`. -/
def battery_t.getCurrentCharge (b : battery_t F) : F := b._capacity.q1

/-- Members of `battery_bank_t`; the battery is owned by value. -/
structure battery_bank_t (F : Type) where
  _battery : battery_t F
  _num_batteries_series : Int
  _num_batteries_parallel : Int
  _num_batteries : Int
  _battery_chemistry : Int
  _power_conversion_efficiency : F

/-- The constructor `battery_bank_t::battery_bank_t`. -/
def battery_bank_t.init (battery : battery_t F)
    (num_batteries_series num_batteries_parallel battery_chemistry : Int)
    (power_conversion_efficiency : F) : battery_bank_t F :=
  { _battery := battery,
    _num_batteries_series := num_batteries_series,
    _num_batteries_parallel := num_batteries_parallel,
    _num_batteries := num_batteries_parallel + num_batteries_series,
    _battery_chemistry := battery_chemistry,
    _power_conversion_efficiency := power_conversion_efficiency }

/-- The function `battery_bank_t::run`. -/
def battery_bank_t.run (ex : F → F) (bank : battery_bank_t F) (P : F) :
    Except Fault (battery_bank_t F) := do
  let b ← bank._battery.run ex (P / (bank._num_batteries_series : F))
  .ok { bank with _battery := b }

/-- The function `battery_bank_t::finish`. -/
def battery_bank_t.finish (ex : F → F) (bank : battery_bank_t F) :
    Except Fault (battery_bank_t F) := do
  let b ← bank._battery.finish ex
  .ok { bank with _battery := b }

/-- The function `battery_bank_t::bank_charge_needed`. -/
def battery_bank_t.bank_charge_needed (bank : battery_bank_t F) : F :=
  (bank._num_batteries : F) * bank._battery.chargeNeededToFill

/-- The function `battery_bank_t::bank_charge_available`. -/
def battery_bank_t.bank_charge_available (bank : battery_bank_t F) : F :=
  (bank._num_batteries : F) * bank._battery.getCurrentCharge

/-- The function `battery_bank_t::bank_voltage`. -/
def battery_bank_t.bank_voltage (bank : battery_bank_t F) : F :=
  (bank._num_batteries_series : F) * bank._battery.battery_voltage

/-- The accessor `battery_bank_t::num_batteries`. -/
def battery_bank_t.num_batteries (bank : battery_bank_t F) : Int := bank._num_batteries

/-- A sequence of `battery_t::run` calls, one per power value, first value first: the
list of the battery states after each call. -/
def battery_t.run_all (ex : F → F) (b : battery_t F) :
    List F → Except Fault (List (battery_t F))
  | [] => .ok []
  | P :: Ps => do
    let b1 ← b.run ex P
    let rest ← battery_t.run_all ex b1 Ps
    .ok (b1 :: rest)

/-- The depth of discharge and the peak sequence of the lifetime model in each state
of a run. -/
def battery_t.dod_and_peaks (r : Except Fault (List (battery_t F))) :
    Except Fault (List (F × List F)) :=
  match r with
  | .ok bs => .ok (bs.map fun b => (b._capacity.DOD, b._lifetime._Peaks))
  | .error e => .error e

end BatteryAndBank

section Dispatch

variable {F : Type} [LinearOrderedField F]

/-- Modelled from the spec: `util::hours_in_month(month)`, the 1-based hours-in-month
lookup, is not among the sources; the table is the one of a non-leap year. -/
def hours_in_month (month : Int) : Int :=
  if 1 ≤ month then
    ([744, 672, 744, 720, 744, 720, 744, 744, 720, 744, 720, 744][(month - 1).toNat]?).getD 0
  else 0

/-- The `for` loop of `getMonthHour`, entered with `n` months left to visit, the loop
counter `month` and the running sum `tmpSum`; returns the values stored through
`out_month` and `out_hour`.  `floor((float)(hourOfYear) / 24)` is the floor division. -/
def getMonthHour_loop (hourOfYear : Int) : Nat → Int → Int → Int × Int
  | 0, month, _ => (month, 0)
  | n + 1, month, tmpSum =>
    let hoursInMonth := hours_in_month month
    let tmpSum1 := tmpSum + hoursInMonth
    if hourOfYear + 1 ≤ tmpSum1 then
      let tmp := hourOfYear / 24
      (month, (hourOfYear + 1) - (tmp * 24))
    else getMonthHour_loop hourOfYear n (month + 1) tmpSum1

/-- The function `getMonthHour(hourOfYear, out_month, out_hour)`. -/
def getMonthHour (hourOfYear : Int) : Int × Int :=
  getMonthHour_loop hourOfYear 12 1 0

/-- Constants `watt_to_kilowatt` and `kilowatt_to_watt` declared in the header, which is
not among the sources; their values are parameters. -/
structure units_t (F : Type) where
  watt_to_kilowatt : F
  kilowatt_to_watt : F

/-- Members of the base class `dispatch_t`; the bank behind `_BatteryBank` is held by
value. -/
structure dispatch_t (F : Type) where
  _BatteryBank : battery_bank_t F
  _dt : F
  _pv_to_load : F
  _battery_to_load : F
  _grid_to_load : F
  _e_tofrom_batt : F
  _e_grid : F
  _mode : Int

/-- The constructor `dispatch_t::dispatch_t`. -/
def dispatch_t.init (BatteryBank : battery_bank_t F) (dt : F) : dispatch_t F :=
  { _BatteryBank := BatteryBank, _dt := dt, _pv_to_load := 0, _battery_to_load := 0,
    _grid_to_load := 0, _e_tofrom_batt := 0, _e_grid := 0, _mode := 0 }

/-- Members added by `dispatch_manual_t`.  `_sched` is the 12 x 24 matrix of `float`
entries; the three `bool *` members are the arrays they point to. -/
structure dispatch_manual_t (F : Type) extends dispatch_t F where
  _sched : Fin 12 → Fin 24 → ℚ
  _charge_array : List Bool
  _discharge_array : List Bool
  _gridcharge_array : List Bool
  _can_charge : Bool
  _can_discharge : Bool
  _can_grid_charge : Bool

/-- The constructor `dispatch_manual_t::dispatch_manual_t`.  The three `_can_*` members
are not initialised by the constructor; they are written before they are read. -/
def dispatch_manual_t.init (BatteryBank : battery_bank_t F) (dt : F)
    (dm_sched : Fin 12 → Fin 24 → ℚ) (dm_charge dm_discharge dm_gridcharge : List Bool) :
    dispatch_manual_t F :=
  { dispatch_t.init BatteryBank dt with
    _sched := dm_sched, _charge_array := dm_charge, _discharge_array := dm_discharge,
    _gridcharge_array := dm_gridcharge,
    _can_charge := false, _can_discharge := false, _can_grid_charge := false }

/-- The accessor `dispatch_t::energy_tofrom_battery`. -/
def dispatch_manual_t.energy_tofrom_battery (d : dispatch_manual_t F) : F := d._e_tofrom_batt

/-- The accessor `dispatch_t::energy_tofrom_grid`. -/
def dispatch_manual_t.energy_tofrom_grid (d : dispatch_manual_t F) : F := d._e_grid

/-- The accessor `dispatch_t::pv_to_load`. -/
def dispatch_manual_t.pv_to_load (d : dispatch_manual_t F) : F := d._pv_to_load

/-- The accessor `dispatch_t::battery_to_load`. -/
def dispatch_manual_t.battery_to_load (d : dispatch_manual_t F) : F := d._battery_to_load

/-- The accessor `dispatch_t::grid_to_load`. -/
def dispatch_manual_t.grid_to_load (d : dispatch_manual_t F) : F := d._grid_to_load

/-- The access `_sched(r, c)` with `int` indices. -/
def schedAt (sched : Fin 12 → Fin 24 → ℚ) (r c : Int) : Except Fault ℚ :=
  if h : (0 ≤ r ∧ r < 12) ∧ (0 ≤ c ∧ c < 24) then
    .ok (sched ⟨r.toNat, by omega⟩ ⟨c.toNat, by omega⟩)
  else .error Fault.outOfBounds

/-- Conversion of a `float` value to `int`: truncation towards zero. -/
def truncToInt (q : ℚ) : Int :=
  if 0 ≤ q then ⌊q⌋ else ⌈q⌉

/-- The value assigned to `iprofile` in `dispatch_manual_t::dispatch`:
`_sched(m - 1, h - 1) - 1` for the month and hour of `hour_of_year`. -/
def dispatch_manual_t.profileIndex (d : dispatch_manual_t F) (hour_of_year : Nat) :
    Except Fault Int := do
  let (m, h) := getMonthHour (hour_of_year : Int)
  let s ← schedAt d._sched (m - 1) (h - 1)
  .ok (truncToInt (s - 1))

/-- The access `array[i]` of one of the `bool` arrays. -/
def boolAt (xs : List Bool) (i : Int) : Except Fault Bool :=
  if 0 ≤ i then
    match xs[i.toNat]? with
    | some v => .ok v
    | none => .error Fault.outOfBounds
  else .error Fault.outOfBounds

/-- The decision block of `dispatch_manual_t::dispatch` (from `_mode = 0` to the end of
the `if (e_pv > e_load) ... else if (e_load >= e_pv)` statement): the values left in
`_e_tofrom_batt` and `_mode`. -/
def dispatch_decision (e_pv e_load : F) (can_charge can_discharge can_grid_charge : Bool)
    (energyNeededToFill : F) : F × Int :=
  -- is there extra energy from array
  if e_pv > e_load then
    if can_charge then
      if e_pv - e_load > energyNeededToFill then (-(e_pv - e_load), 4)
      else if can_grid_charge then (-energyNeededToFill, 2)
      else (-(e_pv - e_load), 3)
    else if can_grid_charge then (-energyNeededToFill, 1)
    else (0, 0)
  -- or, is the demand greater than or equal to what the array provides
  else if e_load ≥ e_pv then
    if can_discharge then (e_load - e_pv, -1)
    else if can_grid_charge then (-energyNeededToFill, 1)
    else (0, 0)
  else (0, 0)

/-- The function `dispatch_manual_t::dispatch`. -/
def dispatch_manual_t.dispatch (ex : F → F) (u : units_t F) (d : dispatch_manual_t F)
    (hour_of_year : Nat) (e_pv e_load : F) : Except Fault (dispatch_manual_t F) := do
  let iprofile ← d.profileIndex hour_of_year
  let can_charge ← boolAt d._charge_array iprofile
  let can_discharge ← boolAt d._discharge_array iprofile
  let can_grid_charge ← boolAt d._gridcharge_array iprofile
  let d1 : dispatch_manual_t F :=
    { d with _can_charge := can_charge, _can_discharge := can_discharge,
             _can_grid_charge := can_grid_charge }
  -- current charge state of battery from last time step
  let chargeNeededToFill := d1._BatteryBank.bank_charge_needed
  let bank_voltage := d1._BatteryBank.bank_voltage
  let energyNeededToFill := (chargeNeededToFill * bank_voltage) * u.watt_to_kilowatt
  let r := dispatch_decision e_pv e_load d1._can_charge d1._can_discharge
    d1._can_grid_charge energyNeededToFill
  let d2 : dispatch_manual_t F :=
    { d1 with _e_grid := 0, _pv_to_load := 0, _battery_to_load := 0, _grid_to_load := 0,
              _e_tofrom_batt := r.1, _mode := r.2 }
  -- run battery model to update charge based on charge/discharge
  let bank ← d2._BatteryBank.run ex (u.kilowatt_to_watt * d2._e_tofrom_batt / d2._dt)
  let d3 : dispatch_manual_t F := { d2 with _BatteryBank := bank }
  -- update how much power was actually used to/from battery
  let current := d3._BatteryBank._battery._capacity.I
  let d4 : dispatch_manual_t F :=
    { d3 with _e_tofrom_batt := current * bank_voltage * d3._dt / 1000 }
  -- update how much power was actually used to/from grid
  let d5 : dispatch_manual_t F := { d4 with _e_grid := e_pv + d4._e_tofrom_batt - e_load }
  -- next, get how much of each component will meet the load
  if e_pv > e_load then
    .ok { d5 with _pv_to_load := e_load }
  else
    let d6 : dispatch_manual_t F := { d5 with _pv_to_load := e_pv }
    let d7 : dispatch_manual_t F :=
      if d6._e_tofrom_batt > 0 then { d6 with _battery_to_load := d6._e_tofrom_batt } else d6
    .ok { d7 with _grid_to_load := e_load - (d7._pv_to_load + d7._battery_to_load) }

/-- The priority table of the dispatch decision as the specification words it: the pair
of the mode and the requested battery energy (negative = charge) for PV energy `pv`,
load `load`, the three permissions and the energy `need` needed to fill the bank. -/
def dispatch_priority_table (pv load : F) (canCharge canDischarge canGridCharge : Bool)
    (need : F) : Int × F :=
  if pv > load then
    if canCharge = true ∧ pv - load > need then (4, -(pv - load))
    else if canCharge = true ∧ canGridCharge = true then (2, -need)
    else if canCharge = true then (3, -(pv - load))
    else if canGridCharge = true then (1, -need)
    else (0, 0)
  else
    if canDischarge = true then (-1, load - pv)
    else if canGridCharge = true then (1, -need)
    else (0, 0)

/-- The number of hours of the year up to the end of month `m` (1-based; 0 for `m = 0`)
according to `hours_in_month`. -/
def hours_through_month : Nat → Int
  | 0 => 0
  | m + 1 => hours_through_month m + hours_in_month ((m : Int) + 1)

end Dispatch

section Samples

/-- A stand-in for `exp` on `ℚ`, used to run the model on concrete inputs. -/
def sample_ex : ℚ → ℚ := fun x => 1 + x

/-- A lifetime model on `ℚ` whose fitted curve is `life R = 1000 - 10 * R` under
`sample_ex`. -/
def sample_lifetime : lifetime_t ℚ := lifetime_t.init 0 1000 (-1 / 100) 0 0

/-- A Lithium-ion capacity model on `ℚ`: 100 Ah, no fade. -/
def sample_capacity : capacity ℚ :=
  capacity.lithium_ion (capacity_lithium_ion_t.init 100 12 100 0 0 0)

/-- A basic voltage model on `ℚ`: 4 cells of 3 V. -/
def sample_voltage : voltage ℚ := voltage.basic ⟨4, 3⟩

/-- A thermal model on `ℚ` whose capacity table is constant at 100 %. -/
def sample_thermal : thermal_t ℚ :=
  thermal_t.init 3600 1 1 1 1 1000 0 293 (1 / 100) (fun _ => 1)

/-- A battery on `ℚ` built from the sample sub-models, with a time step of one hour. -/
def sample_battery : battery_t ℚ :=
  battery_t.init 1 1 sample_capacity sample_voltage sample_lifetime sample_thermal

/-- A bank of 2 units in series and 3 strings in parallel. -/
def sample_bank : battery_bank_t ℚ := battery_bank_t.init sample_battery 2 3 0 1

/-- The unit constants with the values 1/1000 and 1000. -/
def sample_units : units_t ℚ := ⟨1 / 1000, 1000⟩

/-- A manual dispatch controller whose schedule uses profile 1 in every hour. -/
def sample_dispatch : dispatch_manual_t ℚ :=
  dispatch_manual_t.init sample_bank 1 (fun _ _ => 1)
    [true, true, false, false] [true, false, true, false] [false, true, false, false]

/-- A manual dispatch controller whose schedule holds the value 5 in every hour, that
is, profile index 4. -/
def sample_dispatch_bad_schedule : dispatch_manual_t ℚ :=
  dispatch_manual_t.init sample_bank 1 (fun _ _ => 5)
    [true, true, false, false] [true, false, true, false] [false, true, false, false]

/-- A KiBaM state on `ℚ` with `q1 = 40`, `q2 = 60`, `q0 = 100`. -/
def sample_kibam : capacity_kibam_t ℚ :=
  { capacity_t.init 100 12 with
    _q10 := 90, _q20 := 100, _I20 := 5, _q1 := 75, _q2 := 50, _t1 := 1, _t2 := 3,
    _F1 := 3 / 4, _F2 := 3 / 2, _k := 1 / 2, _c := 2 / 5, _qmax := 120, _qmaxI := 100,
    _q1_0 := 40, _q2_0 := 60 }

/-- Three discharge steps at 720 W and 12 V (60 A) for the sample Lithium-ion model. -/
def sample_steps : List (capacity_step ℚ) :=
  [⟨720, 12, 0, 100⟩, ⟨720, 12, 1, 90⟩, ⟨720, 12, 2, 100⟩]

/-- The KiBaM state of `sample_kibam` over any field. -/
def sample_kibam_of (F : Type) [LinearOrderedField F] : capacity_kibam_t F :=
  { capacity_t.init 100 12 with
    _q10 := 90, _q20 := 100, _I20 := 5, _q1 := 75, _q2 := 50, _t1 := 1, _t2 := 3,
    _F1 := 3 / 4, _F2 := 3 / 2, _k := 1 / 2, _c := 2 / 5, _qmax := 120, _qmaxI := 100,
    _q1_0 := 40, _q2_0 := 60 }

end Samples

/-! ## Theorems -/

section LifetimeLemmas

variable {F : Type} [LinearOrderedField F]

@[simp] theorem Except_ok_bind {ε α β : Type} (x : α) (f : α → Except ε β) :
    (Except.ok x >>= f) = f x := rfl

@[simp] theorem Except_error_bind {ε α β : Type} (e : ε) (f : α → Except ε β) :
    ((Except.error e : Except ε α) >>= f) = Except.error e := rfl

theorem compareRanges_of_lt (ex : F → F) (lt : lifetime_t F) (h : lt._Xlt < lt._Ylt) :
    rainflow_compareRanges ex lt = .ok (lt, RetCode.LT_GET_DATA) := by
  simp [rainflow_compareRanges, h]

theorem compareRanges_count (ex : F → F) (lt : lifetime_t F) (h : lt._Ylt ≤ lt._Xlt)
    (hs : startIsEndpointOfY lt = .ok false) :
    rainflow_compareRanges ex lt =
      (countRangeY ex lt >>= fun r => .ok (r, RetCode.LT_RERANGE)) := by
  rcases eq_or_lt_of_le h with h1 | h1
  · simp [rainflow_compareRanges, h1, hs]
  · simp [rainflow_compareRanges, h1, hs, not_lt.mpr h, h1.ne', h]

theorem compareRanges_contained_eq (ex : F → F) (lt : lifetime_t F) (h : lt._Xlt = lt._Ylt)
    (hs : startIsEndpointOfY lt = .ok true) :
    rainflow_compareRanges ex lt = .ok (lt, RetCode.LT_GET_DATA) := by
  simp [rainflow_compareRanges, h, hs]

theorem compareRanges_contained_gt (ex : F → F) (lt : lifetime_t F) (h : lt._Ylt < lt._Xlt)
    (hs : startIsEndpointOfY lt = .ok true) (s : F)
    (hk : peakAt lt._Peaks (lt._klt + 1) = .ok s) :
    rainflow_compareRanges ex lt =
      .ok ({ lt with _klt := lt._klt + 1, _Slt := s }, RetCode.LT_GET_DATA) := by
  simp [rainflow_compareRanges, h, hs, not_lt.mpr h.le, h.ne', h.le, hk]

section Trace
variable (ex : F → F) (a0 a1 a2 a3 a4 : F)

theorem trace_feed1 :
    rainflow ex (lifetime_t.init a0 a1 a2 a3 a4) 0
      = .ok ⟨a0, a1, a2, a3, a4, [0], 0, 0, 1, 0, 0, 0, 0, 0⟩ := by
  simp [rainflow, rainflow_loop, lifetime_t.init]

theorem trace_feed2 :
    rainflow ex ⟨a0, a1, a2, a3, a4, [0], 0, 0, 1, 0, 0, 0, 0, 0⟩ 40
      = .ok ⟨a0, a1, a2, a3, a4, [0, 40], 0, 0, 2, 0, 0, 0, 0, 0⟩ := by
  simp [rainflow, rainflow_loop]

theorem trace_feed3 :
    rainflow ex ⟨a0, a1, a2, a3, a4, [0, 40], 0, 0, 2, 0, 0, 0, 0, 0⟩ 20
      = .ok ⟨a0, a1, a2, a3, a4, [0, 40, 20], 0, 0, 3, 0, 20, 40, 0, 0⟩ := by
  simp [rainflow, rainflow_loop, rainflow_ranges, peakAt]
  norm_num
  rw [compareRanges_of_lt ex _ (by norm_num)]
  simp

theorem trace_feed4 (h20 : life_vs_DOD ex 20 a0 a1 a2 a3 a4 ≠ 0) :
    rainflow ex ⟨a0, a1, a2, a3, a4, [0, 40, 20], 0, 0, 3, 0, 20, 40, 0, 0⟩ 50
      = .ok ⟨a0, a1, a2, a3, a4, [0, 50], 1, 0 + 100 / life_vs_DOD ex 20 a0 a1 a2 a3 a4,
          2, 0, 30, 20, 0, 20⟩ := by
  simp [rainflow, rainflow_loop, rainflow_ranges, peakAt]
  norm_num
  rw [compareRanges_count ex _ (by norm_num) (by simp [startIsEndpointOfY, peakAt])]
  simp [countRangeY, peakAt, popBack, lifetime_t.life, h20]

theorem trace_feed5 (D : F) :
    rainflow ex ⟨a0, a1, a2, a3, a4, [0, 50], 1, D, 2, 0, 30, 20, 0, 20⟩ 10
      = .ok ⟨a0, a1, a2, a3, a4, [0, 50, 10], 1, D, 3, 0, 40, 50, 0, 20⟩ := by
  simp [rainflow, rainflow_loop, rainflow_ranges, peakAt]
  norm_num
  rw [compareRanges_of_lt ex _ (by norm_num)]
  simp

theorem trace_feed6 (D : F) :
    rainflow ex ⟨a0, a1, a2, a3, a4, [0, 50, 10], 1, D, 3, 0, 40, 50, 0, 20⟩ 30
      = .ok ⟨a0, a1, a2, a3, a4, [0, 50, 10, 30], 1, D, 4, 0, 20, 40, 0, 20⟩ := by
  simp [rainflow, rainflow_loop, rainflow_ranges, peakAt]
  norm_num
  rw [compareRanges_of_lt ex _ (by norm_num)]
  simp

theorem trace_feed7 (D : F) (h20 : life_vs_DOD ex 20 a0 a1 a2 a3 a4 ≠ 0) :
    rainflow ex ⟨a0, a1, a2, a3, a4, [0, 50, 10, 30], 1, D, 4, 0, 20, 40, 0, 20⟩ 0
      = .ok ⟨a0, a1, a2, a3, a4, [0, 50, 0], 2, D + 100 / life_vs_DOD ex 20 a0 a1 a2 a3 a4,
          3, 0, 50, 50, 0, 20⟩ := by
  simp [rainflow, rainflow_loop, rainflow_ranges, peakAt]
  norm_num
  rw [compareRanges_count ex _ (by norm_num) (by simp [startIsEndpointOfY, peakAt])]
  simp [countRangeY, peakAt, popBack, lifetime_t.life, h20, rainflow_ranges]
  rw [compareRanges_contained_eq ex _ (by norm_num) (by simp [startIsEndpointOfY, peakAt])]
  simp

end Trace

theorem finish_inner_exit (ex : F → F) (P : F) (n : Nat) (lt : lifetime_t F) (ii : Int)
    (rc : Nat) : rainflow_finish_inner ex P (n + 1) lt ii rc false = .ok (lt, ii, rc) := by
  simp [rainflow_finish_inner]

theorem finish_inner_break (ex : F → F) (P : F) (n : Nat) (lt : lifetime_t F) (ii : Int)
    (rc : Nat) (h : lt._jlt ≤ 0) :
    rainflow_finish_inner ex P (n + 1) lt ii rc true = .ok (lt, ii, rc + 1) := by
  have h2 : ¬ (2 ≤ lt._jlt) := by omega
  have h1 : ¬ (lt._jlt = 1) := by omega
  simp [rainflow_finish_inner, h2, h1]

theorem finish_inner_next (ex : F → F) (P : F) (n : Nat) (lt lt1 : lifetime_t F) (ii : Int)
    (rc : Nat) (h : 2 ≤ lt._jlt) (hr : rainflow_ranges_circular lt ii = .ok lt1)
    (hxy : lt1._Xlt < lt1._Ylt) :
    rainflow_finish_inner ex P (n + 2) lt ii rc true = .ok (lt1, ii + 1, rc) := by
  simp [rainflow_finish_inner, h, hr, hxy]

theorem finish_inner_count (ex : F → F) (P : F) (n : Nat) (lt lt1 lt2 : lifetime_t F)
    (ii : Int) (rc : Nat) (h : 2 ≤ lt._jlt) (hr : rainflow_ranges_circular lt ii = .ok lt1)
    (hxy : lt1._Ylt ≤ lt1._Xlt) (hc : countRangeY ex lt1 = .ok lt2) :
    rainflow_finish_inner ex P (n + 1) lt ii rc true
      = rainflow_finish_inner ex P n lt2 ii rc true := by
  simp [rainflow_finish_inner, h, hr, not_lt.mpr hxy, hc]

theorem finish_outer_stop (ex : F → F) (n : Nat) (lt : lifetime_t F) (ii : Int) (rc : Nat)
    (h : 1 < rc) : rainflow_finish_outer ex (n + 1) lt ii rc = .ok lt := by
  simp [rainflow_finish_outer, not_le.mpr h]

theorem finish_outer_end (ex : F → F) (n : Nat) (lt : lifetime_t F) (ii : Int) (rc : Nat)
    (h : ¬ (0 ≤ ii ∧ ii < (lt._Peaks.length : Int))) :
    rainflow_finish_outer ex (n + 1) lt ii rc = .ok lt := by
  simp only [rainflow_finish_outer, if_neg h]
  split <;> rfl

theorem finish_outer_step (ex : F → F) (n : Nat) (lt : lifetime_t F) (ii : Int) (rc : Nat)
    (P : F) (hrc : rc ≤ 1) (hii : 0 ≤ ii ∧ ii < (lt._Peaks.length : Int))
    (hP : peakAt lt._Peaks ii = .ok P) :
    rainflow_finish_outer ex (n + 1) lt ii rc
      = (rainflow_finish_inner ex P (lt._Peaks.length + 3) lt ii
          (if P = lt._Slt then rc + 1 else rc) true
          >>= fun r => rainflow_finish_outer ex n r.1 r.2.1 r.2.2) := by
  simp only [rainflow_finish_outer, if_pos hrc, if_pos hii, hP]
  rfl

section Trace
variable (ex : F → F) (a0 a1 a2 a3 a4 : F)

theorem trace_finish (D : F) (h0 : life_vs_DOD ex 0 a0 a1 a2 a3 a4 ≠ 0) :
    rainflow_finish ex ⟨a0, a1, a2, a3, a4, [0, 50, 0], 2, D, 3, 0, 50, 50, 0, 20⟩
      = .ok ⟨a0, a1, a2, a3, a4, [0], 3, D + 100 / life_vs_DOD ex 0 a0 a1 a2 a3 a4,
          0, 0, 50, 0, 0, 0⟩ := by
  simp only [rainflow_finish, List.length_cons, List.length_nil]
  norm_num
  rw [finish_outer_step ex _ _ _ _ 0 (by norm_num) (by simp) (by simp [peakAt])]
  simp only [List.length_cons, List.length_nil]
  norm_num
  rw [finish_inner_next ex 0 4 _ ⟨a0, a1, a2, a3, a4, [0, 50, 0], 2, D, 2, 0, 0, 50, 0, 20⟩
    0 1 (by norm_num) (by simp [rainflow_ranges_circular, peakAt]) (by norm_num)]
  simp only [Except_ok_bind]
  norm_num
  rw [finish_outer_step ex _ _ _ _ 50 (by norm_num) (by simp) (by simp [peakAt])]
  simp only [List.length_cons, List.length_nil]
  norm_num
  rw [finish_inner_count ex 50 5 _ ⟨a0, a1, a2, a3, a4, [0, 50, 0], 2, D, 2, 0, 50, 0, 0, 20⟩
    ⟨a0, a1, a2, a3, a4, [0], 3, D + 100 / life_vs_DOD ex 0 a0 a1 a2 a3 a4, 0, 0, 50, 0, 0, 0⟩
    1 1 (by norm_num) (by simp [rainflow_ranges_circular, peakAt]) (by norm_num)
    (by simp [countRangeY, peakAt, popBack, lifetime_t.life, h0])]
  rw [finish_inner_break ex 50 4 _ 1 1 (by norm_num)]
  simp only [Except_ok_bind]
  rw [finish_outer_stop ex _ _ _ _ (by norm_num)]

end Trace

theorem peakAt_zero_of_ne_nil {α : Type} (xs : List α) (h : xs ≠ []) :
    ∃ P, peakAt xs 0 = .ok P := by
  cases xs with
  | nil => exact absurd rfl h
  | cons x xs => exact ⟨x, by simp [peakAt]⟩

theorem rainflow_finish_of_jlt_le_one (ex : F → F) (lt : lifetime_t F) (h : lt._jlt ≤ 1) :
    rainflow_finish ex lt = .ok { lt with _jlt := lt._jlt - 1 } := by
  unfold rainflow_finish
  generalize hlt0 : ({ lt with _jlt := lt._jlt - 1 } : lifetime_t F) = lt0
  have hj : lt0._jlt ≤ 0 := by rw [← hlt0]; simp; omega
  have hlen : lt._Peaks.length = lt0._Peaks.length := by rw [← hlt0]
  rw [hlen]
  by_cases hnil : lt0._Peaks = []
  · rw [show 2 * lt0._Peaks.length + 6 = (2 * lt0._Peaks.length + 5) + 1 from rfl,
      finish_outer_end ex _ _ _ _ (by simp [hnil])]
  · obtain ⟨P, hP⟩ := peakAt_zero_of_ne_nil _ hnil
    have hii : (0 : Int) ≤ 0 ∧ (0 : Int) < (lt0._Peaks.length : Int) := by
      refine ⟨le_refl _, ?_⟩
      have := List.length_pos.mpr hnil
      exact_mod_cast this
    rw [show 2 * lt0._Peaks.length + 6 = (2 * lt0._Peaks.length + 4) + 1 + 1 from rfl,
      finish_outer_step ex _ _ _ _ P (by norm_num) hii hP,
      show lt0._Peaks.length + 3 = (lt0._Peaks.length + 2) + 1 from rfl,
      finish_inner_break ex P _ _ _ _ hj]
    simp only [Except_ok_bind]
    by_cases hPS : P = lt0._Slt
    · rw [if_pos hPS, finish_outer_stop ex _ _ _ _ (by norm_num)]
    · rw [if_neg hPS, finish_outer_step ex _ _ _ _ P (by norm_num) hii hP,
        show lt0._Peaks.length + 3 = (lt0._Peaks.length + 2) + 1 from rfl,
        finish_inner_break ex P _ _ _ _ hj]
      simp only [Except_ok_bind]
      rw [if_neg hPS, show 2 * lt0._Peaks.length + 4 = (2 * lt0._Peaks.length + 3) + 1 from rfl,
        finish_outer_stop ex _ _ _ _ (by norm_num)]


/-- C1 (what the code computes): for every fitted curve `life` that is nonzero at 20 and
at 0, feeding 0, 40, 20, 50, 10, 30, 0 to `rainflow` from the constructed state and then
calling `rainflow_finish` once returns with `cycles_elapsed() = 3` and
`damage() = 100/life(20) + 100/life(20) + 100/life(0)`: the range counted by
`rainflow_finish` has magnitude 0 (`_Range = 0`), not 50, and the only point left is 0.
When `life(0) ≠ life(50)` the damage therefore differs from
`100/life(20) + 100/life(20) + 100/life(50)`. -/
theorem rainflow_seven_points_then_finish (ex : F → F) (a0 a1 a2 a3 a4 : F)
    (h20 : (lifetime_t.init a0 a1 a2 a3 a4).life ex 20 ≠ 0)
    (h0 : (lifetime_t.init a0 a1 a2 a3 a4).life ex 0 ≠ 0) :
    ∃ lt : lifetime_t F,
      (rainflow_all ex (lifetime_t.init a0 a1 a2 a3 a4) [0, 40, 20, 50, 10, 30, 0]
        >>= rainflow_finish ex) = .ok lt
      ∧ lt.cycles_elapsed = 3
      ∧ lt.damage = 100 / (lifetime_t.init a0 a1 a2 a3 a4).life ex 20
          + 100 / (lifetime_t.init a0 a1 a2 a3 a4).life ex 20
          + 100 / (lifetime_t.init a0 a1 a2 a3 a4).life ex 0
      ∧ lt._Range = 0
      ∧ lt._Peaks = [0]
      ∧ ((lifetime_t.init a0 a1 a2 a3 a4).life ex 0 ≠ (lifetime_t.init a0 a1 a2 a3 a4).life ex 50 →
          lt.damage ≠ 100 / (lifetime_t.init a0 a1 a2 a3 a4).life ex 20
            + 100 / (lifetime_t.init a0 a1 a2 a3 a4).life ex 20
            + 100 / (lifetime_t.init a0 a1 a2 a3 a4).life ex 50) := by
  have e20 : (lifetime_t.init a0 a1 a2 a3 a4).life ex 20 = life_vs_DOD ex 20 a0 a1 a2 a3 a4 := rfl
  have e0 : (lifetime_t.init a0 a1 a2 a3 a4).life ex 0 = life_vs_DOD ex 0 a0 a1 a2 a3 a4 := rfl
  rw [e20] at h20
  rw [e0] at h0
  refine ⟨⟨a0, a1, a2, a3, a4, [0], 3,
    0 + 100 / life_vs_DOD ex 20 a0 a1 a2 a3 a4 + 100 / life_vs_DOD ex 20 a0 a1 a2 a3 a4
      + 100 / life_vs_DOD ex 0 a0 a1 a2 a3 a4, 0, 0, 50, 0, 0, 0⟩, ?_, rfl, ?_, rfl, rfl, ?_⟩
  · simp only [rainflow_all, trace_feed1, trace_feed2, trace_feed3, trace_feed4 ex a0 a1 a2 a3 a4 h20,
      trace_feed5, trace_feed6, trace_feed7 ex a0 a1 a2 a3 a4 _ h20, Except_ok_bind,
      trace_finish ex a0 a1 a2 a3 a4 _ h0]
  · simp only [lifetime_t.damage, e20, e0, zero_add]
  · intro hne heq
    simp only [lifetime_t.damage, e20, e0, zero_add, add_right_inj] at heq
    apply hne
    rw [e0]
    have h50 : (lifetime_t.init a0 a1 a2 a3 a4).life ex 50 ≠ 0 := by
      intro hz
      rw [hz, div_zero] at heq
      exact absurd heq (div_ne_zero (by norm_num) h0)
    field_simp at heq
    linarith

/-- Witness for C1: the curve `life R = 1000 - 10 * R` on `ℚ`. -/
theorem rainflow_seven_points_then_finish_witness :
    sample_lifetime.life sample_ex 20 ≠ 0 ∧ sample_lifetime.life sample_ex 0 ≠ 0 ∧
    ∃ lt : lifetime_t ℚ,
      (rainflow_all sample_ex sample_lifetime [0, 40, 20, 50, 10, 30, 0]
        >>= rainflow_finish sample_ex) = .ok lt
      ∧ lt.cycles_elapsed = 3
      ∧ lt.damage = 100 / sample_lifetime.life sample_ex 20
          + 100 / sample_lifetime.life sample_ex 20 + 100 / sample_lifetime.life sample_ex 0
      ∧ lt._Range = 0
      ∧ lt._Peaks = [0]
      ∧ (sample_lifetime.life sample_ex 0 ≠ sample_lifetime.life sample_ex 50 →
          lt.damage ≠ 100 / sample_lifetime.life sample_ex 20
            + 100 / sample_lifetime.life sample_ex 20
            + 100 / sample_lifetime.life sample_ex 50) :=
  ⟨by norm_num [sample_lifetime, sample_ex, lifetime_t.life, lifetime_t.init, life_vs_DOD],
   by norm_num [sample_lifetime, sample_ex, lifetime_t.life, lifetime_t.init, life_vs_DOD],
   rainflow_seven_points_then_finish sample_ex 0 1000 (-1 / 100) 0 0
    (by norm_num [sample_ex, lifetime_t.life, lifetime_t.init, life_vs_DOD])
    (by norm_num [sample_ex, lifetime_t.life, lifetime_t.init, life_vs_DOD])⟩


/-- C2 (counterexample): after feeding the turning points 3, 4, 0, 4, 1 the first
`rainflow_finish` call returns with no cycle counted and no damage, and a second call
immediately after it counts one cycle (of magnitude 4) and adds its damage. -/
theorem rainflow_finish_second_call_counts :
    ∃ l l1 l2 : lifetime_t ℚ,
      rainflow_all sample_ex sample_lifetime [3, 4, 0, 4, 1] = .ok l
      ∧ rainflow_finish sample_ex l = .ok l1
      ∧ rainflow_finish sample_ex l1 = .ok l2
      ∧ l1.cycles_elapsed = 0 ∧ l2.cycles_elapsed = 1
      ∧ l1.damage = 0 ∧ l2.damage = 5 / 48 :=
  ⟨⟨0, 1000, -1 / 100, 0, 0, [3, 4, 0, 4, 1], 0, 0, 5, 1, 3, 4, 4, 0⟩,
   ⟨0, 1000, -1 / 100, 0, 0, [3, 4, 0, 4, 1], 0, 0, 4, 1, 3, 4, 4, 0⟩,
   ⟨0, 1000, -1 / 100, 0, 0, [3, 4, 4, 0], 1, 5 / 48, 2, 1, 0, 1, 4, 4⟩,
   by with_unfolding_all rfl, by with_unfolding_all rfl, by with_unfolding_all rfl,
   rfl, rfl, rfl, rfl⟩

/-- C2 (amended): in every state with `_jlt ≤ 1`, that is, when at most one pending
point is left, as in the state in which a first `rainflow_finish` call leaves a
sequence it has flushed completely, a `rainflow_finish` call returns and leaves
`cycles_elapsed()` and `damage()` exactly as they were. -/
theorem rainflow_finish_again_of_flushed (ex : F → F) (l1 : lifetime_t F)
    (h : l1._jlt ≤ 1) :
    ∃ l2 : lifetime_t F, rainflow_finish ex l1 = .ok l2
      ∧ l2.cycles_elapsed = l1.cycles_elapsed ∧ l2.damage = l1.damage :=
  ⟨_, rainflow_finish_of_jlt_le_one ex l1 h, rfl, rfl⟩

/-- Witness for C2 (amended): the state left by the first `rainflow_finish` call after
0, 40, 20, 50, 10, 30, 0. -/
theorem rainflow_finish_again_of_flushed_witness :
    (rainflow_all sample_ex sample_lifetime [0, 40, 20, 50, 10, 30, 0]
        >>= rainflow_finish sample_ex)
      = .ok ⟨0, 1000, -1 / 100, 0, 0, [0], 3, 7 / 20, 0, 0, 50, 0, 0, 0⟩
    ∧ (⟨0, 1000, -1 / 100, 0, 0, [0], 3, 7 / 20, 0, 0, 50, 0, 0, 0⟩ : lifetime_t ℚ)._jlt ≤ 1
    ∧ ∃ l2 : lifetime_t ℚ,
        rainflow_finish sample_ex ⟨0, 1000, -1 / 100, 0, 0, [0], 3, 7 / 20, 0, 0, 50, 0, 0, 0⟩
          = .ok l2
        ∧ l2.cycles_elapsed = 3 ∧ l2.damage = 7 / 20 :=
  ⟨by with_unfolding_all rfl, by decide,
   rainflow_finish_again_of_flushed sample_ex
    ⟨0, 1000, -1 / 100, 0, 0, [0], 3, 7 / 20, 0, 0, 50, 0, 0, 0⟩ (by decide)⟩


end LifetimeLemmas

section CapacityLemmas

variable {F : Type} [LinearOrderedField F]


/-- The value of `_qmax` after `capacity_lithium_ion_t::updateCapacity`. -/
theorem li_update_qmax (li : capacity_lithium_ion_t F) (P V dt : F) (cycles : Int) :
    (li.updateCapacity P V dt cycles)._qmax
      = li._qmax0 * third_order_polynomial (cycles : F) li._a0 li._a1 li._a2 li._a3 / 100 := by
  simp only [capacity_lithium_ion_t.updateCapacity]
  split_ifs <;> rfl

/-- The value of `_q0` after `capacity_lithium_ion_t::updateCapacity`: the tank after
the two clamps. -/
theorem li_update_q0 (li : capacity_lithium_ion_t F) (P V dt : F) (cycles : Int) :
    (li.updateCapacity P V dt cycles)._q0
      = if (if li._q0 - P / V * dt > (li.updateCapacity P V dt cycles)._qmax
            then (li.updateCapacity P V dt cycles)._qmax else li._q0 - P / V * dt) < 0
        then 0
        else (if li._q0 - P / V * dt > (li.updateCapacity P V dt cycles)._qmax
            then (li.updateCapacity P V dt cycles)._qmax else li._q0 - P / V * dt) := by
  rw [li_update_qmax]
  simp only [capacity_lithium_ion_t.updateCapacity]
  split_ifs <;> rfl

theorem li_update_SOC (li : capacity_lithium_ion_t F) (P V dt : F) (cycles : Int) :
    (li.updateCapacity P V dt cycles)._SOC
      = (li.updateCapacity P V dt cycles)._q0 / (li.updateCapacity P V dt cycles)._qmax * 100 := by
  simp only [capacity_lithium_ion_t.updateCapacity]

theorem li_update_DOD (li : capacity_lithium_ion_t F) (P V dt : F) (cycles : Int) :
    (li.updateCapacity P V dt cycles)._DOD = 100 - (li.updateCapacity P V dt cycles)._SOC := by
  simp only [capacity_lithium_ion_t.updateCapacity]

/-- After `capacity_lithium_ion_t::updateCapacity` the tank lies in `[0, _qmax]` when the
faded capacity is not negative. -/
theorem li_update_q0_bounds (li : capacity_lithium_ion_t F) (P V dt : F) (cycles : Int)
    (hq : 0 ≤ (li.updateCapacity P V dt cycles)._qmax) :
    0 ≤ (li.updateCapacity P V dt cycles)._q0
      ∧ (li.updateCapacity P V dt cycles)._q0 ≤ (li.updateCapacity P V dt cycles)._qmax := by
  rw [li_update_q0]
  split_ifs with h1 h2 h2
  · exact ⟨le_refl _, hq⟩
  · exact ⟨hq, le_refl _⟩
  · exact ⟨le_refl _, hq⟩
  · exact ⟨not_lt.mp h2, not_lt.mp h1⟩


theorem kibam_update_SOC_bounds (ex : F → F) (kb : capacity_kibam_t F) (P V dt : F)
    (cycles : Int) :
    0 ≤ (kb.updateCapacity ex P V dt cycles)._SOC
      ∧ (kb.updateCapacity ex P V dt cycles)._SOC ≤ 100 := by
  simp only [capacity_kibam_t.updateCapacity]
  split_ifs <;> constructor <;> first | exact not_lt.mp ‹_› | norm_num

theorem kibam_update_DOD (ex : F → F) (kb : capacity_kibam_t F) (P V dt : F) (cycles : Int) :
    (kb.updateCapacity ex P V dt cycles)._DOD = 100 - (kb.updateCapacity ex P V dt cycles)._SOC := by
  simp only [capacity_kibam_t.updateCapacity]

theorem kibam_update_q0 (ex : F → F) (kb : capacity_kibam_t F) (P V dt : F) (cycles : Int) :
    (kb.updateCapacity ex P V dt cycles)._q1_0 + (kb.updateCapacity ex P V dt cycles)._q2_0
      = (kb.updateCapacity ex P V dt cycles)._q0 := by
  simp only [capacity_kibam_t.updateCapacity]

theorem kibam_update_qmax (ex : F → F) (kb : capacity_kibam_t F) (P V dt : F) (cycles : Int) :
    (kb.updateCapacity ex P V dt cycles)._qmax = kb._qmax := by
  simp only [capacity_kibam_t.updateCapacity]


/-- The value of `_I` after `capacity_lithium_ion_t::updateCapacity`. -/
theorem li_update_I (li : capacity_lithium_ion_t F) (P V dt : F) (cycles : Int) :
    (li.updateCapacity P V dt cycles)._I
      = if (if li._q0 - P / V * dt > (li.updateCapacity P V dt cycles)._qmax
            then (li.updateCapacity P V dt cycles)._qmax else li._q0 - P / V * dt) < 0
        then li._q0 / dt
        else (if li._q0 - P / V * dt > (li.updateCapacity P V dt cycles)._qmax
            then -((li.updateCapacity P V dt cycles)._qmax - li._q0) / dt else P / V) := by
  rw [li_update_qmax]
  simp only [capacity_lithium_ion_t.updateCapacity]
  split_ifs <;> rfl

/-- The value of `_P` after `capacity_lithium_ion_t::updateCapacity`. -/
theorem li_update_P (li : capacity_lithium_ion_t F) (P V dt : F) (cycles : Int) :
    (li.updateCapacity P V dt cycles)._P
      = if (if li._q0 - P / V * dt > (li.updateCapacity P V dt cycles)._qmax
            then (li.updateCapacity P V dt cycles)._qmax else li._q0 - P / V * dt) < 0
        then li._q0 / dt * V
        else (if li._q0 - P / V * dt > (li.updateCapacity P V dt cycles)._qmax
            then -((li.updateCapacity P V dt cycles)._qmax - li._q0) / dt * V else P) := by
  rw [li_update_qmax]
  simp only [capacity_lithium_ion_t.updateCapacity]
  split_ifs <;> rfl

/-- C7: after `capacity_lithium_ion_t::updateCapacity(P, V, dt, cycles)` with `V ≠ 0` and
`dt ≠ 0`, whether or not a clamp fired, the stored current and power satisfy
`q0_after = q0_before - I * dt` and `P = I * V`; when neither clamp fires (the tank
`q0_before - (P / V) * dt` is neither above `_qmax` nor below 0) the stored current and
power are the requested `P / V` and `P`. -/
theorem lithium_ion_realized_current (li : capacity_lithium_ion_t F) (P V dt : F)
    (cycles : Int) (hV : V ≠ 0) (hdt : dt ≠ 0) :
    (li.updateCapacity P V dt cycles)._q0
        = li._q0 - (li.updateCapacity P V dt cycles)._I * dt
      ∧ (li.updateCapacity P V dt cycles)._P = (li.updateCapacity P V dt cycles)._I * V
      ∧ (¬ (li._q0 - P / V * dt > (li.updateCapacity P V dt cycles)._qmax) →
          ¬ (li._q0 - P / V * dt < 0) →
          (li.updateCapacity P V dt cycles)._I = P / V
            ∧ (li.updateCapacity P V dt cycles)._P = P) := by
  rw [li_update_q0, li_update_I, li_update_P]
  generalize (li.updateCapacity P V dt cycles)._qmax = qm
  split_ifs with h1 h2 h2
  · exact ⟨by field_simp, rfl, fun h => absurd h1 h⟩
  · exact ⟨by field_simp, rfl, fun h => absurd h1 h⟩
  · exact ⟨by field_simp, rfl, fun _ h => absurd h2 h⟩
  · exact ⟨rfl, by field_simp, fun _ _ => ⟨rfl, rfl⟩⟩


theorem kibam_init_SOC (ex : F → F) (k_init c_init q10 q20 I20 V t1 t2 q1 q2 : F) :
    (capacity_kibam_t.init ex k_init c_init q10 q20 I20 V t1 t2 q1 q2)._SOC = 100
      ∧ (capacity_kibam_t.init ex k_init c_init q10 q20 I20 V t1 t2 q1 q2)._DOD = 0 :=
  ⟨rfl, rfl⟩

theorem kibam_init_reservoirs (ex : F → F) (k_init c_init q10 q20 I20 V t1 t2 q1 q2 : F) :
    (capacity_kibam_t.init ex k_init c_init q10 q20 I20 V t1 t2 q1 q2)._q1_0
        + (capacity_kibam_t.init ex k_init c_init q10 q20 I20 V t1 t2 q1 q2)._q2_0
      = (capacity_kibam_t.init ex k_init c_init q10 q20 I20 V t1 t2 q1 q2)._q0 := by
  simp only [capacity_kibam_t.init]
  ring

/-- C4: for both capacity models, after every `updateCapacity` call (any prior state,
power, voltage, time step and cycle count) that leaves `qmax > 0`, `0 ≤ SOC ≤ 100` and
`DOD = 100 - SOC`; the same holds in the state built by either constructor. -/
theorem capacity_soc_dod_bounds (ex : F → F) (c : capacity F) (P V dt : F) (cycles : Int)
    (hq : 0 < (c.updateCapacity ex P V dt cycles).qmax) :
    (0 ≤ (c.updateCapacity ex P V dt cycles).SOC
      ∧ (c.updateCapacity ex P V dt cycles).SOC ≤ 100
      ∧ (c.updateCapacity ex P V dt cycles).DOD = 100 - (c.updateCapacity ex P V dt cycles).SOC)
    ∧ (∀ k_init c_init q10 q20 I20 V0 t1 t2 q1 q2 : F,
        0 ≤ (capacity.kibam
              (capacity_kibam_t.init ex k_init c_init q10 q20 I20 V0 t1 t2 q1 q2)).SOC
        ∧ (capacity.kibam
              (capacity_kibam_t.init ex k_init c_init q10 q20 I20 V0 t1 t2 q1 q2)).SOC ≤ 100
        ∧ (capacity.kibam
              (capacity_kibam_t.init ex k_init c_init q10 q20 I20 V0 t1 t2 q1 q2)).DOD
            = 100 - (capacity.kibam
              (capacity_kibam_t.init ex k_init c_init q10 q20 I20 V0 t1 t2 q1 q2)).SOC)
    ∧ (∀ q V0 a0 a1 a2 a3 : F,
        0 ≤ (capacity.lithium_ion (capacity_lithium_ion_t.init q V0 a0 a1 a2 a3)).SOC
        ∧ (capacity.lithium_ion (capacity_lithium_ion_t.init q V0 a0 a1 a2 a3)).SOC ≤ 100
        ∧ (capacity.lithium_ion (capacity_lithium_ion_t.init q V0 a0 a1 a2 a3)).DOD
            = 100 - (capacity.lithium_ion (capacity_lithium_ion_t.init q V0 a0 a1 a2 a3)).SOC) := by
  refine ⟨?_, ?_, ?_⟩
  · cases c with
    | kibam kb =>
      exact ⟨(kibam_update_SOC_bounds ex kb P V dt cycles).1,
        (kibam_update_SOC_bounds ex kb P V dt cycles).2, kibam_update_DOD ex kb P V dt cycles⟩
    | lithium_ion li =>
      have hq1 : 0 < (li.updateCapacity P V dt cycles)._qmax := hq
      have hb := li_update_q0_bounds li P V dt cycles hq1.le
      refine ⟨?_, ?_, li_update_DOD li P V dt cycles⟩
      · show 0 ≤ (li.updateCapacity P V dt cycles)._SOC
        rw [li_update_SOC]
        exact mul_nonneg (div_nonneg hb.1 hq1.le) (by norm_num)
      · show (li.updateCapacity P V dt cycles)._SOC ≤ 100
        rw [li_update_SOC]
        have : (li.updateCapacity P V dt cycles)._q0 / (li.updateCapacity P V dt cycles)._qmax ≤ 1 :=
          (div_le_one hq1).mpr hb.2
        linarith
  · intro k_init c_init q10 q20 I20 V0 t1 t2 q1 q2
    have h := kibam_init_SOC ex k_init c_init q10 q20 I20 V0 t1 t2 q1 q2
    simp only [capacity.SOC, capacity.DOD, capacity.base, h.1, h.2]
    norm_num
  · intro q V0 a0 a1 a2 a3
    simp only [capacity.SOC, capacity.DOD, capacity.base, capacity_lithium_ion_t.init,
      capacity_t.init]
    norm_num

/-- C5: in the state built by the KiBaM constructor `q1 + q2 = q0`; after every
`updateCapacity` call `q1 + q2 = q0`; and when `q1 + q2 = q0` holds before an
`updateCapacityForThermal` call it holds after it, for any capacity percentage. -/
theorem kibam_reservoirs_sum (ex : F → F) (kb : capacity_kibam_t F)
    (h : kb._q1_0 + kb._q2_0 = kb._q0) :
    (∀ k_init c_init q10 q20 I20 V t1 t2 q1 q2 : F,
        (capacity_kibam_t.init ex k_init c_init q10 q20 I20 V t1 t2 q1 q2)._q1_0
          + (capacity_kibam_t.init ex k_init c_init q10 q20 I20 V t1 t2 q1 q2)._q2_0
        = (capacity_kibam_t.init ex k_init c_init q10 q20 I20 V t1 t2 q1 q2)._q0)
    ∧ (∀ (P V dt : F) (cycles : Int),
        (kb.updateCapacity ex P V dt cycles)._q1_0 + (kb.updateCapacity ex P V dt cycles)._q2_0
          = (kb.updateCapacity ex P V dt cycles)._q0)
    ∧ (∀ capacity_percent : F,
        (kb.updateCapacityForThermal capacity_percent)._q1_0
          + (kb.updateCapacityForThermal capacity_percent)._q2_0
          = (kb.updateCapacityForThermal capacity_percent)._q0) := by
  refine ⟨kibam_init_reservoirs ex, kibam_update_q0 ex kb, fun pct => ?_⟩
  simp only [capacity_kibam_t.updateCapacityForThermal]
  rw [← h]
  ring



/-- The members that fix the faded capacity are not changed by a capacity step. -/
theorem li_step_params (li : capacity_lithium_ion_t F) (P V dt pct : F) (cycles : Int) :
    ((li.updateCapacity P V dt cycles).updateCapacityForThermal pct)._qmax0 = li._qmax0
    ∧ ((li.updateCapacity P V dt cycles).updateCapacityForThermal pct)._a0 = li._a0
    ∧ ((li.updateCapacity P V dt cycles).updateCapacityForThermal pct)._a1 = li._a1
    ∧ ((li.updateCapacity P V dt cycles).updateCapacityForThermal pct)._a2 = li._a2
    ∧ ((li.updateCapacity P V dt cycles).updateCapacityForThermal pct)._a3 = li._a3 := by
  simp only [capacity_lithium_ion_t.updateCapacityForThermal,
    capacity_lithium_ion_t.updateCapacity]
  split_ifs <;> exact ⟨rfl, rfl, rfl, rfl, rfl⟩

/-- Under a positive discharge current a Lithium-ion update does not raise a tank that
is not negative. -/
theorem li_update_q0_le (li : capacity_lithium_ion_t F) (P V dt : F) (cycles : Int)
    (h0 : 0 ≤ li._q0) (hI : 0 < P / V) (hdt : 0 < dt) :
    (li.updateCapacity P V dt cycles)._q0 ≤ li._q0 := by
  rw [li_update_q0]
  have hpos : 0 < P / V * dt := mul_pos hI hdt
  split_ifs with h1 h2 h2
  · exact h0
  · linarith
  · exact h0
  · linarith

theorem li_runSteps_aux (dt I : F) (hI : 0 < I) (hdt : 0 < dt) (steps : List (capacity_step F)) :
    ∀ li : capacity_lithium_ion_t F,
      (∀ s ∈ steps, s.P / s.V = I
        ∧ 0 ≤ li._qmax0 * third_order_polynomial (s.cycles : F) li._a0 li._a1 li._a2 li._a3 / 100
        ∧ 0 ≤ s.capacity_percent * (1 / 100) ∧ s.capacity_percent * (1 / 100) ≤ 1) →
      List.Chain' (fun a b => b._q0 ≤ a._q0) (li.runSteps dt steps)
      ∧ (∀ st ∈ li.runSteps dt steps, 0 ≤ st._q0 ∧ st._q0 ≤ st._qmax)
      ∧ (0 ≤ li._q0 → ∀ st ∈ (li.runSteps dt steps).head?, st._q0 ≤ li._q0) := by
  induction steps with
  | nil =>
    intro li _
    simp [capacity_lithium_ion_t.runSteps]
  | cons s rest ih =>
    intro li hs
    obtain ⟨hsI, hsq, hf0, hf1⟩ := hs s (List.mem_cons_self _ _)
    have hq : 0 ≤ (li.updateCapacity s.P s.V dt s.cycles)._qmax := by
      rw [li_update_qmax]; exact hsq
    have hb := li_update_q0_bounds li s.P s.V dt s.cycles hq
    have hpar := li_step_params li s.P s.V dt s.capacity_percent s.cycles
    have hth : ((li.updateCapacity s.P s.V dt s.cycles).updateCapacityForThermal
        s.capacity_percent)._q0
          = (li.updateCapacity s.P s.V dt s.cycles)._q0 * (s.capacity_percent * (1 / 100)) := rfl
    have hrest := ih ((li.updateCapacity s.P s.V dt s.cycles).updateCapacityForThermal
        s.capacity_percent) (by
      intro s' hs'
      obtain ⟨h1, h2, h3, h4⟩ := hs s' (List.mem_cons_of_mem _ hs')
      rw [hpar.1, hpar.2.1, hpar.2.2.1, hpar.2.2.2.1, hpar.2.2.2.2]
      exact ⟨h1, h2, h3, h4⟩)
    obtain ⟨hch, hbd, hhd⟩ := hrest
    have hth0 : 0 ≤ ((li.updateCapacity s.P s.V dt s.cycles).updateCapacityForThermal
        s.capacity_percent)._q0 := by
      rw [hth]; exact mul_nonneg hb.1 hf0
    have hthle : ((li.updateCapacity s.P s.V dt s.cycles).updateCapacityForThermal
        s.capacity_percent)._q0 ≤ (li.updateCapacity s.P s.V dt s.cycles)._q0 := by
      rw [hth]; exact mul_le_of_le_one_right hb.1 hf1
    simp only [capacity_lithium_ion_t.runSteps]
    refine ⟨?_, ?_, ?_⟩
    · rw [List.chain'_cons']
      exact ⟨fun y hy => le_trans (hhd hth0 y hy) hthle, hch⟩
    · intro st hst
      rcases List.mem_cons.mp hst with h | h
      · rw [h]; exact hb
      · exact hbd st h
    · intro h0 st hst
      simp only [List.head?_cons, Option.mem_def, Option.some.injEq] at hst
      rw [← hst]
      exact li_update_q0_le li s.P s.V dt s.cycles h0 (by rw [hsI]; exact hI) hdt


/-- C6: for every run of Lithium-ion capacity steps (`updateCapacity` followed by
`updateCapacityForThermal`) with the same positive discharge current `I = P / V`, a
positive time step, a faded capacity `_qmax ≥ 0` at each step and thermal derating
fractions `capacity_percent * 0.01` in `[0, 1]`, the charge `_q0` right after each
`updateCapacity` call is non-increasing from step to step and satisfies
`0 ≤ _q0 ≤ _qmax`, whether or not a clamp fired. -/
theorem lithium_ion_discharge_monotone (li : capacity_lithium_ion_t F) (dt I : F)
    (steps : List (capacity_step F)) (hI : 0 < I) (hdt : 0 < dt)
    (hs : ∀ s ∈ steps, s.P / s.V = I
      ∧ 0 ≤ li._qmax0 * third_order_polynomial (s.cycles : F) li._a0 li._a1 li._a2 li._a3 / 100
      ∧ 0 ≤ s.capacity_percent * (1 / 100) ∧ s.capacity_percent * (1 / 100) ≤ 1) :
    List.Chain' (fun a b => b._q0 ≤ a._q0) (li.runSteps dt steps)
    ∧ (∀ st ∈ li.runSteps dt steps, 0 ≤ st._q0 ∧ st._q0 ≤ st._qmax) :=
  ⟨(li_runSteps_aux dt I hI hdt steps li hs).1, (li_runSteps_aux dt I hI hdt steps li hs).2.1⟩

theorem sample_steps_ok :
    ∀ s ∈ sample_steps, s.P / s.V = (60 : ℚ)
      ∧ 0 ≤ (capacity_lithium_ion_t.init (100 : ℚ) 12 100 0 0 0)._qmax0
          * third_order_polynomial (s.cycles : ℚ)
              (capacity_lithium_ion_t.init (100 : ℚ) 12 100 0 0 0)._a0
              (capacity_lithium_ion_t.init (100 : ℚ) 12 100 0 0 0)._a1
              (capacity_lithium_ion_t.init (100 : ℚ) 12 100 0 0 0)._a2
              (capacity_lithium_ion_t.init (100 : ℚ) 12 100 0 0 0)._a3 / 100
      ∧ 0 ≤ s.capacity_percent * (1 / 100) ∧ s.capacity_percent * (1 / 100) ≤ 1 := by
  intro s hs
  simp only [sample_steps, List.mem_cons, List.mem_singleton, List.not_mem_nil, or_false] at hs
  rcases hs with h | h | h <;> subst h <;>
    norm_num [capacity_lithium_ion_t.init, third_order_polynomial]

/-- Witness for C6: three steps of 60 A for one hour on the 100 Ah sample model. -/
theorem lithium_ion_discharge_monotone_witness :
    (0 : ℚ) < 60 ∧ (0 : ℚ) < 1
    ∧ List.Chain' (fun a b => b._q0 ≤ a._q0)
        ((capacity_lithium_ion_t.init (100 : ℚ) 12 100 0 0 0).runSteps 1 sample_steps)
    ∧ (∀ st ∈ (capacity_lithium_ion_t.init (100 : ℚ) 12 100 0 0 0).runSteps 1 sample_steps,
        0 ≤ st._q0 ∧ st._q0 ≤ st._qmax) :=
  ⟨by norm_num, by norm_num,
    lithium_ion_discharge_monotone (capacity_lithium_ion_t.init (100 : ℚ) 12 100 0 0 0) 1 60
      sample_steps (by norm_num) (by norm_num) sample_steps_ok⟩


/-- Witness for C4: one 60 A discharge step on the sample Lithium-ion model. -/
theorem capacity_soc_dod_bounds_witness :
    0 < (sample_capacity.updateCapacity sample_ex 720 12 1 0).qmax
    ∧ 0 ≤ (sample_capacity.updateCapacity sample_ex 720 12 1 0).SOC
    ∧ (sample_capacity.updateCapacity sample_ex 720 12 1 0).SOC ≤ 100
    ∧ (sample_capacity.updateCapacity sample_ex 720 12 1 0).DOD
        = 100 - (sample_capacity.updateCapacity sample_ex 720 12 1 0).SOC :=
  ⟨by norm_num [sample_capacity, capacity.updateCapacity, capacity.qmax, li_update_qmax,
      capacity_lithium_ion_t.init, third_order_polynomial],
   (capacity_soc_dod_bounds sample_ex sample_capacity 720 12 1 0
      (by norm_num [sample_capacity, capacity.updateCapacity, capacity.qmax, li_update_qmax,
        capacity_lithium_ion_t.init, third_order_polynomial])).1⟩

/-- Witness for C5: the sample KiBaM state with `q1 = 40`, `q2 = 60`, `q0 = 100`. -/
theorem kibam_reservoirs_sum_witness :
    sample_kibam._q1_0 + sample_kibam._q2_0 = sample_kibam._q0
    ∧ (∀ capacity_percent : ℚ,
        (sample_kibam.updateCapacityForThermal capacity_percent)._q1_0
          + (sample_kibam.updateCapacityForThermal capacity_percent)._q2_0
          = (sample_kibam.updateCapacityForThermal capacity_percent)._q0) :=
  ⟨by norm_num [sample_kibam, capacity_t.init],
   (kibam_reservoirs_sum sample_ex sample_kibam
      (by norm_num [sample_kibam, capacity_t.init])).2.2⟩

/-- Witness for C7: a 60 A request for one hour on a full 100 Ah model. -/
theorem lithium_ion_realized_current_witness :
    (12 : ℚ) ≠ 0 ∧ (1 : ℚ) ≠ 0
    ∧ ((capacity_lithium_ion_t.init (100 : ℚ) 12 100 0 0 0).updateCapacity 720 12 1 0)._q0
        = (capacity_lithium_ion_t.init (100 : ℚ) 12 100 0 0 0)._q0
          - ((capacity_lithium_ion_t.init (100 : ℚ) 12 100 0 0 0).updateCapacity 720 12 1 0)._I * 1
    ∧ ((capacity_lithium_ion_t.init (100 : ℚ) 12 100 0 0 0).updateCapacity 720 12 1 0)._P
        = ((capacity_lithium_ion_t.init (100 : ℚ) 12 100 0 0 0).updateCapacity 720 12 1 0)._I * 12 :=
  ⟨by norm_num, by norm_num,
   (lithium_ion_realized_current (capacity_lithium_ion_t.init (100 : ℚ) 12 100 0 0 0)
      720 12 1 0 (by norm_num) (by norm_num)).1,
   (lithium_ion_realized_current (capacity_lithium_ion_t.init (100 : ℚ) 12 100 0 0 0)
      720 12 1 0 (by norm_num) (by norm_num)).2.1⟩

end CapacityLemmas

section DispatchLemmas

variable {F : Type} [LinearOrderedField F]


/-- What a returning `dispatch_manual_t::dispatch` call has done: the profile that was
read, the bank run on the requested power, and the values left in the members. -/
theorem dispatch_ok_inv (ex : F → F) (u : units_t F) (d d1 : dispatch_manual_t F)
    (hour : Nat) (pv load : F) (h : d.dispatch ex u hour pv load = .ok d1) :
    ∃ (iprofile : Int) (cc cd cg : Bool) (bank : battery_bank_t F),
      d.profileIndex hour = .ok iprofile
      ∧ boolAt d._charge_array iprofile = .ok cc
      ∧ boolAt d._discharge_array iprofile = .ok cd
      ∧ boolAt d._gridcharge_array iprofile = .ok cg
      ∧ d._BatteryBank.run ex (u.kilowatt_to_watt
          * (dispatch_decision pv load cc cd cg
              ((d._BatteryBank.bank_charge_needed * d._BatteryBank.bank_voltage)
                * u.watt_to_kilowatt)).1 / d._dt) = .ok bank
      ∧ d1._BatteryBank = bank
      ∧ d1._mode = (dispatch_decision pv load cc cd cg
              ((d._BatteryBank.bank_charge_needed * d._BatteryBank.bank_voltage)
                * u.watt_to_kilowatt)).2
      ∧ d1._e_tofrom_batt = bank._battery._capacity.I * d._BatteryBank.bank_voltage * d._dt / 1000
      ∧ d1._e_grid = pv + d1._e_tofrom_batt - load
      ∧ d1._pv_to_load = (if pv > load then load else pv)
      ∧ d1._battery_to_load = (if pv > load then 0 else if d1._e_tofrom_batt > 0 then d1._e_tofrom_batt else 0)
      ∧ d1._grid_to_load = (if pv > load then 0 else load - (d1._pv_to_load + d1._battery_to_load)) := by
  unfold dispatch_manual_t.dispatch at h
  cases hp : d.profileIndex hour with
  | error e => simp only [hp, Except_error_bind] at h; cases h
  | ok ip =>
    cases h1 : boolAt d._charge_array ip with
    | error e => simp only [hp, h1, Except_ok_bind, Except_error_bind] at h; cases h
    | ok cc =>
      cases h2 : boolAt d._discharge_array ip with
      | error e => simp only [hp, h1, h2, Except_ok_bind, Except_error_bind] at h; cases h
      | ok cd =>
        cases h3 : boolAt d._gridcharge_array ip with
        | error e => simp only [hp, h1, h2, h3, Except_ok_bind, Except_error_bind] at h; cases h
        | ok cg =>
          simp only [hp, h1, h2, h3, Except_ok_bind] at h
          cases h4 : d._BatteryBank.run ex (u.kilowatt_to_watt
              * (dispatch_decision pv load cc cd cg
                ((d._BatteryBank.bank_charge_needed * d._BatteryBank.bank_voltage)
                  * u.watt_to_kilowatt)).1 / d._dt) with
          | error e => simp only [h4, Except_error_bind] at h; cases h
          | ok bank =>
            simp only [h4, Except_ok_bind] at h
            refine ⟨ip, cc, cd, cg, bank, rfl, h1, h2, h3, h4, ?_⟩
            split_ifs at h with hpl hb
            · cases h
              simp [hpl]
            · cases h
              simp [hpl, hb]
            · cases h
              simp [hpl, hb]


theorem dispatch_decision_eq_table (pv load need : F)
    (canCharge canDischarge canGridCharge : Bool) :
    ((dispatch_decision pv load canCharge canDischarge canGridCharge need).2,
      (dispatch_decision pv load canCharge canDischarge canGridCharge need).1)
      = dispatch_priority_table pv load canCharge canDischarge canGridCharge need := by
  unfold dispatch_decision dispatch_priority_table
  by_cases hpl : pv > load
  · simp only [if_pos hpl]
    cases canCharge <;> cases canGridCharge <;> by_cases hn : pv - load > need <;> simp [hn]
  · have hge : load ≥ pv := not_lt.mp hpl
    simp only [if_neg hpl, if_pos hge]
    cases canDischarge <;> cases canGridCharge <;> simp

/-- C3: for every pv, load, permission profile and `need`, the decision block of
`dispatch_manual_t::dispatch` leaves the mode and the requested battery energy
(negative = charge) of the priority table; pv = 10, load = 4, need = 3, canCharge, no
grid charge gives mode 4 with a request of 6 of charge, and pv = 2, load = 5,
canDischarge gives mode -1 with a request of 3 of discharge.  A returning `dispatch`
call has read the three permissions at the scheduled profile, stores the mode of the
table for `need = bank_charge_needed * bank_voltage * watt_to_kilowatt`, and has run the
bank on `kilowatt_to_watt * request / dt`. -/
theorem dispatch_selects_priority_table (pv load need : F)
    (canCharge canDischarge canGridCharge : Bool) :
    ((dispatch_decision pv load canCharge canDischarge canGridCharge need).2,
      (dispatch_decision pv load canCharge canDischarge canGridCharge need).1)
      = dispatch_priority_table pv load canCharge canDischarge canGridCharge need
    ∧ dispatch_decision (10 : F) 4 true canDischarge false 3 = (-6, 4)
    ∧ dispatch_decision (2 : F) 5 canCharge true canGridCharge need = (3, -1)
    ∧ (∀ (ex : F → F) (u : units_t F) (d d1 : dispatch_manual_t F) (hour : Nat),
        d.dispatch ex u hour pv load = .ok d1 →
        ∃ (iprofile : Int) (cc cd cg : Bool),
          d.profileIndex hour = .ok iprofile
          ∧ boolAt d._charge_array iprofile = .ok cc
          ∧ boolAt d._discharge_array iprofile = .ok cd
          ∧ boolAt d._gridcharge_array iprofile = .ok cg
          ∧ d1._mode = (dispatch_priority_table pv load cc cd cg
              ((d._BatteryBank.bank_charge_needed * d._BatteryBank.bank_voltage)
                * u.watt_to_kilowatt)).1
          ∧ d._BatteryBank.run ex (u.kilowatt_to_watt
              * (dispatch_priority_table pv load cc cd cg
                  ((d._BatteryBank.bank_charge_needed * d._BatteryBank.bank_voltage)
                    * u.watt_to_kilowatt)).2 / d._dt) = .ok d1._BatteryBank) := by
  refine ⟨dispatch_decision_eq_table pv load need canCharge canDischarge canGridCharge,
    ?_, ?_, ?_⟩
  · unfold dispatch_decision
    norm_num
  · unfold dispatch_decision
    norm_num
  · intro ex u d d1 hour h
    obtain ⟨ip, cc, cd, cg, bank, hp, h1, h2, h3, h4, h5, h6, _⟩ :=
      dispatch_ok_inv ex u d d1 hour pv load h
    refine ⟨ip, cc, cd, cg, hp, h1, h2, h3, ?_, ?_⟩
    · rw [h6, ← dispatch_decision_eq_table]
    · rw [h5, ← dispatch_decision_eq_table]
      exact h4

/-- C8: after every returning `dispatch(hour, pv, load)` call, with `r` the realized
battery energy `I * bank_voltage * dt / 1000` left in `energy_tofrom_battery()`:
`energy_tofrom_grid = pv + r - load`; `pv_to_load = min pv load`; `battery_to_load` is
`r` when `load ≥ pv` and `r > 0` and 0 otherwise; `grid_to_load` is the remainder
`load - (pv_to_load + battery_to_load)`; and the three shares add up to `load`. -/
theorem dispatch_energy_flows (ex : F → F) (u : units_t F) (d d1 : dispatch_manual_t F)
    (hour : Nat) (pv load : F) (h : d.dispatch ex u hour pv load = .ok d1) :
    d1.energy_tofrom_battery
        = d1._BatteryBank._battery._capacity.I * d._BatteryBank.bank_voltage * d._dt / 1000
    ∧ d1.energy_tofrom_grid = pv + d1.energy_tofrom_battery - load
    ∧ d1.pv_to_load = min pv load
    ∧ d1.battery_to_load
        = (if load ≥ pv ∧ d1.energy_tofrom_battery > 0 then d1.energy_tofrom_battery else 0)
    ∧ d1.grid_to_load = load - (d1.pv_to_load + d1.battery_to_load)
    ∧ d1.pv_to_load + d1.battery_to_load + d1.grid_to_load = load := by
  obtain ⟨ip, cc, cd, cg, bank, _, _, _, _, _, h5, _, h7, h8, h9, h10, h11⟩ :=
    dispatch_ok_inv ex u d d1 hour pv load h
  simp only [dispatch_manual_t.energy_tofrom_battery, dispatch_manual_t.energy_tofrom_grid,
    dispatch_manual_t.pv_to_load, dispatch_manual_t.battery_to_load,
    dispatch_manual_t.grid_to_load]
  rw [h5]
  refine ⟨h7, h8, ?_, ?_, ?_, ?_⟩
  · rw [h9]
    by_cases hpl : pv > load
    · rw [if_pos hpl, min_eq_right hpl.le]
    · rw [if_neg hpl, min_eq_left (not_lt.mp hpl)]
  · rw [h10]
    by_cases hpl : pv > load
    · rw [if_pos hpl, if_neg (fun hc => absurd hc.1 (not_le.mpr hpl))]
    · rw [if_neg hpl]
      by_cases hb : d1._e_tofrom_batt > 0
      · rw [if_pos hb, if_pos ⟨not_lt.mp hpl, hb⟩]
      · rw [if_neg hb, if_neg (fun hc => hb hc.2)]
  · rw [h11]
    by_cases hpl : pv > load
    · rw [if_pos hpl, h9, h10, if_pos hpl, if_pos hpl]; ring
    · rw [if_neg hpl]
  · rw [h11]
    by_cases hpl : pv > load
    · rw [if_pos hpl, h9, h10, if_pos hpl, if_pos hpl]; ring
    · rw [if_neg hpl]; ring

/-- Witness for C8: the sample controller at hour 0 with pv = 2 and load = 5. -/
theorem dispatch_energy_flows_witness :
    ∃ d1 : dispatch_manual_t ℚ,
      sample_dispatch.dispatch sample_ex sample_units 0 2 5 = .ok d1
      ∧ d1.energy_tofrom_battery
          = d1._BatteryBank._battery._capacity.I * sample_dispatch._BatteryBank.bank_voltage
              * sample_dispatch._dt / 1000
      ∧ d1.energy_tofrom_grid = 2 + d1.energy_tofrom_battery - 5
      ∧ d1.pv_to_load = min 2 5
      ∧ d1.battery_to_load
          = (if (5 : ℚ) ≥ 2 ∧ d1.energy_tofrom_battery > 0 then d1.energy_tofrom_battery else 0)
      ∧ d1.grid_to_load = 5 - (d1.pv_to_load + d1.battery_to_load)
      ∧ d1.pv_to_load + d1.battery_to_load + d1.grid_to_load = 5 :=
  ⟨_, (by with_unfolding_all rfl :
      sample_dispatch.dispatch sample_ex sample_units 0 2 5
        = .ok (match sample_dispatch.dispatch sample_ex sample_units 0 2 5 with
          | .ok x => x
          | .error _ => sample_dispatch)),
    dispatch_energy_flows sample_ex sample_units sample_dispatch _ 0 2 5
      (by with_unfolding_all rfl)⟩

/-- C9 (what the code does): the constructor accepts a schedule whose entries are 5
without any check; at hour 0 `dispatch` computes the profile index 4, and its read of
the four-element permission arrays at that index is out of bounds. -/
theorem dispatch_profile_index_unchecked :
    sample_dispatch_bad_schedule._sched 0 0 = 5
    ∧ sample_dispatch_bad_schedule._charge_array.length = 4
    ∧ sample_dispatch_bad_schedule.profileIndex 0 = .ok 4
    ∧ boolAt sample_dispatch_bad_schedule._charge_array 4 = .error Fault.outOfBounds
    ∧ sample_dispatch_bad_schedule.dispatch sample_ex sample_units 0 2 5
        = .error Fault.outOfBounds :=
  ⟨rfl, rfl, by with_unfolding_all rfl, rfl, by with_unfolding_all rfl⟩

/-- C10 (what the code computes): for a bank built with `s` units in series and `p`
strings in parallel, `bank_charge_needed()` and `bank_charge_available()` are the
single unit's `chargeNeededToFill()` and `getCurrentCharge()` multiplied by `p + s`
(the value the constructor stores in `_num_batteries`), not by `s * p`, and
`bank_voltage()` is the unit's `battery_voltage()` multiplied by `s`.  For `s = 2`,
`p = 3` the factor is 5, and the available charge equals 6 times the unit's only when
the unit's charge is 0. -/
theorem bank_scaling_uses_sum (b : battery_t F) (s p chem : Int) (eff : F) :
    (battery_bank_t.init b s p chem eff).bank_charge_needed
        = ((p + s : Int) : F) * b.chargeNeededToFill
    ∧ (battery_bank_t.init b s p chem eff).bank_charge_available
        = ((p + s : Int) : F) * b.getCurrentCharge
    ∧ (battery_bank_t.init b s p chem eff).bank_voltage = (s : F) * b.battery_voltage
    ∧ (battery_bank_t.init b 2 3 chem eff).bank_charge_available = 5 * b.getCurrentCharge
    ∧ ((battery_bank_t.init b 2 3 chem eff).bank_charge_available
          = (((2 * 3 : Int) : F)) * b.getCurrentCharge ↔ b.getCurrentCharge = 0) := by
  refine ⟨rfl, rfl, rfl, ?_, ?_⟩
  · simp only [battery_bank_t.bank_charge_available, battery_bank_t.init]
    norm_num
  · simp only [battery_bank_t.bank_charge_available, battery_bank_t.init]
    norm_num


end DispatchLemmas

section VoltageThermalLemmas
variable {F : Type} [LinearOrderedField F]

/-- C12: `voltage_dynamic_t::updateVoltage` leaves the cell voltage unchanged when
`q0 / qmaxI ≤ 0.01` and otherwise sets it to
`E0 - R*I - K/(1 - (1 - q0'/Q)) + A*exp(-B*I*dt)` with `Q = qmaxI/cells`,
`I = |current|/cells`, `q0' = q0/cells`; the cell count is not changed and the pack
voltage is the cell count times the cell voltage, before and after the update. -/
theorem updateVoltage_dynamic (ex : F → F) (v : voltage_dynamic_t F) (cap : capacity F)
    (dt : F) :
    (v.updateVoltage ex cap dt)._cell_voltage
      = (if cap.q0 / cap.qmaxI > 1 / 100 then
          v._E0 - v._R * (|cap.I| / (v._num_cells : F))
            - v._K / (1 - (1 - (cap.q0 / (v._num_cells : F)) / (cap.qmaxI / (v._num_cells : F))))
            + v._A * ex (-v._B * (|cap.I| / (v._num_cells : F)) * dt)
        else v._cell_voltage)
    ∧ (cap.q0 / cap.qmaxI ≤ 1 / 100 → (v.updateVoltage ex cap dt)._cell_voltage = v._cell_voltage)
    ∧ (v.updateVoltage ex cap dt)._num_cells = v._num_cells
    ∧ (voltage.updateVoltage ex (voltage.dynamic v) cap dt).battery_voltage
        = (v._num_cells : F) * (voltage.updateVoltage ex (voltage.dynamic v) cap dt).cell_voltage
    ∧ (voltage.dynamic v).battery_voltage
        = (v._num_cells : F) * (voltage.dynamic v).cell_voltage := by
  have h1 : (v.updateVoltage ex cap dt)._num_cells = v._num_cells := by
    simp only [voltage_dynamic_t.updateVoltage]
    split_ifs <;> rfl
  refine ⟨?_, ?_, h1, ?_, rfl⟩
  · simp only [voltage_dynamic_t.updateVoltage]
    by_cases hq : cap.q0 / cap.qmaxI > 1 / 100
    · rw [if_pos hq, if_pos hq]
      simp only [voltage_dynamic_t.voltage_model_tremblay_hybrid]
      rw [mul_one_div]
    · rw [if_neg hq, if_neg hq]
  · intro hle
    simp only [voltage_dynamic_t.updateVoltage]
    rw [if_neg (not_lt.mpr hle)]
  · simp only [voltage.updateVoltage, voltage.battery_voltage, voltage.cell_voltage,
      voltage.base, h1]

/-- C13: with `f(T, I) = (h*A*(Troom - T) + I^2*R)/(mass*Cp)` and a step length `dt` with
`1 + dt*h*A/(2*mass*Cp) ≠ 0`, the temperature `T1` returned by `trapezoidal(I, dt)` from
the temperature `T0` satisfies the trapezoidal rule `T1 = T0 + (dt/2)*(f(T0, I) + f(T1, I))`. -/
theorem trapezoidal_rule (th : thermal_t F) (I dt : F)
    (hne : 1 + dt * th._h * th._A / (2 * th._mass * th._Cp) ≠ 0) :
    th.f th._T_battery I
        = (th._h * th._A * (th._T_room - th._T_battery) + I ^ 2 * th._R) / (th._mass * th._Cp)
    ∧ th.trapezoidal I dt
        = th._T_battery + (dt / 2) * (th.f th._T_battery I + th.f (th.trapezoidal I dt) I) := by
  constructor
  · unfold thermal_t.f
    ring
  · have hD : 1 + 1 / 2 * dt * (1 / (th._mass * th._Cp)) * (th._h * th._A) ≠ 0 := by
      have e : 1 + 1 / 2 * dt * (1 / (th._mass * th._Cp)) * (th._h * th._A)
          = 1 + dt * th._h * th._A / (2 * th._mass * th._Cp) := by
        ring
      rw [e]; exact hne
    have hx := div_mul_cancel₀
      (th._T_battery + 1 / 2 * dt * (th.f th._T_battery I
        + 1 / (th._mass * th._Cp) * (th._h * th._A * th._T_room + I ^ 2 * th._R))) hD
    have e : th.trapezoidal I dt
        = (th._T_battery + 1 / 2 * dt * (th.f th._T_battery I
            + 1 / (th._mass * th._Cp) * (th._h * th._A * th._T_room + I ^ 2 * th._R)))
          / (1 + 1 / 2 * dt * (1 / (th._mass * th._Cp)) * (th._h * th._A)) := rfl
    rw [← e] at hx
    generalize th.trapezoidal I dt = x at hx ⊢
    unfold thermal_t.f at hx ⊢
    linear_combination hx


/-- Witness for C13: the sample thermal model with a convective coefficient of 5,
a current of 10 A and a step of 60 s. -/
theorem trapezoidal_rule_witness :
    1 + (60 : ℚ) * ({ sample_thermal with _h := 5 } : thermal_t ℚ)._h
        * ({ sample_thermal with _h := 5 } : thermal_t ℚ)._A
        / (2 * ({ sample_thermal with _h := 5 } : thermal_t ℚ)._mass
          * ({ sample_thermal with _h := 5 } : thermal_t ℚ)._Cp) ≠ 0
    ∧ ({ sample_thermal with _h := 5 } : thermal_t ℚ).trapezoidal 10 60
        = ({ sample_thermal with _h := 5 } : thermal_t ℚ)._T_battery
          + (60 / 2) * (({ sample_thermal with _h := 5 } : thermal_t ℚ).f
              ({ sample_thermal with _h := 5 } : thermal_t ℚ)._T_battery 10
            + ({ sample_thermal with _h := 5 } : thermal_t ℚ).f
              (({ sample_thermal with _h := 5 } : thermal_t ℚ).trapezoidal 10 60) 10) :=
  ⟨by norm_num [sample_thermal, thermal_t.init],
   (trapezoidal_rule ({ sample_thermal with _h := 5 } : thermal_t ℚ) 10 60
      (by norm_num [sample_thermal, thermal_t.init])).2⟩

theorem updateTemperature_of_h_zero (th : thermal_t F) (I dt : F) (hh : th._h = 0) :
    (th.updateTemperature I dt)._T_battery
      = th._T_battery + dt * th._hours_to_seconds * I ^ 2 * th._R / (th._mass * th._Cp) := by
  simp only [thermal_t.updateTemperature, thermal_t.trapezoidal, thermal_t.f, hh]
  ring

theorem updateTemperature_increases (th : thermal_t F) (I dt : F) (hh : th._h = 0)
    (hm : 0 < th._mass * th._Cp) (hR : 0 < th._R) (hdt : 0 < dt)
    (hs : 0 < th._hours_to_seconds) (hI : I ≠ 0) :
    th._T_battery < (th.updateTemperature I dt)._T_battery := by
  rw [updateTemperature_of_h_zero th I dt hh]
  have hI2 : 0 < I ^ 2 := by positivity
  have : 0 < dt * th._hours_to_seconds * I ^ 2 * th._R / (th._mass * th._Cp) := by positivity
  linarith

theorem updateTemperature_foldl_increases (dt : F) (hdt : 0 < dt) (Is : List F) :
    ∀ th : thermal_t F, th._h = 0 → 0 < th._mass * th._Cp → 0 < th._R →
      0 < th._hours_to_seconds → (∀ J ∈ Is, J ≠ 0) →
      th._T_battery ≤ (Is.foldl (fun t J => t.updateTemperature J dt) th)._T_battery
      ∧ (Is ≠ [] →
          th._T_battery < (Is.foldl (fun t J => t.updateTemperature J dt) th)._T_battery) := by
  induction Is with
  | nil => intro th _ _ _ _ _; exact ⟨le_refl _, fun h => absurd rfl h⟩
  | cons J rest ih =>
    intro th hh hm hR hs hJ
    have h1 := updateTemperature_increases th J dt hh hm hR hdt hs (hJ J (List.mem_cons_self _ _))
    have h2 := (ih (th.updateTemperature J dt) hh hm hR hs
      (fun K hK => hJ K (List.mem_cons_of_mem _ hK))).1
    simp only [List.foldl_cons]
    exact ⟨le_of_lt (lt_of_lt_of_le h1 h2), fun _ => lt_of_lt_of_le h1 h2⟩

/-- C14: with convective coefficient `h = 0`, `mass*Cp > 0`, `R > 0`, `dt > 0` and a
positive hours-to-seconds constant, an `updateTemperature(I, dt)` call with `I ≠ 0`
raises the battery temperature by `dts * I^2 * R / (mass*Cp)` with
`dts = dt * _hours_to_seconds` the step in seconds, which is a strict increase; the call
changes no other member, so under a sustained sequence of nonzero currents the
temperature after the sequence is strictly above the one before it. -/
theorem thermal_heating_monotone (th : thermal_t F) (I dt : F) (hh : th._h = 0)
    (hm : 0 < th._mass * th._Cp) (hR : 0 < th._R) (hdt : 0 < dt)
    (hs : 0 < th._hours_to_seconds) (hI : I ≠ 0) :
    (th.updateTemperature I dt).T_battery
        = th.T_battery + dt * th._hours_to_seconds * I ^ 2 * th._R / (th._mass * th._Cp)
    ∧ th.T_battery < (th.updateTemperature I dt).T_battery
    ∧ (∀ Is : List F, (∀ J ∈ Is, J ≠ 0) →
        th.T_battery
          < ((I :: Is).foldl (fun t J => t.updateTemperature J dt) th).T_battery) :=
  ⟨updateTemperature_of_h_zero th I dt hh,
   updateTemperature_increases th I dt hh hm hR hdt hs hI,
   fun Is hIs => (updateTemperature_foldl_increases dt hdt (I :: Is) th hh hm hR hs
      (fun J hJ => by
        rcases List.mem_cons.mp hJ with h | h
        · rw [h]; exact hI
        · exact hIs J h)).2 (List.cons_ne_nil _ _)⟩

/-- Witness for C14: the sample thermal model (`h = 0`), 10 A for one hour. -/
theorem thermal_heating_monotone_witness :
    sample_thermal._h = 0 ∧ 0 < sample_thermal._mass * sample_thermal._Cp
    ∧ 0 < sample_thermal._R ∧ (0 : ℚ) < 1 ∧ 0 < sample_thermal._hours_to_seconds
    ∧ (10 : ℚ) ≠ 0
    ∧ sample_thermal.T_battery < (sample_thermal.updateTemperature 10 1).T_battery :=
  ⟨rfl, by norm_num [sample_thermal, thermal_t.init], by norm_num [sample_thermal, thermal_t.init],
   by norm_num, by norm_num [sample_thermal, thermal_t.init], by norm_num,
   (thermal_heating_monotone sample_thermal 10 1 rfl
      (by norm_num [sample_thermal, thermal_t.init])
      (by norm_num [sample_thermal, thermal_t.init]) (by norm_num)
      (by norm_num [sample_thermal, thermal_t.init]) (by norm_num)).2.1⟩

end VoltageThermalLemmas

section CalendarLemmas

theorem hours_through_month_twelve : hours_through_month 12 = 8760 := by decide

theorem getMonthHour_loop_spec (h : Int) :
    ∀ (n m : Nat), hours_through_month m ≤ h → h < hours_through_month (m + n) →
      ∃ m1 : Nat, m + 1 ≤ m1 ∧ m1 ≤ m + n
        ∧ getMonthHour_loop h n ((m : Int) + 1) (hours_through_month m)
            = ((m1 : Int), (h + 1) - (h / 24 * 24))
        ∧ hours_through_month (m1 - 1) ≤ h ∧ h < hours_through_month m1 := by
  intro n
  induction n with
  | zero =>
    intro m h1 h2
    exact absurd h2 (not_lt.mpr h1)
  | succ n ih =>
    intro m h1 h2
    by_cases hit : h + 1 ≤ hours_through_month m + hours_in_month ((m : Int) + 1)
    · refine ⟨m + 1, le_refl _, by omega, ?_, h1, ?_⟩
      · simp only [getMonthHour_loop, if_pos hit]
        push_cast
        rfl
      · show h < hours_through_month m + hours_in_month ((m : Int) + 1)
        omega
    · have h1' : hours_through_month (m + 1) ≤ h := by
        show hours_through_month m + hours_in_month ((m : Int) + 1) ≤ h
        omega
      obtain ⟨m1, a, b, c, d, e⟩ := ih (m + 1) h1' (by rw [Nat.add_right_comm, Nat.add_assoc] at *; exact h2)
      refine ⟨m1, by omega, by omega, ?_, d, e⟩
      simp only [getMonthHour_loop, if_neg hit]
      rw [← c]
      push_cast
      rfl


/-- C15: for every hour of the year `n` in `0..8759`, `getMonthHour` returns a month `m`
in `1..12` that contains the hour (the hours through month `m - 1` are at most `n` and
`n` is below the hours through month `m`, by the non-leap table) and the hour
`(n mod 24) + 1` in `1..24`; the schedule lookup `_sched(m - 1, h - 1)` of `dispatch()` is
then inside the 12 x 24 table, so the profile index is read without a fault. -/
theorem getMonthHour_in_range (n : Nat) (hn : n < 8760) :
    ∃ m : Nat, (getMonthHour (n : Int)).1 = (m : Int) ∧ 1 ≤ m ∧ m ≤ 12
      ∧ hours_through_month (m - 1) ≤ (n : Int) ∧ (n : Int) < hours_through_month m
      ∧ (getMonthHour (n : Int)).2 = (n : Int) % 24 + 1
      ∧ 1 ≤ (getMonthHour (n : Int)).2 ∧ (getMonthHour (n : Int)).2 ≤ 24
      ∧ (∀ sched : Fin 12 → Fin 24 → ℚ, ∃ v : ℚ,
          schedAt sched ((getMonthHour (n : Int)).1 - 1) ((getMonthHour (n : Int)).2 - 1) = .ok v)
      ∧ (∀ (F : Type) (d : dispatch_manual_t F), ∃ i : Int, d.profileIndex n = .ok i) := by
  have h0 : hours_through_month 0 ≤ (n : Int) := by
    show (0 : Int) ≤ (n : Int)
    omega
  have h1 : (n : Int) < hours_through_month (0 + 12) := by
    rw [Nat.zero_add, hours_through_month_twelve]
    omega
  obtain ⟨m, a, b, c, d, e⟩ := getMonthHour_loop_spec (n : Int) 12 0 h0 h1
  have hg : getMonthHour (n : Int) = ((m : Int), ((n : Int) + 1) - ((n : Int) / 24 * 24)) := by
    rw [← c]
    rfl
  have hm1 : 0 ≤ (m : Int) - 1 ∧ (m : Int) - 1 < 12 := by omega
  have hh1 : 0 ≤ ((n : Int) + 1) - ((n : Int) / 24 * 24) - 1
      ∧ ((n : Int) + 1) - ((n : Int) / 24 * 24) - 1 < 24 := by omega
  have hs : ∀ sched : Fin 12 → Fin 24 → ℚ, ∃ v : ℚ,
      schedAt sched ((getMonthHour (n : Int)).1 - 1) ((getMonthHour (n : Int)).2 - 1) = .ok v := by
    intro sched
    rw [hg]
    simp only [schedAt, dif_pos (And.intro hm1 hh1)]
    exact ⟨_, rfl⟩
  refine ⟨m, by rw [hg], by omega, by omega, d, e, ?_, ?_, ?_, hs, ?_⟩
  · rw [hg]; show ((n : Int) + 1) - ((n : Int) / 24 * 24) = (n : Int) % 24 + 1; omega
  · rw [hg]; show 1 ≤ ((n : Int) + 1) - ((n : Int) / 24 * 24); omega
  · rw [hg]; show ((n : Int) + 1) - ((n : Int) / 24 * 24) ≤ 24; omega
  · intro F d
    obtain ⟨v, hv⟩ := hs d._sched
    refine ⟨truncToInt (v - 1), ?_⟩
    unfold dispatch_manual_t.profileIndex
    rw [hg] at hv ⊢
    show (schedAt d._sched ((m : Int) - 1) (((n : Int) + 1) - ((n : Int) / 24 * 24) - 1)
      >>= fun s => Except.ok (truncToInt (s - 1))) = Except.ok (truncToInt (v - 1))
    rw [show schedAt d._sched ((m : Int) - 1) (((n : Int) + 1) - ((n : Int) / 24 * 24) - 1)
      = Except.ok v from hv]
    rfl

/-- Witness for C15: the last hour of the year. -/
theorem getMonthHour_in_range_witness :
    8759 < 8760
    ∧ ∃ m : Nat, (getMonthHour ((8759 : Nat) : Int)).1 = (m : Int) ∧ 1 ≤ m ∧ m ≤ 12
      ∧ hours_through_month (m - 1) ≤ ((8759 : Nat) : Int)
      ∧ ((8759 : Nat) : Int) < hours_through_month m
      ∧ (getMonthHour ((8759 : Nat) : Int)).2 = ((8759 : Nat) : Int) % 24 + 1
      ∧ 1 ≤ (getMonthHour ((8759 : Nat) : Int)).2 ∧ (getMonthHour ((8759 : Nat) : Int)).2 ≤ 24
      ∧ (∀ sched : Fin 12 → Fin 24 → ℚ, ∃ v : ℚ,
          schedAt sched ((getMonthHour ((8759 : Nat) : Int)).1 - 1)
            ((getMonthHour ((8759 : Nat) : Int)).2 - 1) = .ok v)
      ∧ (∀ (F : Type) (d : dispatch_manual_t F), ∃ i : Int, d.profileIndex 8759 = .ok i) :=
  ⟨by decide, getMonthHour_in_range 8759 (by decide)⟩

end CalendarLemmas

section KibamLemmas
variable {F : Type} [LinearOrderedField F]

/-- The value of `q1_compute` is affine in the current `I`. -/
theorem q1_compute_linear (ex : F → F) (kb : capacity_kibam_t F) (q1 q0 dt I : F)
    (hk : kb._k ≠ 0) :
    kb.q1_compute ex q1 q0 dt I
      = q1 * ex (-kb._k * dt) + q0 * kb._c * (1 - ex (-kb._k * dt))
        - I * (1 - ex (-kb._k * dt) + kb._c * (kb._k * dt - 1 + ex (-kb._k * dt))) / kb._k := by
  simp only [capacity_kibam_t.q1_compute]
  field_simp
  ring

theorem q1_compute_at_Idmax (ex : F → F) (kb : capacity_kibam_t F) (q1 q0 dt : F)
    (hk : kb._k ≠ 0)
    (hD : 1 - ex (-kb._k * dt) + kb._c * (kb._k * dt - 1 + ex (-kb._k * dt)) ≠ 0) :
    kb.q1_compute ex q1 q0 dt (kb.Idmax_compute ex q1 q0 dt) = 0 := by
  rw [q1_compute_linear ex kb q1 q0 dt _ hk]
  simp only [capacity_kibam_t.Idmax_compute]
  generalize ex (-kb._k * dt) = e at hD ⊢
  rw [div_mul_cancel₀ _ hD]
  field_simp
  ring

theorem q1_compute_at_Icmax (ex : F → F) (kb : capacity_kibam_t F) (q1 q0 dt : F)
    (hk : kb._k ≠ 0)
    (hD : 1 - ex (-kb._k * dt) + kb._c * (kb._k * dt - 1 + ex (-kb._k * dt)) ≠ 0) :
    kb.q1_compute ex q1 q0 dt (kb.Icmax_compute ex q1 q0 dt) = kb._c * kb._qmax := by
  rw [q1_compute_linear ex kb q1 q0 dt _ hk]
  simp only [capacity_kibam_t.Icmax_compute]
  generalize ex (-kb._k * dt) = e at hD ⊢
  rw [div_mul_cancel₀ _ hD]
  field_simp
  ring


/-- The value of `_I` after `capacity_kibam_t::updateCapacity`. -/
theorem kibam_update_I (ex : F → F) (kb : capacity_kibam_t F) (P V dt : F) (cycles : Int) :
    (kb.updateCapacity ex P V dt cycles)._I
      = if P / V > 0 then min (P / V) (kb.Idmax_compute ex kb._q1_0 kb._q0 dt)
        else if P / V < 0 then -(min |P / V| |kb.Icmax_compute ex kb._q1_0 kb._q0 dt|)
        else P / V := by
  simp only [capacity_kibam_t.updateCapacity]
  split_ifs <;> rfl

/-- C19 (amended): for every request `P`, `V ≠ 0` and `dt`, the current stored by the
KiBaM `updateCapacity` is `min(P/V, Idmax)` for a discharge request,
`-min(|P/V|, |Icmax|)` for a charge request and 0 for `P/V = 0`, with `Idmax` and `Icmax`
evaluated on the pre-step state; whenever `Idmax ≥ 0` it lies in `[-|Icmax|, Idmax]`; a
discharge request inside the limit and a charge request inside the limit are stored
unchanged. -/
theorem kibam_current_clamp (ex : F → F) (kb : capacity_kibam_t F) (P V dt : F)
    (cycles : Int) (_hV : V ≠ 0) :
    (0 ≤ kb.Idmax_compute ex kb._q1_0 kb._q0 dt →
      -|kb.Icmax_compute ex kb._q1_0 kb._q0 dt| ≤ (kb.updateCapacity ex P V dt cycles)._I
        ∧ (kb.updateCapacity ex P V dt cycles)._I ≤ kb.Idmax_compute ex kb._q1_0 kb._q0 dt)
    ∧ (0 < P / V → (kb.updateCapacity ex P V dt cycles)._I
        = min (P / V) (kb.Idmax_compute ex kb._q1_0 kb._q0 dt))
    ∧ (P / V < 0 → (kb.updateCapacity ex P V dt cycles)._I
        = -(min |P / V| |kb.Icmax_compute ex kb._q1_0 kb._q0 dt|))
    ∧ (P / V = 0 → (kb.updateCapacity ex P V dt cycles)._I = 0)
    ∧ (0 < P / V → P / V ≤ kb.Idmax_compute ex kb._q1_0 kb._q0 dt →
        (kb.updateCapacity ex P V dt cycles)._I = P / V)
    ∧ (P / V < 0 → -|kb.Icmax_compute ex kb._q1_0 kb._q0 dt| ≤ P / V →
        (kb.updateCapacity ex P V dt cycles)._I = P / V) := by
  rw [kibam_update_I]
  generalize kb.Idmax_compute ex kb._q1_0 kb._q0 dt = Idmax
  generalize kb.Icmax_compute ex kb._q1_0 kb._q0 dt = Icmax
  generalize P / V = I0
  have habs : 0 ≤ |Icmax| := abs_nonneg _
  refine ⟨?_, ?_, ?_, ?_, ?_, ?_⟩
  · intro hId
    split_ifs with h1 h2
    · exact ⟨by have := le_min h1.le hId; linarith, min_le_right _ _⟩
    · have hm : min |I0| |Icmax| ≤ |Icmax| := min_le_right _ _
      have hm0 : 0 ≤ min |I0| |Icmax| := le_min (abs_nonneg _) habs
      exact ⟨by linarith, by linarith⟩
    · have : I0 = 0 := le_antisymm (not_lt.mp h1) (not_lt.mp h2)
      rw [this]
      exact ⟨by linarith, hId⟩
  · intro h; rw [if_pos h]
  · intro h; rw [if_neg (not_lt.mpr h.le), if_pos h]
  · intro h; rw [h]; simp
  · intro h hle; rw [if_pos h, min_eq_left hle]
  · intro h hle
    rw [if_neg (not_lt.mpr h.le), if_pos h, abs_of_neg h, min_eq_left (by linarith)]
    ring

/-- Witness for C19 (amended): a 60 A discharge request on a state whose stand-in
`Idmax` is positive. -/
theorem kibam_current_clamp_witness :
    (12 : ℚ) ≠ 0
    ∧ 0 ≤ ({ sample_kibam with _c := 1 } : capacity_kibam_t ℚ).Idmax_compute sample_ex
        ({ sample_kibam with _c := 1 } : capacity_kibam_t ℚ)._q1_0
        ({ sample_kibam with _c := 1 } : capacity_kibam_t ℚ)._q0 1
    ∧ -|({ sample_kibam with _c := 1 } : capacity_kibam_t ℚ).Icmax_compute sample_ex
          ({ sample_kibam with _c := 1 } : capacity_kibam_t ℚ)._q1_0
          ({ sample_kibam with _c := 1 } : capacity_kibam_t ℚ)._q0 1|
        ≤ (({ sample_kibam with _c := 1 } : capacity_kibam_t ℚ).updateCapacity sample_ex
            720 12 1 0)._I
    ∧ (({ sample_kibam with _c := 1 } : capacity_kibam_t ℚ).updateCapacity sample_ex
            720 12 1 0)._I
        ≤ ({ sample_kibam with _c := 1 } : capacity_kibam_t ℚ).Idmax_compute sample_ex
          ({ sample_kibam with _c := 1 } : capacity_kibam_t ℚ)._q1_0
          ({ sample_kibam with _c := 1 } : capacity_kibam_t ℚ)._q0 1 :=
  ⟨by norm_num,
   by norm_num [sample_kibam, capacity_t.init, capacity_kibam_t.Idmax_compute, sample_ex],
   (kibam_current_clamp sample_ex ({ sample_kibam with _c := 1 } : capacity_kibam_t ℚ)
      720 12 1 0 (by norm_num)).1
      (by norm_num [sample_kibam, capacity_t.init, capacity_kibam_t.Idmax_compute,
        sample_ex])⟩

end KibamLemmas

section KibamReal

theorem kibam_denominator_pos (k c dt : ℝ) (hk : 0 < k) (hc : 0 < c) (hdt : 0 < dt) :
    0 < 1 - Real.exp (-k * dt) + c * (k * dt - 1 + Real.exp (-k * dt)) := by
  have hx : -k * dt < 0 := by nlinarith
  have h1 : Real.exp (-k * dt) < 1 := Real.exp_lt_one_iff.mpr hx
  have h2 : -k * dt + 1 ≤ Real.exp (-k * dt) := Real.add_one_le_exp _
  have h3 : 0 ≤ c * (k * dt - 1 + Real.exp (-k * dt)) := mul_nonneg hc.le (by linarith)
  linarith

theorem kibam_Idmax_nonneg (kb : capacity_kibam_t ℝ) (q1 q0 dt : ℝ) (hk : 0 < kb._k)
    (hc : 0 < kb._c) (hdt : 0 < dt) (hq1 : 0 ≤ q1) (hq0 : 0 ≤ q0) :
    0 ≤ kb.Idmax_compute Real.exp q1 q0 dt := by
  have hD := kibam_denominator_pos kb._k kb._c dt hk hc hdt
  have hx : -kb._k * dt < 0 := by nlinarith
  have he : 0 < Real.exp (-kb._k * dt) := Real.exp_pos _
  have h1 : Real.exp (-kb._k * dt) < 1 := Real.exp_lt_one_iff.mpr hx
  simp only [capacity_kibam_t.Idmax_compute]
  apply div_nonneg _ hD.le
  have a : 0 ≤ kb._k * q1 * Real.exp (-kb._k * dt) :=
    mul_nonneg (mul_nonneg hk.le hq1) he.le
  have b : 0 ≤ q0 * kb._k * kb._c * (1 - Real.exp (-kb._k * dt)) :=
    mul_nonneg (mul_nonneg (mul_nonneg hq0 hk.le) hc.le) (by linarith)
  linarith

/-- C20: for `k > 0`, `0 < c ≤ 1` and `dt > 0` (with the real exponential),
`q1_compute(q1, q0, dt, Idmax_compute(q1, q0, dt)) = 0`,
`q1_compute(q1, q0, dt, Icmax_compute(q1, q0, dt)) = c*qmax`, `q1_compute` is strictly
decreasing in `I`, every current `I ≤ Idmax` leaves `q1 ≥ 0` and every current
`I ≥ Icmax` leaves `q1 ≤ c*qmax`. -/
theorem kibam_current_limits (kb : capacity_kibam_t ℝ) (q1 q0 dt : ℝ) (hk : 0 < kb._k)
    (hc : 0 < kb._c) (_hc1 : kb._c ≤ 1) (hdt : 0 < dt) :
    kb.q1_compute Real.exp q1 q0 dt (kb.Idmax_compute Real.exp q1 q0 dt) = 0
    ∧ kb.q1_compute Real.exp q1 q0 dt (kb.Icmax_compute Real.exp q1 q0 dt) = kb._c * kb._qmax
    ∧ (∀ I J : ℝ, I < J →
        kb.q1_compute Real.exp q1 q0 dt J < kb.q1_compute Real.exp q1 q0 dt I)
    ∧ (∀ I : ℝ, I ≤ kb.Idmax_compute Real.exp q1 q0 dt →
        0 ≤ kb.q1_compute Real.exp q1 q0 dt I)
    ∧ (∀ I : ℝ, kb.Icmax_compute Real.exp q1 q0 dt ≤ I →
        kb.q1_compute Real.exp q1 q0 dt I ≤ kb._c * kb._qmax) := by
  have hD := kibam_denominator_pos kb._k kb._c dt hk hc hdt
  have hmono : ∀ I J : ℝ, I < J →
      kb.q1_compute Real.exp q1 q0 dt J < kb.q1_compute Real.exp q1 q0 dt I := by
    intro I J hIJ
    rw [q1_compute_linear Real.exp kb q1 q0 dt I hk.ne',
      q1_compute_linear Real.exp kb q1 q0 dt J hk.ne']
    have : I * (1 - Real.exp (-kb._k * dt)
          + kb._c * (kb._k * dt - 1 + Real.exp (-kb._k * dt))) / kb._k
        < J * (1 - Real.exp (-kb._k * dt)
          + kb._c * (kb._k * dt - 1 + Real.exp (-kb._k * dt))) / kb._k :=
      div_lt_div_of_pos_right (mul_lt_mul_of_pos_right hIJ hD) hk
    linarith
  have hmono_le : ∀ I J : ℝ, I ≤ J →
      kb.q1_compute Real.exp q1 q0 dt J ≤ kb.q1_compute Real.exp q1 q0 dt I := by
    intro I J hIJ
    rcases eq_or_lt_of_le hIJ with h | h
    · rw [h]
    · exact (hmono I J h).le
  have e1 := q1_compute_at_Idmax Real.exp kb q1 q0 dt hk.ne' hD.ne'
  have e2 := q1_compute_at_Icmax Real.exp kb q1 q0 dt hk.ne' hD.ne'
  refine ⟨e1, e2, hmono, fun I hI => ?_, fun I hI => ?_⟩
  · rw [← e1]; exact hmono_le _ _ hI
  · rw [← e2]; exact hmono_le _ _ hI

/-- Witness for C20: the sample KiBaM state (`k = 1/2`, `c = 2/5`) with a one-hour step. -/
theorem kibam_current_limits_witness :
    0 < (sample_kibam_of ℝ)._k ∧ 0 < (sample_kibam_of ℝ)._c ∧ (sample_kibam_of ℝ)._c ≤ 1
    ∧ (0 : ℝ) < 1
    ∧ (sample_kibam_of ℝ).q1_compute Real.exp 40 100 1
        ((sample_kibam_of ℝ).Idmax_compute Real.exp 40 100 1) = 0
    ∧ (sample_kibam_of ℝ).q1_compute Real.exp 40 100 1
        ((sample_kibam_of ℝ).Icmax_compute Real.exp 40 100 1)
        = (sample_kibam_of ℝ)._c * (sample_kibam_of ℝ)._qmax :=
  ⟨by norm_num [sample_kibam_of], by norm_num [sample_kibam_of], by norm_num [sample_kibam_of],
   by norm_num,
   (kibam_current_limits (sample_kibam_of ℝ) 40 100 1 (by norm_num [sample_kibam_of])
      (by norm_num [sample_kibam_of]) (by norm_num [sample_kibam_of]) (by norm_num)).1,
   (kibam_current_limits (sample_kibam_of ℝ) 40 100 1 (by norm_num [sample_kibam_of])
      (by norm_num [sample_kibam_of]) (by norm_num [sample_kibam_of]) (by norm_num)).2.1⟩


end KibamReal

section GridLemmas
variable {F : Type} [LinearOrderedField F]

theorem parameter_compute_body_pos (ex : F → F) (F1 F2 t1 t2 : F) (acc : F × F × F) (i : Nat)
    (h : grid_defined ex F1 F2 t1 t2 i ∧ grid_residual ex F1 F2 t1 t2 i < acc.1) :
    parameter_compute_body ex F1 F2 t1 t2 acc i
      = (grid_residual ex F1 F2 t1 t2 i, grid_k i, grid_c ex F1 F2 t1 t2 i) := by
  have h1 : c_compute_denom ex F1 t1 20 ((i : F) * (1 / 1000)) ≠ 0
      ∧ c_compute_denom ex F2 t1 t2 ((i : F) * (1 / 1000)) ≠ 0
      ∧ |c_compute ex F1 t1 20 ((i : F) * (1 / 1000))
          - c_compute ex F2 t1 t2 ((i : F) * (1 / 1000))| < acc.1 :=
    ⟨h.1.1, h.1.2, h.2⟩
  simp only [parameter_compute_body, if_pos h1]
  rfl

theorem parameter_compute_body_neg (ex : F → F) (F1 F2 t1 t2 : F) (acc : F × F × F) (i : Nat)
    (h : ¬ (grid_defined ex F1 F2 t1 t2 i ∧ grid_residual ex F1 F2 t1 t2 i < acc.1)) :
    parameter_compute_body ex F1 F2 t1 t2 acc i = acc := by
  have h1 : ¬ (c_compute_denom ex F1 t1 20 ((i : F) * (1 / 1000)) ≠ 0
      ∧ c_compute_denom ex F2 t1 t2 ((i : F) * (1 / 1000)) ≠ 0
      ∧ |c_compute ex F1 t1 20 ((i : F) * (1 / 1000))
          - c_compute ex F2 t1 t2 ((i : F) * (1 / 1000))| < acc.1) :=
    fun hc => h ⟨⟨hc.1, hc.2.1⟩, hc.2.2⟩
  simp only [parameter_compute_body, if_neg h1]

/-- What the loop of `parameter_compute` has computed after `n` passes: either no grid
point so far had both estimates defined with a residual below 10000 and the loop
variables are untouched, or they hold the residual, grid value and `c` of the first
grid point that minimizes the residual among the defined ones. -/
theorem parameter_fold_spec (ex : F → F) (F1 F2 t1 t2 k0 c0 : F) (n : Nat) :
    ((∀ i < n, grid_defined ex F1 F2 t1 t2 i → 10000 ≤ grid_residual ex F1 F2 t1 t2 i)
      ∧ (List.range n).foldl (parameter_compute_body ex F1 F2 t1 t2) (10000, k0, c0)
          = (10000, k0, c0))
    ∨ (∃ i < n, grid_defined ex F1 F2 t1 t2 i ∧ grid_residual ex F1 F2 t1 t2 i < 10000
        ∧ (∀ j < n, grid_defined ex F1 F2 t1 t2 j →
            grid_residual ex F1 F2 t1 t2 i ≤ grid_residual ex F1 F2 t1 t2 j)
        ∧ (∀ j < i, grid_defined ex F1 F2 t1 t2 j →
            grid_residual ex F1 F2 t1 t2 i < grid_residual ex F1 F2 t1 t2 j)
        ∧ (List.range n).foldl (parameter_compute_body ex F1 F2 t1 t2) (10000, k0, c0)
            = (grid_residual ex F1 F2 t1 t2 i, grid_k i, grid_c ex F1 F2 t1 t2 i)) := by
  induction n with
  | zero =>
    left
    exact ⟨fun i hi => absurd hi (Nat.not_lt_zero i), rfl⟩
  | succ n ih =>
    rw [List.range_succ, List.foldl_append, List.foldl_cons, List.foldl_nil]
    rcases ih with ⟨hall, hr⟩ | ⟨i, hi, hdef, hlt, hmin, hfirst, hr⟩
    · rw [hr]
      by_cases hc : grid_defined ex F1 F2 t1 t2 n ∧ grid_residual ex F1 F2 t1 t2 n < 10000
      · right
        refine ⟨n, Nat.lt_succ_self n, hc.1, hc.2, ?_, ?_, ?_⟩
        · intro j hj hdj
          rcases Nat.lt_succ_iff_lt_or_eq.mp hj with h | h
          · exact le_trans hc.2.le (hall j h hdj)
          · rw [h]
        · intro j hj hdj
          exact lt_of_lt_of_le hc.2 (hall j hj hdj)
        · exact parameter_compute_body_pos ex F1 F2 t1 t2 _ n hc
      · left
        refine ⟨?_, parameter_compute_body_neg ex F1 F2 t1 t2 _ n hc⟩
        intro j hj hdj
        rcases Nat.lt_succ_iff_lt_or_eq.mp hj with h | h
        · exact hall j h hdj
        · rw [h] at hdj ⊢
          exact not_lt.mp (fun hl => hc ⟨hdj, hl⟩)
    · rw [hr]
      right
      by_cases hc : grid_defined ex F1 F2 t1 t2 n
          ∧ grid_residual ex F1 F2 t1 t2 n < grid_residual ex F1 F2 t1 t2 i
      · refine ⟨n, Nat.lt_succ_self n, hc.1, lt_trans hc.2 hlt, ?_, ?_, ?_⟩
        · intro j hj hdj
          rcases Nat.lt_succ_iff_lt_or_eq.mp hj with h | h
          · exact le_trans hc.2.le (hmin j h hdj)
          · rw [h]
        · intro j hj hdj
          exact lt_of_lt_of_le hc.2 (hmin j hj hdj)
        · exact parameter_compute_body_pos ex F1 F2 t1 t2 _ n hc
      · refine ⟨i, Nat.lt_succ_of_lt hi, hdef, hlt, ?_, hfirst,
          parameter_compute_body_neg ex F1 F2 t1 t2 _ n hc⟩
        intro j hj hdj
        rcases Nat.lt_succ_iff_lt_or_eq.mp hj with h | h
        · exact hmin j h hdj
        · rw [h] at hdj ⊢
          exact not_lt.mp (fun hl => hc ⟨hdj, hl⟩)


theorem parameter_compute_k_c (ex : F → F) (kb : capacity_kibam_t F) :
    (kb.parameter_compute ex)._k
        = ((List.range 5000).foldl (parameter_compute_body ex kb._F1 kb._F2 kb._t1 kb._t2)
            (10000, kb._k, kb._c)).2.1
    ∧ (kb.parameter_compute ex)._c
        = ((List.range 5000).foldl (parameter_compute_body ex kb._F1 kb._F2 kb._t1 kb._t2)
            (10000, kb._k, kb._c)).2.2
    ∧ (kb.parameter_compute ex)._qmax = (kb.parameter_compute ex).qmax_compute ex := by
  refine ⟨?_, ?_, ?_⟩
  · simp only [capacity_kibam_t.parameter_compute]
  · simp only [capacity_kibam_t.parameter_compute]
  · simp only [capacity_kibam_t.parameter_compute, capacity_kibam_t.qmax_compute]

/-- What `parameter_compute` leaves in the members: it runs the loop body for exactly
the 5000 loop counters `i = 0..4999` with `k = i*0.001`.  Either no grid value has both
estimates `c1`, `c2` defined (nonzero denominators) with `|c1 - c2|` below the initial
bound 10000, and the loop assigns nothing; or `_k` is the smallest grid value that
minimizes `|c1 - c2|` among the grid values where both estimates are defined, that
minimum is below 10000, and `_c = (c1 + c2)/2` at that `k`.  In both cases
`_qmax = qmax_compute()` for the final `_k` and `_c`.  When `exp 0 = 1` the estimates
are not defined at `k = 0`. -/
theorem parameter_compute_grid_search (ex : F → F) (kb : capacity_kibam_t F) :
    (((∀ i < 5000, grid_defined ex kb._F1 kb._F2 kb._t1 kb._t2 i →
          10000 ≤ grid_residual ex kb._F1 kb._F2 kb._t1 kb._t2 i)
        ∧ (kb.parameter_compute ex)._k = kb._k ∧ (kb.parameter_compute ex)._c = kb._c)
      ∨ (∃ i < 5000, grid_defined ex kb._F1 kb._F2 kb._t1 kb._t2 i
          ∧ grid_residual ex kb._F1 kb._F2 kb._t1 kb._t2 i < 10000
          ∧ (∀ j < 5000, grid_defined ex kb._F1 kb._F2 kb._t1 kb._t2 j →
              grid_residual ex kb._F1 kb._F2 kb._t1 kb._t2 i
                ≤ grid_residual ex kb._F1 kb._F2 kb._t1 kb._t2 j)
          ∧ (∀ j < i, grid_defined ex kb._F1 kb._F2 kb._t1 kb._t2 j →
              grid_residual ex kb._F1 kb._F2 kb._t1 kb._t2 i
                < grid_residual ex kb._F1 kb._F2 kb._t1 kb._t2 j)
          ∧ (kb.parameter_compute ex)._k = grid_k i
          ∧ (kb.parameter_compute ex)._c
              = (1 / 2) * (c_compute ex kb._F1 kb._t1 20 (grid_k i)
                  + c_compute ex kb._F2 kb._t1 kb._t2 (grid_k i))))
    ∧ (kb.parameter_compute ex)._qmax = (kb.parameter_compute ex).qmax_compute ex
    ∧ (ex 0 = 1 → ¬ grid_defined ex kb._F1 kb._F2 kb._t1 kb._t2 0) := by
  obtain ⟨hk, hc, hq⟩ := parameter_compute_k_c ex kb
  refine ⟨?_, hq, ?_⟩
  · rcases parameter_fold_spec ex kb._F1 kb._F2 kb._t1 kb._t2 kb._k kb._c 5000 with
      ⟨hall, hr⟩ | ⟨i, hi, hdef, hlt, hmin, hfirst, hr⟩
    · left
      rw [hk, hc, hr]
      exact ⟨hall, rfl, rfl⟩
    · right
      rw [hk, hc, hr]
      exact ⟨i, hi, hdef, hlt, hmin, hfirst, rfl, rfl⟩
  · intro h0 hd
    apply hd.1
    simp [c_compute_denom, grid_k, h0]

end GridLemmas

section GridReal

theorem grid_not_defined_of_t1_zero (F1 F2 t2 : ℝ) (i : Nat) :
    ¬ grid_defined Real.exp F1 F2 0 t2 i := by
  intro hd
  apply hd.1
  simp [c_compute_denom]

/-- C11: the constructor is run on `q10 = 90`, `q20 = 100`, `I20 = 5`, `V = 12`,
`t1 = 0`, `t2 = 3`, `q1 = 75`, `q2 = 50`, with the real exponential.  With `t1 = 0` no
grid value has a defined residual (both estimates are `0/0` at every `k`), so the loop
of `parameter_compute` never assigns `_k` and `_c`: whatever values `k_init`, `c_init`
the two members held before, the constructor returns with `_k = k_init` and
`_c = c_init`, and it has used them: `_q1_0 = _q0 * c_init = 100 * c_init`. -/
theorem parameter_compute_reads_unset_members :
    ∀ k_init c_init : ℝ,
      (∀ i < 5000, ¬ grid_defined Real.exp (75 / 100) (75 / 50) 0 3 i)
      ∧ (capacity_kibam_t.init Real.exp k_init c_init 90 100 5 12 0 3 75 50)._k = k_init
      ∧ (capacity_kibam_t.init Real.exp k_init c_init 90 100 5 12 0 3 75 50)._c = c_init
      ∧ (capacity_kibam_t.init Real.exp k_init c_init 90 100 5 12 0 3 75 50)._q1_0
          = 100 * c_init := by
  intro k_init c_init
  have hfold : ∀ n : Nat, ((List.range n).foldl
      (parameter_compute_body Real.exp (75 / 100) (75 / 50) 0 3) (10000, k_init, c_init))
      = (10000, k_init, c_init) := by
    intro n
    rcases parameter_fold_spec Real.exp (75 / 100) (75 / 50) 0 3 k_init c_init n with
      ⟨_, hr⟩ | ⟨i, _, hdef, _⟩
    · exact hr
    · exact absurd hdef (grid_not_defined_of_t1_zero _ _ _ i)
  have hf := hfold 5000
  have hk : (capacity_kibam_t.init Real.exp k_init c_init 90 100 5 12 0 3 75 50)._k
      = ((List.range 5000).foldl
          (parameter_compute_body Real.exp (75 / 100) (75 / 50) 0 3)
          (10000, k_init, c_init)).2.1 := by
    simp only [capacity_kibam_t.init, capacity_kibam_t.parameter_compute]
  have hc : (capacity_kibam_t.init Real.exp k_init c_init 90 100 5 12 0 3 75 50)._c
      = ((List.range 5000).foldl
          (parameter_compute_body Real.exp (75 / 100) (75 / 50) 0 3)
          (10000, k_init, c_init)).2.2 := by
    simp only [capacity_kibam_t.init, capacity_kibam_t.parameter_compute]
  have hq1 : (capacity_kibam_t.init Real.exp k_init c_init 90 100 5 12 0 3 75 50)._q1_0
      = 100 * ((List.range 5000).foldl
          (parameter_compute_body Real.exp (75 / 100) (75 / 50) 0 3)
          (10000, k_init, c_init)).2.2 := by
    simp only [capacity_kibam_t.init, capacity_kibam_t.parameter_compute]
  rw [hf] at hk hc hq1
  exact ⟨fun i _ => grid_not_defined_of_t1_zero _ _ _ i, hk, hc, hq1⟩

end GridReal

section KibamFit

/-- Third-order bounds of the real exponential at `-x` for `0 ≤ x ≤ 1`. -/
theorem exp_neg_bounds (x : ℝ) (h0 : 0 ≤ x) (h1 : x ≤ 1) :
    1 - x + x ^ 2 / 2 - x ^ 3 * (2 / 9) ≤ Real.exp (-x)
    ∧ Real.exp (-x) ≤ 1 - x + x ^ 2 / 2 + x ^ 3 * (2 / 9) := by
  have hx : |(-x)| ≤ 1 := by rw [abs_neg, abs_of_nonneg h0]; exact h1
  have h := Real.exp_bound hx (n := 3) (by norm_num)
  simp only [Finset.sum_range_succ, Finset.sum_range_zero, Nat.factorial] at h
  rw [abs_neg, abs_of_nonneg h0] at h
  norm_num at h
  rw [abs_le] at h
  constructor
  · nlinarith [h.1]
  · nlinarith [h.2]

/-- The denominator of `c_compute` at the grid value `0.001` for `F = 75/100`,
`t1 = 1`, `t2 = 20` lies between 0.00019 and 0.000195. -/
theorem fit_denominator_bounds :
    19 / 100000 < c_compute_denom Real.exp (75 / 100) 1 20 (grid_k 1)
    ∧ c_compute_denom Real.exp (75 / 100) 1 20 (grid_k 1) < 195 / 1000000 := by
  have a1 : -(grid_k 1 : ℝ) * 1 = -(1 / 1000) := by simp [grid_k]
  have a2 : -(grid_k 1 : ℝ) * 20 = -(1 / 50) := by
    simp only [grid_k]
    norm_num
  have g : (grid_k 1 : ℝ) = 1 / 1000 := by simp [grid_k]
  obtain ⟨l1, u1⟩ := exp_neg_bounds (1 / 1000) (by norm_num) (by norm_num)
  obtain ⟨l2, u2⟩ := exp_neg_bounds (1 / 50) (by norm_num) (by norm_num)
  simp only [c_compute_denom, a1, a2, g]
  constructor
  · linarith
  · linarith

/-- The estimate `c` at the grid value `0.001` for `F = 75/100`, `t1 = 1`, `t2 = 20` is
negative: it lies between -27 and 0. -/
theorem fit_c_bounds :
    -27 ≤ c_compute Real.exp (75 / 100) 1 20 (grid_k 1)
    ∧ c_compute Real.exp (75 / 100) 1 20 (grid_k 1) < 0 := by
  obtain ⟨hl, hu⟩ := fit_denominator_bounds
  have hpos : 0 < c_compute_denom Real.exp (75 / 100) 1 20 (grid_k 1) := by linarith
  have hnum : c_compute_num Real.exp (75 / 100) 1 20 (grid_k 1)
      = c_compute_denom Real.exp (75 / 100) 1 20 (grid_k 1) - 5 / 1000 := by
    simp only [c_compute_num, c_compute_denom, grid_k]
    ring
  simp only [c_compute, hnum]
  constructor
  · rw [le_div_iff₀ hpos]
    linarith
  · exact div_neg_of_neg_of_pos (by linarith) hpos

/-- The grid search on the data `F1 = F2 = 75/100`, `t1 = 1`, `t2 = 20`: the two
estimates `c1` and `c2` are the same expression, so the residual is 0 at every grid
value; the first grid value where it is defined, `k = 0.001`, is kept, whatever the
loop variables held before. -/
theorem fit_degenerate (k_init c_init : ℝ) (n : Nat) (hn : 2 ≤ n) :
    ((List.range n).foldl
        (parameter_compute_body Real.exp (75 / 100) (75 / 100) 1 20) (10000, k_init, c_init))
      = (0, grid_k 1, c_compute Real.exp (75 / 100) 1 20 (grid_k 1)) := by
  have hres : ∀ i, grid_residual Real.exp (75 / 100) (75 / 100) 1 20 i = 0 := by
    intro i
    simp [grid_residual]
  have hd1 : grid_defined Real.exp (75 / 100) (75 / 100) 1 20 1 := by
    obtain ⟨hl, _⟩ := fit_denominator_bounds
    have : c_compute_denom Real.exp (75 / 100) 1 20 (grid_k 1) ≠ 0 := by
      intro h
      rw [h] at hl
      norm_num at hl
    exact ⟨this, this⟩
  have hd0 : ¬ grid_defined Real.exp (75 / 100) (75 / 100) 1 20 0 := by
    intro hd
    apply hd.1
    simp [c_compute_denom, grid_k]
  rcases parameter_fold_spec Real.exp (75 / 100) (75 / 100) 1 20 k_init c_init n with
    ⟨hall, _⟩ | ⟨i, hi, hdef, _, _, hfirst, hr⟩
  · have := hall 1 (by omega) hd1
    rw [hres] at this
    norm_num at this
  · have hi1 : i = 1 := by
      rcases Nat.lt_or_ge 1 i with h | h
      · have := hfirst 1 h hd1
        rw [hres, hres] at this
        exact absurd this (lt_irrefl _)
      · rcases Nat.eq_or_lt_of_le h with h1 | h0
        · exact h1
        · have : i = 0 := by omega
          rw [this] at hdef
          exact absurd hdef hd0
    rw [hr, hi1, hres]
    simp only [grid_c]
    congr 2
    ring

/-- The state the constructor builds from `q10 = 90`, `q20 = 100`, `I20 = 5`, `V = 12`,
`t1 = 1`, `t2 = 20`, `q1 = 75`, `q2 = 100`, whatever `_k` and `_c` held before: the fit
gives `k = 0.001` and a negative `c`, so the available charge `q1 = q0 * c` is
negative, while `q1 + q2 = q0 = 100`. -/
theorem kibam_init_degenerate (k_init c_init : ℝ) :
    (capacity_kibam_t.init Real.exp k_init c_init 90 100 5 12 1 20 75 100)._k = 1 / 1000
    ∧ (capacity_kibam_t.init Real.exp k_init c_init 90 100 5 12 1 20 75 100)._c
        = c_compute Real.exp (75 / 100) 1 20 (grid_k 1)
    ∧ (capacity_kibam_t.init Real.exp k_init c_init 90 100 5 12 1 20 75 100)._q0 = 100
    ∧ (capacity_kibam_t.init Real.exp k_init c_init 90 100 5 12 1 20 75 100)._q1_0
        = 100 * c_compute Real.exp (75 / 100) 1 20 (grid_k 1)
    ∧ (capacity_kibam_t.init Real.exp k_init c_init 90 100 5 12 1 20 75 100)._q2_0
        = 100 - 100 * c_compute Real.exp (75 / 100) 1 20 (grid_k 1) := by
  have hf := fit_degenerate k_init c_init 5000 (by norm_num)
  have hk : (capacity_kibam_t.init Real.exp k_init c_init 90 100 5 12 1 20 75 100)._k
      = ((List.range 5000).foldl
          (parameter_compute_body Real.exp (75 / 100) (75 / 100) 1 20)
          (10000, k_init, c_init)).2.1 := by
    simp only [capacity_kibam_t.init, capacity_kibam_t.parameter_compute]
  have hc : (capacity_kibam_t.init Real.exp k_init c_init 90 100 5 12 1 20 75 100)._c
      = ((List.range 5000).foldl
          (parameter_compute_body Real.exp (75 / 100) (75 / 100) 1 20)
          (10000, k_init, c_init)).2.2 := by
    simp only [capacity_kibam_t.init, capacity_kibam_t.parameter_compute]
  have hq0 : (capacity_kibam_t.init Real.exp k_init c_init 90 100 5 12 1 20 75 100)._q0
      = 100 := by
    simp only [capacity_kibam_t.init, capacity_kibam_t.parameter_compute]
  have hq1 : (capacity_kibam_t.init Real.exp k_init c_init 90 100 5 12 1 20 75 100)._q1_0
      = 100 * ((List.range 5000).foldl
          (parameter_compute_body Real.exp (75 / 100) (75 / 100) 1 20)
          (10000, k_init, c_init)).2.2 := by
    simp only [capacity_kibam_t.init, capacity_kibam_t.parameter_compute]
  have hq2 : (capacity_kibam_t.init Real.exp k_init c_init 90 100 5 12 1 20 75 100)._q2_0
      = 100 - 100 * ((List.range 5000).foldl
          (parameter_compute_body Real.exp (75 / 100) (75 / 100) 1 20)
          (10000, k_init, c_init)).2.2 := by
    simp only [capacity_kibam_t.init, capacity_kibam_t.parameter_compute]
  rw [hf] at hk hc hq1 hq2
  refine ⟨?_, hc, hq0, hq1, hq2⟩
  rw [hk]
  simp [grid_k]

/-- With `k = 0.001` and `-27 ≤ c < 0` the discharge limit of a one-hour step from
`q1 = 100 * c`, `q0 = 100` is negative. -/
theorem kibam_Idmax_neg_of_fit (kb : capacity_kibam_t ℝ) (hk : kb._k = 1 / 1000)
    (hc1 : -27 ≤ kb._c) (hc2 : kb._c < 0) :
    kb.Idmax_compute Real.exp (100 * kb._c) 100 1 < 0 := by
  obtain ⟨l1, u1⟩ := exp_neg_bounds (1 / 1000) (by norm_num) (by norm_num)
  have a1 : -(1 / 1000 : ℝ) * 1 = -(1 / 1000) := by norm_num
  simp only [capacity_kibam_t.Idmax_compute, hk, a1]
  have ht0 : 0 ≤ 1 / 1000 * 1 - 1 + Real.exp (-(1 / 1000)) := by
    have := Real.add_one_le_exp (-(1 / 1000 : ℝ))
    linarith
  have hprod : -27 * (1 / 1000 * 1 - 1 + Real.exp (-(1 / 1000)))
      ≤ kb._c * (1 / 1000 * 1 - 1 + Real.exp (-(1 / 1000))) :=
    mul_le_mul_of_nonneg_right hc1 ht0
  have hD : 0 < 1 - Real.exp (-(1 / 1000)) + kb._c * (1 / 1000 * 1 - 1 + Real.exp (-(1 / 1000))) := by
    linarith
  apply div_neg_of_neg_of_pos _ hD
  have : 1 / 1000 * (100 * kb._c) * Real.exp (-(1 / 1000))
      + 100 * (1 / 1000) * kb._c * (1 - Real.exp (-(1 / 1000))) = kb._c / 10 := by ring
  rw [this]
  linarith

/-- C19 (counterexample): the constructor is run on `q10 = 90`, `q20 = 100`, `I20 = 5`,
`V = 12`, `t1 = 1`, `t2 = 20`, `q1 = 75`, `q2 = 100` (the second data point is the
20-hour rating), with the real exponential.  The values 0 given for what `_k` and
`_c` held before do not matter (`kibam_init_degenerate` holds for all of them): the
fit overwrites them with `k = 0.001` and a negative `c`, so the state has
`q1 + q2 = q0 = 100` and `q1 < 0`, and `Idmax` for a one-hour step is negative.  The request `P = 0`, `V = 12`
stores the current 0, which is above `Idmax`, hence outside `[-|Icmax|, Idmax]`. -/
theorem kibam_current_outside_interval :
      (capacity_kibam_t.init Real.exp 0 0 90 100 5 12 1 20 75 100)._q1_0
          + (capacity_kibam_t.init Real.exp 0 0 90 100 5 12 1 20 75 100)._q2_0
        = (capacity_kibam_t.init Real.exp 0 0 90 100 5 12 1 20 75 100)._q0
      ∧ (capacity_kibam_t.init Real.exp 0 0 90 100 5 12 1 20 75 100)._q1_0 < 0
      ∧ (capacity_kibam_t.init Real.exp 0 0 90 100 5 12 1 20 75 100).Idmax_compute
          Real.exp
          (capacity_kibam_t.init Real.exp 0 0 90 100 5 12 1 20 75 100)._q1_0
          (capacity_kibam_t.init Real.exp 0 0 90 100 5 12 1 20 75 100)._q0 1 < 0
      ∧ ((capacity_kibam_t.init Real.exp 0 0 90 100 5 12 1 20 75 100).updateCapacity
          Real.exp 0 12 1 0)._I = 0
      ∧ ¬ (((capacity_kibam_t.init Real.exp 0 0 90 100 5 12 1 20 75
              100).updateCapacity Real.exp 0 12 1 0)._I
          ≤ (capacity_kibam_t.init Real.exp 0 0 90 100 5 12 1 20 75
              100).Idmax_compute Real.exp
            (capacity_kibam_t.init Real.exp 0 0 90 100 5 12 1 20 75 100)._q1_0
            (capacity_kibam_t.init Real.exp 0 0 90 100 5 12 1 20 75 100)._q0 1) := by
  obtain ⟨hk, hc, hq0, hq1, hq2⟩ := kibam_init_degenerate 0 0
  obtain ⟨hc1, hc2⟩ := fit_c_bounds
  generalize capacity_kibam_t.init Real.exp 0 0 90 100 5 12 1 20 75 100 = kb
    at hk hc hq0 hq1 hq2 ⊢
  rw [← hc] at hq1 hq2 hc1 hc2
  have hId : kb.Idmax_compute Real.exp kb._q1_0 kb._q0 1 < 0 := by
    rw [hq1, hq0]
    exact kibam_Idmax_neg_of_fit kb hk hc1 hc2
  have hI : (kb.updateCapacity Real.exp 0 12 1 0)._I = 0 := by
    rw [kibam_update_I]
    norm_num
  refine ⟨?_, ?_, hId, hI, ?_⟩
  · rw [hq1, hq2, hq0]
    ring
  · rw [hq1]
    linarith
  · rw [hI]
    exact not_le.mpr hId

end KibamFit

section RainflowStep
variable {F : Type} [LinearOrderedField F]

theorem peakAt_last_three {α : Type} (pre : List α) (a b c : α) :
    peakAt (pre ++ [a, b, c]) ((pre.length : Int) + 2) = .ok c
    ∧ peakAt (pre ++ [a, b, c]) ((pre.length : Int) + 2 - 1) = .ok b
    ∧ peakAt (pre ++ [a, b, c]) ((pre.length : Int) + 2 - 2) = .ok a := by
  have h2 : ((pre.length : Int) + 2).toNat = pre.length + 2 := by omega
  have h1 : ((pre.length : Int) + 2 - 1).toNat = pre.length + 1 := by omega
  have h0 : ((pre.length : Int) + 2 - 2).toNat = pre.length := by omega
  have p2 : (0 : Int) ≤ (pre.length : Int) + 2 := by omega
  have p1 : (0 : Int) ≤ (pre.length : Int) + 2 - 1 := by omega
  have p0 : (0 : Int) ≤ (pre.length : Int) + 2 - 2 := by omega
  refine ⟨?_, ?_, ?_⟩
  · simp only [peakAt, if_pos p2, h2]
    rw [List.getElem?_append_right (by omega)]
    simp
  · simp only [peakAt, if_pos p1, h1]
    rw [List.getElem?_append_right (by omega)]
    simp
  · simp only [peakAt, if_pos p0, h0]
    rw [List.getElem?_append_right (by omega)]
    simp

theorem popBack_concat (pre : List F) (a : F) : popBack (pre ++ [a]) = .ok pre := by
  have n : pre ++ [a] ≠ [] := by simp
  simp only [popBack, if_neg n, List.dropLast_concat]

theorem popBack_three (pre : List F) (a b c : F) :
    popBack (pre ++ [a, b, c]) = .ok (pre ++ [a, b])
    ∧ popBack (pre ++ [a, b]) = .ok (pre ++ [a]) := by
  have e1 : pre ++ [a, b, c] = (pre ++ [a, b]) ++ [c] := by simp
  have e2 : pre ++ [a, b] = (pre ++ [a]) ++ [b] := by simp
  exact ⟨by rw [e1, popBack_concat], by rw [e2, popBack_concat]⟩

theorem rainflow_ranges_last_three (lt : lifetime_t F) (pre : List F) (a b c : F)
    (hP : lt._Peaks = pre ++ [a, b, c]) (hj : lt._jlt = (pre.length : Int) + 2) :
    rainflow_ranges lt = .ok { lt with _Ylt := |b - a|, _Xlt := |c - b| } := by
  obtain ⟨h2, h1, h0⟩ := peakAt_last_three pre a b c
  simp only [rainflow_ranges, hP, hj, h2, h1, h0, Except_ok_bind]

theorem startIsEndpointOfY_last_three (lt : lifetime_t F) (pre : List F) (a b c : F)
    (hP : lt._Peaks = pre ++ [a, b, c]) (hj : lt._jlt = (pre.length : Int) + 2) :
    startIsEndpointOfY lt = .ok (decide (lt._Slt = b ∨ lt._Slt = a)) := by
  obtain ⟨_, h1, h0⟩ := peakAt_last_three pre a b c
  simp only [startIsEndpointOfY, hP, hj, h1, h0, Except_ok_bind]
  by_cases hb : lt._Slt = b
  · simp [hb]
  · simp [hb]

theorem countRangeY_last_three (ex : F → F) (lt : lifetime_t F) (pre : List F) (a b c : F)
    (hP : lt._Peaks = pre ++ [a, b, c]) (hj : lt._jlt = (pre.length : Int) + 2) :
    countRangeY ex lt
      = .ok ⟨lt._a0, lt._a1, lt._a2, lt._a3, lt._a4, pre ++ [c], lt._nCycles + 1,
          if |lt.life ex lt._Ylt| > 0 then lt._Dlt + 100 / lt.life ex lt._Ylt else lt._Dlt,
          lt._jlt - 2, lt._klt, lt._Xlt, lt._Ylt, lt._Slt, lt._Ylt⟩ := by
  obtain ⟨h2, _, _⟩ := peakAt_last_three pre a b c
  obtain ⟨q1, q2⟩ := popBack_three pre a b c
  have q3 := popBack_concat pre a
  by_cases hC : |lt.life ex lt._Ylt| > 0
  · rw [if_pos hC]
    simp only [lifetime_t.life] at hC
    simp only [countRangeY, lifetime_t.life, if_pos hC, hP, hj, h2, q1, q2, q3, Except_ok_bind]
  · rw [if_neg hC]
    simp only [lifetime_t.life] at hC
    simp only [countRangeY, lifetime_t.life, if_neg hC, hP, hj, h2, q1, q2, q3, Except_ok_bind]

theorem rainflow_loop_pass (ex : F → F) (n : Nat) (lt lt1 : lifetime_t F)
    (hj : 2 ≤ lt._jlt) (hr : rainflow_ranges lt = .ok lt1) :
    rainflow_loop ex (n + 1) lt
      = (rainflow_compareRanges ex lt1 >>= fun r =>
          if r.2 = RetCode.LT_GET_DATA then .ok (r.1, r.2) else rainflow_loop ex n r.1) := by
  have h : lt._jlt ≥ 2 := hj
  simp only [rainflow_loop, if_pos h, hr, Except_ok_bind]

/-- C16: one pass of the comparison loop of `rainflow` on a state whose last three
peaks are `a, b, c` (so `Y = |b - a|` and `X = |c - b|`).  If `X < Y` the call stops
and nothing is counted.  If `X ≥ Y` and the start value `S` is neither endpoint of
`Y`, one half-cycle of magnitude `Y` is counted (cycle count plus one, damage plus
`100 / life Y` when `life Y` is not zero, `a` and `b` removed, `c` kept, index minus
two) and the comparison is repeated.  If `X = Y` and `S` is an endpoint of `Y`,
the call stops and nothing is counted.  If `X > Y` and `S` is an endpoint of `Y`,
nothing is counted, `S` becomes the peak at index `_klt + 1`, and the call stops. -/
theorem rainflow_comparison_rule (ex : F → F) (n : Nat) (lt : lifetime_t F) (pre : List F)
    (a b c : F) (hP : lt._Peaks = pre ++ [a, b, c]) (hj : lt._jlt = (pre.length : Int) + 2) :
    (|c - b| < |b - a| →
      rainflow_loop ex (n + 1) lt
        = .ok ({ lt with _Ylt := |b - a|, _Xlt := |c - b| }, RetCode.LT_GET_DATA))
    ∧ (|b - a| ≤ |c - b| → lt._Slt ≠ b → lt._Slt ≠ a →
      rainflow_loop ex (n + 1) lt
        = rainflow_loop ex n
            ⟨lt._a0, lt._a1, lt._a2, lt._a3, lt._a4, pre ++ [c], lt._nCycles + 1,
              if |lt.life ex (|b - a|)| > 0 then lt._Dlt + 100 / lt.life ex (|b - a|)
              else lt._Dlt,
              lt._jlt - 2, lt._klt, |c - b|, |b - a|, lt._Slt, |b - a|⟩)
    ∧ (|c - b| = |b - a| → (lt._Slt = b ∨ lt._Slt = a) →
      rainflow_loop ex (n + 1) lt
        = .ok ({ lt with _Ylt := |b - a|, _Xlt := |c - b| }, RetCode.LT_GET_DATA))
    ∧ (|b - a| < |c - b| → (lt._Slt = b ∨ lt._Slt = a) →
      rainflow_loop ex (n + 1) lt
        = (peakAt lt._Peaks (lt._klt + 1) >>= fun s =>
            .ok ({ lt with _Ylt := |b - a|, _Xlt := |c - b|, _klt := lt._klt + 1, _Slt := s },
              RetCode.LT_GET_DATA))) := by
  have hr := rainflow_ranges_last_three lt pre a b c hP hj
  have hj2 : 2 ≤ lt._jlt := by omega
  have hpass := rainflow_loop_pass ex n lt _ hj2 hr
  have hs := startIsEndpointOfY_last_three { lt with _Ylt := |b - a|, _Xlt := |c - b| }
    pre a b c hP hj
  have hc := countRangeY_last_three ex { lt with _Ylt := |b - a|, _Xlt := |c - b| }
    pre a b c hP hj
  refine ⟨fun hxy => ?_, fun hxy hb ha => ?_, fun hxy hS => ?_, fun hxy hS => ?_⟩
  · rw [hpass, compareRanges_of_lt ex _ hxy]
    rfl
  · have hf : startIsEndpointOfY { lt with _Ylt := |b - a|, _Xlt := |c - b| } = .ok false := by
      rw [hs]
      have : ¬ (lt._Slt = b ∨ lt._Slt = a) := by
        rintro (h | h)
        · exact hb h
        · exact ha h
      simp only [decide_eq_false this]
    rw [hpass, compareRanges_count ex _ hxy hf, hc]
    rfl
  · have ht : startIsEndpointOfY { lt with _Ylt := |b - a|, _Xlt := |c - b| } = .ok true := by
      rw [hs]
      simp only [decide_eq_true hS]
    rw [hpass, compareRanges_contained_eq ex _ hxy ht]
    rfl
  · have ht : startIsEndpointOfY { lt with _Ylt := |b - a|, _Xlt := |c - b| } = .ok true := by
      rw [hs]
      simp only [decide_eq_true hS]
    cases hk : peakAt lt._Peaks (lt._klt + 1) with
    | error e =>
      rw [hpass]
      simp [rainflow_compareRanges, hxy, ht, not_lt.mpr hxy.le, hxy.ne', hxy.le, hk]
    | ok s =>
      rw [hpass, compareRanges_contained_gt ex _ hxy ht s hk]
      rfl

/-- C16 witness: with peaks `0, 40, 20, 50` the range `Y = 20` lies inside `X = 30` and
the start value `0` is not an endpoint of `Y`, so `Y` is counted. -/
theorem rainflow_comparison_rule_witness :
    ({ sample_lifetime with _Peaks := [0, 40, 20, 50], _jlt := 3 } : lifetime_t ℚ)._Peaks
        = [0] ++ [40, 20, 50]
    ∧ rainflow_loop sample_ex 5
          ({ sample_lifetime with _Peaks := [0, 40, 20, 50], _jlt := 3 } : lifetime_t ℚ)
        = rainflow_loop sample_ex 4
            ⟨0, 1000, -1 / 100, 0, 0, [0, 50], 1, 1 / 8, 1, 0, 30, 20, 0, 20⟩ :=
  ⟨rfl,
    ((rainflow_comparison_rule sample_ex 4
        ({ sample_lifetime with _Peaks := [0, 40, 20, 50], _jlt := 3 } : lifetime_t ℚ)
        [0] 40 20 50 rfl rfl).2.1
      (by norm_num) (by with_unfolding_all decide) (by with_unfolding_all decide)).trans
      (by with_unfolding_all rfl)⟩

end RainflowStep

section MeasureArith
variable {F : Type}

theorem finish_bound_lt_measure (lt : lifetime_t F) (ii : Int) (rc rc1 : Nat)
    (hrc : rc ≤ rc1) (hii : ii < (lt._Peaks.length : Int)) :
    finish_bound lt ii rc1 < finish_measure lt ii rc := by
  simp only [finish_measure, finish_bound]
  split_ifs <;> omega

theorem finish_measure_pos (lt : lifetime_t F) (ii : Int) (rc : Nat)
    (hrc : rc ≤ 1) (hii : ii < (lt._Peaks.length : Int)) :
    1 ≤ finish_measure lt ii rc := by
  simp only [finish_measure]
  split_ifs <;> omega

end MeasureArith

section MeasureLemmas
variable {F : Type} [LinearOrderedField F]

theorem Except_bind_eq_ok {ε α β : Type} (x : Except ε α) (f : α → Except ε β) (b : β)
    (h : (x >>= f) = .ok b) : ∃ a, x = .ok a ∧ f a = .ok b := by
  cases x with
  | error e => cases h
  | ok a => exact ⟨a, rfl, h⟩

theorem Except_bind_ne_error {ε α β : Type} (x : Except ε α) (f : α → Except ε β) (e : ε)
    (hx : x ≠ .error e) (hf : ∀ a, x = .ok a → f a ≠ .error e) : (x >>= f) ≠ .error e := by
  cases x with
  | error e1 =>
    intro h
    apply hx
    rw [Except_error_bind] at h
    cases h
    rfl
  | ok a => exact hf a rfl

theorem peakAt_ne_outOfFuel {α : Type} (xs : List α) (i : Int) : peakAt xs i ≠ .error Fault.outOfFuel := by
  unfold peakAt
  split_ifs
  · cases xs[i.toNat]? <;> simp
  · simp

theorem popBack_ne_outOfFuel (xs : List F) : popBack xs ≠ .error Fault.outOfFuel := by
  unfold popBack
  split_ifs <;> simp

theorem popBack_length (xs ys : List F) (h : popBack xs = .ok ys) :
    ys.length + 1 = xs.length := by
  unfold popBack at h
  split_ifs at h with hx
  cases h
  have := List.length_pos.mpr hx
  rw [List.length_dropLast]
  omega

theorem rainflow_ranges_ne_outOfFuel (lt : lifetime_t F) :
    rainflow_ranges lt ≠ .error Fault.outOfFuel := by
  unfold rainflow_ranges
  refine Except_bind_ne_error _ _ _ (peakAt_ne_outOfFuel _ _) fun _ _ => ?_
  refine Except_bind_ne_error _ _ _ (peakAt_ne_outOfFuel _ _) fun _ _ => ?_
  refine Except_bind_ne_error _ _ _ (peakAt_ne_outOfFuel _ _) fun _ _ => ?_
  refine Except_bind_ne_error _ _ _ (peakAt_ne_outOfFuel _ _) fun _ _ => ?_
  simp

theorem rainflow_ranges_frame (lt lt1 : lifetime_t F) (h : rainflow_ranges lt = .ok lt1) :
    lt1._Peaks = lt._Peaks ∧ lt1._jlt = lt._jlt := by
  unfold rainflow_ranges at h
  obtain ⟨_, _, h⟩ := Except_bind_eq_ok _ _ _ h
  obtain ⟨_, _, h⟩ := Except_bind_eq_ok _ _ _ h
  obtain ⟨_, _, h⟩ := Except_bind_eq_ok _ _ _ h
  obtain ⟨_, _, h⟩ := Except_bind_eq_ok _ _ _ h
  cases h
  exact ⟨rfl, rfl⟩

theorem ranges_circular_ne_outOfFuel (lt : lifetime_t F) (ii : Int) :
    rainflow_ranges_circular lt ii ≠ .error Fault.outOfFuel := by
  unfold rainflow_ranges_circular
  by_cases h0 : ii = 0
  · simp only [if_pos h0]
    refine Except_bind_ne_error _ _ _ (peakAt_ne_outOfFuel _ _) fun _ _ => ?_
    refine Except_bind_ne_error _ _ _ (peakAt_ne_outOfFuel _ _) fun _ _ => ?_
    refine Except_bind_ne_error _ _ _ (peakAt_ne_outOfFuel _ _) fun _ _ => ?_
    refine Except_bind_ne_error _ _ _ (peakAt_ne_outOfFuel _ _) fun _ _ => ?_
    simp
  · by_cases h1 : ii = 1
    · simp only [if_neg h0, if_pos h1]
      refine Except_bind_ne_error _ _ _ (peakAt_ne_outOfFuel _ _) fun _ _ => ?_
      refine Except_bind_ne_error _ _ _ (peakAt_ne_outOfFuel _ _) fun _ _ => ?_
      refine Except_bind_ne_error _ _ _ (peakAt_ne_outOfFuel _ _) fun _ _ => ?_
      refine Except_bind_ne_error _ _ _ (peakAt_ne_outOfFuel _ _) fun _ _ => ?_
      simp
    · simp only [if_neg h0, if_neg h1]
      exact rainflow_ranges_ne_outOfFuel lt

theorem ranges_circular_frame (lt lt1 : lifetime_t F) (ii : Int)
    (h : rainflow_ranges_circular lt ii = .ok lt1) :
    lt1._Peaks = lt._Peaks ∧ lt1._jlt = lt._jlt := by
  unfold rainflow_ranges_circular at h
  by_cases h0 : ii = 0
  · simp only [if_pos h0] at h
    obtain ⟨_, _, h⟩ := Except_bind_eq_ok _ _ _ h
    obtain ⟨_, _, h⟩ := Except_bind_eq_ok _ _ _ h
    obtain ⟨_, _, h⟩ := Except_bind_eq_ok _ _ _ h
    obtain ⟨_, _, h⟩ := Except_bind_eq_ok _ _ _ h
    cases h
    exact ⟨rfl, rfl⟩
  · by_cases h1 : ii = 1
    · simp only [if_neg h0, if_pos h1] at h
      obtain ⟨_, _, h⟩ := Except_bind_eq_ok _ _ _ h
      obtain ⟨_, _, h⟩ := Except_bind_eq_ok _ _ _ h
      obtain ⟨_, _, h⟩ := Except_bind_eq_ok _ _ _ h
      obtain ⟨_, _, h⟩ := Except_bind_eq_ok _ _ _ h
      cases h
      exact ⟨rfl, rfl⟩
    · simp only [if_neg h0, if_neg h1] at h
      exact rainflow_ranges_frame lt lt1 h

theorem countRangeY_ne_outOfFuel (ex : F → F) (lt : lifetime_t F) :
    countRangeY ex lt ≠ .error Fault.outOfFuel := by
  unfold countRangeY
  refine Except_bind_ne_error _ _ _ (peakAt_ne_outOfFuel _ _) fun _ _ => ?_
  refine Except_bind_ne_error _ _ _ (popBack_ne_outOfFuel _) fun _ _ => ?_
  refine Except_bind_ne_error _ _ _ (popBack_ne_outOfFuel _) fun _ _ => ?_
  refine Except_bind_ne_error _ _ _ (popBack_ne_outOfFuel _) fun _ _ => ?_
  simp

theorem countRangeY_frame (ex : F → F) (lt lt2 : lifetime_t F)
    (h : countRangeY ex lt = .ok lt2) :
    lt2._Peaks.length + 2 = lt._Peaks.length ∧ lt2._jlt = lt._jlt - 2 := by
  by_cases hC : |lt.life ex lt._Ylt| > 0
  · simp only [lifetime_t.life] at hC
    simp only [countRangeY, lifetime_t.life, if_pos hC] at h
    obtain ⟨_, _, h⟩ := Except_bind_eq_ok _ _ _ h
    obtain ⟨p1, h1, h⟩ := Except_bind_eq_ok _ _ _ h
    obtain ⟨p2, h2, h⟩ := Except_bind_eq_ok _ _ _ h
    obtain ⟨p3, h3, h⟩ := Except_bind_eq_ok _ _ _ h
    cases h
    have e1 := popBack_length _ _ h1
    have e2 := popBack_length _ _ h2
    have e3 := popBack_length _ _ h3
    refine ⟨?_, rfl⟩
    simp only [List.length_append, List.length_cons, List.length_nil]
    omega
  · simp only [lifetime_t.life] at hC
    simp only [countRangeY, lifetime_t.life, if_neg hC] at h
    obtain ⟨_, _, h⟩ := Except_bind_eq_ok _ _ _ h
    obtain ⟨p1, h1, h⟩ := Except_bind_eq_ok _ _ _ h
    obtain ⟨p2, h2, h⟩ := Except_bind_eq_ok _ _ _ h
    obtain ⟨p3, h3, h⟩ := Except_bind_eq_ok _ _ _ h
    cases h
    have e1 := popBack_length _ _ h1
    have e2 := popBack_length _ _ h2
    have e3 := popBack_length _ _ h3
    refine ⟨?_, rfl⟩
    simp only [List.length_append, List.length_cons, List.length_nil]
    omega

theorem finish_inner_false (ex : F → F) (P : F) (n : Nat) (lt : lifetime_t F) (ii : Int)
    (rc : Nat) (r : lifetime_t F × Int × Nat)
    (h : rainflow_finish_inner ex P n lt ii rc false = .ok r) : r = (lt, ii, rc) := by
  cases n with
  | zero => cases h
  | succ n =>
    rw [finish_inner_exit] at h
    cases h
    rfl

theorem finish_inner_ne_outOfFuel (ex : F → F) (P : F) (n : Nat) :
    ∀ (lt : lifetime_t F) (ii : Int) (rc : Nat) (b : Bool),
      (b = true → lt._Peaks.length + 2 ≤ n) → 1 ≤ n →
      rainflow_finish_inner ex P n lt ii rc b ≠ .error Fault.outOfFuel := by
  induction n with
  | zero => intro lt ii rc b _ h1; omega
  | succ n ih =>
    intro lt ii rc b hb _
    simp only [rainflow_finish_inner]
    by_cases hf : b = false
    · rw [if_pos hf]
      simp
    · rw [if_neg hf]
      have hbt : b = true := by cases b <;> simp at hf ⊢
      have hL := hb hbt
      have hn : 1 ≤ n := by omega
      by_cases h2 : lt._jlt ≥ 2
      · rw [if_pos h2]
        refine Except_bind_ne_error _ _ _ (ranges_circular_ne_outOfFuel _ _) fun lt1 hr => ?_
        obtain ⟨hP1, _⟩ := ranges_circular_frame _ _ _ hr
        by_cases hxy : lt1._Xlt < lt1._Ylt
        · rw [if_pos hxy]
          exact ih _ _ _ _ (fun h => by cases h) hn
        · rw [if_neg hxy]
          refine Except_bind_ne_error _ _ _ (countRangeY_ne_outOfFuel _ _) fun lt2 hc => ?_
          obtain ⟨hP2, _⟩ := countRangeY_frame _ _ _ hc
          refine ih _ _ _ _ (fun _ => ?_) hn
          rw [hP1] at hP2
          omega
      · rw [if_neg h2]
        by_cases h1 : lt._jlt = 1
        · rw [if_pos h1]
          refine Except_bind_ne_error _ _ _ (ranges_circular_ne_outOfFuel _ _) fun lt1 _ => ?_
          by_cases hxy : lt1._Xlt < lt1._Ylt
          · rw [if_pos hxy]
            exact ih _ _ _ _ (fun h => by cases h) hn
          · rw [if_neg hxy]
            refine Except_bind_ne_error _ _ _ (countRangeY_ne_outOfFuel _ _) fun lt2 _ => ?_
            exact ih _ _ _ _ (fun h => by cases h) hn
        · rw [if_neg h1]
          simp

theorem finish_inner_measure (ex : F → F) (P : F) (n : Nat) :
    ∀ (lt : lifetime_t F) (ii : Int) (rc : Nat) (r : lifetime_t F × Int × Nat),
      rainflow_finish_inner ex P n lt ii rc true = .ok r →
      finish_measure r.1 r.2.1 r.2.2 ≤ finish_bound lt ii rc := by
  induction n with
  | zero => intro lt ii rc r h; cases h
  | succ n ih =>
    intro lt ii rc r h
    simp only [rainflow_finish_inner] at h
    have hf : ¬ (true = false) := by decide
    rw [if_neg hf] at h
    by_cases h2 : lt._jlt ≥ 2
    · rw [if_pos h2] at h
      obtain ⟨lt1, hr, h⟩ := Except_bind_eq_ok _ _ _ h
      obtain ⟨hP1, hJ1⟩ := ranges_circular_frame _ _ _ hr
      by_cases hxy : lt1._Xlt < lt1._Ylt
      · rw [if_pos hxy] at h
        have hr := finish_inner_false _ _ _ _ _ _ _ h
        subst hr
        simp only [finish_measure, finish_bound, hP1, hJ1]
        split_ifs <;> omega
      · rw [if_neg hxy] at h
        obtain ⟨lt2, hc, h⟩ := Except_bind_eq_ok _ _ _ h
        obtain ⟨hP2, hJ2⟩ := countRangeY_frame _ _ _ hc
        have hi := ih _ _ _ _ h
        refine le_trans hi ?_
        rw [hP1] at hP2
        rw [hJ1] at hJ2
        have hL : (lt2._Peaks.length : Int) + 2 = (lt._Peaks.length : Int) := by
          exact_mod_cast hP2
        simp only [finish_bound, hJ2]
        split_ifs <;> omega
    · rw [if_neg h2] at h
      by_cases h1 : lt._jlt = 1
      · rw [if_pos h1] at h
        obtain ⟨lt1, hr, h⟩ := Except_bind_eq_ok _ _ _ h
        obtain ⟨hP1, hJ1⟩ := ranges_circular_frame _ _ _ hr
        simp only at hP1 hJ1
        have hL1 : (lt1._Peaks.length : Int) = (lt._Peaks.length : Int) + 1 := by
          rw [hP1]
          simp
        by_cases hxy : lt1._Xlt < lt1._Ylt
        · rw [if_pos hxy] at h
          have hr := finish_inner_false _ _ _ _ _ _ _ h
          subst hr
          simp only [finish_measure, finish_bound, hJ1, hL1, h1]
          split_ifs <;> omega
        · rw [if_neg hxy] at h
          obtain ⟨lt2, hc, h⟩ := Except_bind_eq_ok _ _ _ h
          obtain ⟨hP2, hJ2⟩ := countRangeY_frame _ _ _ hc
          have hr := finish_inner_false _ _ _ _ _ _ _ h
          subst hr
          have hL2 : (lt2._Peaks.length : Int) + 2 = (lt1._Peaks.length : Int) := by
            exact_mod_cast hP2
          rw [hJ1] at hJ2
          simp only [finish_measure, finish_bound, hJ2, h1]
          split_ifs <;> omega
      · rw [if_neg h1] at h
        cases h
        have h0 : lt._jlt ≤ 0 := by omega
        simp only [finish_measure, finish_bound, if_pos h0]
        push_cast
        omega

theorem finish_sweep_ne_outOfFuel (ex : F → F) (n : Nat) :
    ∀ (lt : lifetime_t F) (ii : Int) (rc met : Nat),
      finish_measure lt ii rc < (n : Int) → 1 ≤ n →
      rainflow_finish_sweep ex n lt ii rc met ≠ .error Fault.outOfFuel := by
  induction n with
  | zero => intro lt ii rc met _ h1; omega
  | succ n ih =>
    intro lt ii rc met hm _
    simp only [rainflow_finish_sweep]
    by_cases hrc : rc ≤ 1
    · rw [if_pos hrc]
      by_cases hii : 0 ≤ ii ∧ ii < (lt._Peaks.length : Int)
      · rw [if_pos hii]
        have hpos := finish_measure_pos lt ii rc hrc hii.2
        refine Except_bind_ne_error _ _ _ (peakAt_ne_outOfFuel _ _) fun P _ => ?_
        refine Except_bind_ne_error _ _ _
          (finish_inner_ne_outOfFuel ex P _ _ _ _ _ (fun _ => by omega) (by omega)) fun q hq => ?_
        obtain ⟨lt1, ii1, rc2⟩ := q
        have hle := finish_inner_measure ex P _ _ _ _ _ hq
        have hlt := finish_bound_lt_measure lt ii rc (if P = lt._Slt then rc + 1 else rc)
          (by split_ifs <;> omega) hii.2
        simp only at hle
        refine ih lt1 ii1 rc2 _ ?_ ?_
        · push_cast at hm
          omega
        · push_cast at hm
          omega
      · rw [if_neg hii]
        simp
    · rw [if_neg hrc]
      simp

theorem finish_trace_ne_outOfFuel (ex : F → F) (lt : lifetime_t F) :
    rainflow_finish_trace ex lt ≠ .error Fault.outOfFuel := by
  unfold rainflow_finish_trace
  refine finish_sweep_ne_outOfFuel ex _ _ _ _ _ ?_ (by omega)
  simp only [finish_measure]
  push_cast
  split_ifs <;> omega

end MeasureLemmas

section SweepLemmas
variable {F : Type} [LinearOrderedField F]

theorem finish_outer_eq_sweep (ex : F → F) (n : Nat) :
    ∀ (lt : lifetime_t F) (ii : Int) (rc met : Nat),
      rainflow_finish_outer ex n lt ii rc
        = (rainflow_finish_sweep ex n lt ii rc met >>= fun r => .ok r.1) := by
  induction n with
  | zero => intro lt ii rc met; rfl
  | succ n ih =>
    intro lt ii rc met
    simp only [rainflow_finish_outer, rainflow_finish_sweep]
    by_cases hrc : rc ≤ 1
    · by_cases hii : 0 ≤ ii ∧ ii < (lt._Peaks.length : Int)
      · simp only [if_pos hrc, if_pos hii]
        cases hP : peakAt lt._Peaks ii with
        | error e => rfl
        | ok P =>
          simp only [Except_ok_bind]
          cases hin : rainflow_finish_inner ex P (lt._Peaks.length + 3) lt ii
              (if P = lt._Slt then rc + 1 else rc) true with
          | error e => rfl
          | ok r =>
            obtain ⟨lt1, ii1, rc2⟩ := r
            simp only [Except_ok_bind]
            exact ih lt1 ii1 rc2 _
      · simp only [if_pos hrc, if_neg hii]
        rfl
    · simp only [if_neg hrc]
      rfl

theorem finish_inner_rc_le (ex : F → F) (P : F) (n : Nat) :
    ∀ (lt : lifetime_t F) (ii : Int) (rc : Nat) (b : Bool) (r : lifetime_t F × Int × Nat),
      rainflow_finish_inner ex P n lt ii rc b = .ok r → rc ≤ r.2.2 := by
  induction n with
  | zero => intro lt ii rc b r h; cases h
  | succ n ih =>
    intro lt ii rc b r h
    simp only [rainflow_finish_inner] at h
    by_cases hb : b = false
    · rw [if_pos hb] at h
      cases h
      exact le_refl _
    · rw [if_neg hb] at h
      by_cases h2 : lt._jlt ≥ 2
      · rw [if_pos h2] at h
        cases hr : rainflow_ranges_circular lt ii with
        | error e => rw [hr] at h; cases h
        | ok lt1 =>
          rw [hr] at h
          simp only [Except_ok_bind] at h
          by_cases hxy : lt1._Xlt < lt1._Ylt
          · rw [if_pos hxy] at h
            exact ih _ _ _ _ _ h
          · rw [if_neg hxy] at h
            cases hc : countRangeY ex lt1 with
            | error e => rw [hc] at h; cases h
            | ok lt2 =>
              rw [hc] at h
              simp only [Except_ok_bind] at h
              exact ih _ _ _ _ _ h
      · rw [if_neg h2] at h
        by_cases h1 : lt._jlt = 1
        · rw [if_pos h1] at h
          cases hr : rainflow_ranges_circular
              { lt with _Peaks := lt._Peaks ++ [P], _jlt := lt._jlt + 1 } (lt._jlt + 1) with
          | error e => rw [hr] at h; cases h
          | ok lt1 =>
            rw [hr] at h
            simp only [Except_ok_bind] at h
            by_cases hxy : lt1._Xlt < lt1._Ylt
            · rw [if_pos hxy] at h
              exact ih _ _ _ _ _ h
            · rw [if_neg hxy] at h
              cases hc : countRangeY ex lt1 with
              | error e => rw [hc] at h; cases h
              | ok lt2 =>
                rw [hc] at h
                simp only [Except_ok_bind] at h
                exact ih _ _ _ _ _ h
        · rw [if_neg h1] at h
          cases h
          exact Nat.le_succ _

theorem finish_sweep_exit (ex : F → F) (n : Nat) :
    ∀ (lt : lifetime_t F) (ii : Int) (rc met : Nat) (r : lifetime_t F × Int × Nat × Nat),
      rainflow_finish_sweep ex n lt ii rc met = .ok r → met ≤ rc →
      (1 < r.2.2.1 ∨ ¬ (0 ≤ r.2.1 ∧ r.2.1 < (r.1._Peaks.length : Int)))
        ∧ r.2.2.2 ≤ r.2.2.1 := by
  induction n with
  | zero => intro lt ii rc met r h; cases h
  | succ n ih =>
    intro lt ii rc met r h hm
    simp only [rainflow_finish_sweep] at h
    by_cases hrc : rc ≤ 1
    · rw [if_pos hrc] at h
      by_cases hii : 0 ≤ ii ∧ ii < (lt._Peaks.length : Int)
      · rw [if_pos hii] at h
        cases hP : peakAt lt._Peaks ii with
        | error e => rw [hP] at h; cases h
        | ok P =>
          rw [hP] at h
          simp only [Except_ok_bind] at h
          cases hin : rainflow_finish_inner ex P (lt._Peaks.length + 3) lt ii
              (if P = lt._Slt then rc + 1 else rc) true with
          | error e => rw [hin] at h; cases h
          | ok q =>
            rw [hin] at h
            obtain ⟨lt1, ii1, rc2⟩ := q
            simp only [Except_ok_bind] at h
            have hle := finish_inner_rc_le ex P _ _ _ _ _ _ hin
            refine ih lt1 ii1 rc2 _ r h ?_
            simp only at hle
            by_cases hS : P = lt._Slt
            · rw [if_pos hS] at hle ⊢
              omega
            · rw [if_neg hS] at hle ⊢
              omega
      · rw [if_neg hii] at h
        cases h
        exact ⟨Or.inr hii, hm⟩
    · rw [if_neg hrc] at h
      cases h
      refine ⟨Or.inl ?_, hm⟩
      show 1 < rc
      omega

/-- C17, as the code has it: the sweep of `rainflow_finish` always ends, by a read
outside the peak sequence or by leaving its loop, and when `rainflow_finish` returns,
the loop counter `rereadCount` exceeds 1 or the sweep index `ii` is not an index of
the peak sequence.  The counter is at least the number of times the point read
equalled the start value, and the state returned is the one `rainflow_finish`
returns. -/
theorem rainflow_finish_exit_condition (ex : F → F) (lt : lifetime_t F) :
    rainflow_finish_trace ex lt ≠ .error Fault.outOfFuel
    ∧ rainflow_finish ex lt = (rainflow_finish_trace ex lt >>= fun r => .ok r.1)
    ∧ ∀ (lt1 : lifetime_t F) (ii : Int) (rereadCount met : Nat),
        rainflow_finish_trace ex lt = .ok (lt1, ii, rereadCount, met) →
        (1 < rereadCount ∨ ¬ (0 ≤ ii ∧ ii < (lt1._Peaks.length : Int)))
          ∧ met ≤ rereadCount := by
  refine ⟨finish_trace_ne_outOfFuel ex lt, ?_, ?_⟩
  · unfold rainflow_finish rainflow_finish_trace
    exact finish_outer_eq_sweep ex _ _ _ _ 0
  · intro lt1 ii rereadCount met h
    exact finish_sweep_exit ex _ _ _ _ _ _ h (le_refl 0)

/-- C17 witness: after the values `0, 40, 20, 50, 10, 30, 0` the sweep ends with
`rereadCount = 2`. -/
theorem rainflow_finish_exit_condition_witness :
    rainflow_finish_trace sample_ex
        (⟨0, 1000, -1 / 100, 0, 0, [0, 50, 0], 2, 1 / 4, 3, 0, 50, 50, 0, 20⟩ : lifetime_t ℚ)
      = .ok (⟨0, 1000, -1 / 100, 0, 0, [0], 3, 7 / 20, 0, 0, 50, 0, 0, 0⟩, 1, 2, 1)
    ∧ rainflow_finish sample_ex
        (⟨0, 1000, -1 / 100, 0, 0, [0, 50, 0], 2, 1 / 4, 3, 0, 50, 50, 0, 20⟩ : lifetime_t ℚ)
      = .ok ⟨0, 1000, -1 / 100, 0, 0, [0], 3, 7 / 20, 0, 0, 50, 0, 0, 0⟩ :=
  ⟨by with_unfolding_all rfl,
    (rainflow_finish_exit_condition sample_ex _).2.1.trans (by with_unfolding_all rfl)⟩

/-- C17 counterexample: after the values `3, 0, 4, 1` the call of `rainflow_finish`
returns with three points left in the peak sequence, and the start value `3` was read
once only: the sweep ended because its index reached the end of the sequence. -/
theorem rainflow_finish_leaves_three_points :
    rainflow_all sample_ex sample_lifetime [3, 0, 4, 1]
      = .ok ⟨0, 1000, -1 / 100, 0, 0, [3, 0, 4, 1], 0, 0, 4, 1, 3, 4, 0, 0⟩
    ∧ rainflow_finish_trace sample_ex
        (⟨0, 1000, -1 / 100, 0, 0, [3, 0, 4, 1], 0, 0, 4, 1, 3, 4, 0, 0⟩ : lifetime_t ℚ)
      = .ok (⟨0, 1000, -1 / 100, 0, 0, [3, 1, 0], 1, 5 / 49, 2, 1, 1, 2, 0, 2⟩, 3, 1, 1)
    ∧ rainflow_finish sample_ex
        (⟨0, 1000, -1 / 100, 0, 0, [3, 0, 4, 1], 0, 0, 4, 1, 3, 4, 0, 0⟩ : lifetime_t ℚ)
      = .ok ⟨0, 1000, -1 / 100, 0, 0, [3, 1, 0], 1, 5 / 49, 2, 1, 1, 2, 0, 2⟩ := by
  refine ⟨?_, ?_, ?_⟩ <;> with_unfolding_all rfl

end SweepLemmas

section RunLemmas

/-- C18: a battery of 100 Ah at 12 V is discharged at 120 W for two steps and then
charged at 60 W for two steps.  The depth of discharge after the four steps is
10, 20, 15, 10: its turning point is 20.  The value fed to the lifetime model in the
fourth call is 15, the depth of discharge one step after the reversal, and 15 is
neither a local maximum nor a local minimum of the series. -/
theorem run_feeds_value_after_turning_point :
    battery_t.dod_and_peaks
        (battery_t.run_all sample_ex sample_battery [120, 120, -60, -60])
      = .ok [(10, [0]), (20, [0]), (15, [0]), (10, [0, 15])] := by
  with_unfolding_all rfl

end RunLemmas

section KibamConservation
variable {F : Type} [LinearOrderedField F]

/-- The two reservoir formulas add up to the total charge minus the charge drawn. -/
theorem q1_q2_compute_sum (ex : F → F) (kb : capacity_kibam_t F) (q1 q2 q0 dt I : F)
    (hk : kb._k ≠ 0) :
    kb.q1_compute ex q1 q0 dt I + kb.q2_compute ex q2 q0 dt I
      = (q1 + q2) * ex (-kb._k * dt) + q0 * (1 - ex (-kb._k * dt)) - I * dt := by
  simp only [capacity_kibam_t.q1_compute, capacity_kibam_t.q2_compute]
  field_simp
  ring

theorem kibam_update_q0_eq (ex : F → F) (kb : capacity_kibam_t F) (P V dt : F) (cycles : Int) :
    (kb.updateCapacity ex P V dt cycles)._q0
      = kb.q1_compute ex kb._q1_0 kb._q0 dt (kb.updateCapacity ex P V dt cycles)._I
        + kb.q2_compute ex kb._q2_0 kb._q0 dt (kb.updateCapacity ex P V dt cycles)._I := by
  simp only [capacity_kibam_t.updateCapacity]

/-- C25: for `k ≠ 0`, if `q1 + q2 = q0` before the step, then after the KiBaM
`updateCapacity` the total charge is `q0_before - I*dt` with `I` the (clamped) current
the step stored; the formulas `q1_compute` and `q2_compute` add up to `q0 - I*dt` for
every current `I`, whatever `c` is. -/
theorem kibam_charge_conservation (ex : F → F) (kb : capacity_kibam_t F) (P V dt : F)
    (cycles : Int) (hk : kb._k ≠ 0) (hq : kb._q1_0 + kb._q2_0 = kb._q0) :
    (kb.updateCapacity ex P V dt cycles)._q0
        = kb._q0 - (kb.updateCapacity ex P V dt cycles)._I * dt
    ∧ ∀ I : F, kb.q1_compute ex kb._q1_0 kb._q0 dt I + kb.q2_compute ex kb._q2_0 kb._q0 dt I
        = kb._q0 - I * dt := by
  have hsum : ∀ I : F,
      kb.q1_compute ex kb._q1_0 kb._q0 dt I + kb.q2_compute ex kb._q2_0 kb._q0 dt I
        = kb._q0 - I * dt := by
    intro I
    rw [q1_q2_compute_sum ex kb _ _ _ _ _ hk, hq]
    ring
  exact ⟨by rw [kibam_update_q0_eq, hsum], hsum⟩

/-- C25 witness: the state `sample_kibam` (`k = 1/2`, `q1 = 40`, `q2 = 60`, `q0 = 100`)
with a request of 720 W at 12 V for one hour. -/
theorem kibam_charge_conservation_witness :
    sample_kibam._k ≠ 0 ∧ sample_kibam._q1_0 + sample_kibam._q2_0 = sample_kibam._q0
    ∧ (sample_kibam.updateCapacity sample_ex 720 12 1 0)._q0
        = sample_kibam._q0 - (sample_kibam.updateCapacity sample_ex 720 12 1 0)._I * 1 :=
  ⟨by with_unfolding_all decide, by with_unfolding_all decide,
    (kibam_charge_conservation sample_ex sample_kibam 720 12 1 0
      (by with_unfolding_all decide) (by with_unfolding_all decide)).1⟩

end KibamConservation

section VoltageCalibration
variable {F : Type} [LinearOrderedField F]

/-- C27: with `R`, `A`, `B`, `K`, `E0` as `parameter_compute` sets them from any
datasheet values, and an exponential with `exp 0 = 1`, the per-cell model evaluated at
full charge (`q0 = Q`, `Q ≠ 0`), at the rated current `I = Qfull * C_rate` and at
`dt = 0` returns `Vfull`. -/
theorem voltage_model_calibrated (ex : F → F) (v : voltage_dynamic_t F) (Q : F)
    (hex : ex 0 = 1) (hQ : Q ≠ 0) :
    (v.parameter_compute ex).voltage_model_tremblay_hybrid ex Q (v._Qfull * v._C_rate) Q 0
      = v._Vfull := by
  simp only [voltage_dynamic_t.parameter_compute,
    voltage_dynamic_t.voltage_model_tremblay_hybrid]
  rw [div_self hQ, mul_zero, hex]
  ring

/-- C27 witness: a cell with `Vfull = 41/10`, `Vexp = 4`, `Vnom = 37/10`,
`Qfull = 9/4`, `Qexp = 1/10`, `Qnom = 2`, `C_rate = 1/5`, evaluated at `Q = 9/4`. -/
theorem voltage_model_calibrated_witness :
    sample_ex 0 = 1 ∧ (9 / 4 : ℚ) ≠ 0
    ∧ (voltage_dynamic_t.init sample_ex 4 3 (41 / 10) (37 / 10) 4 (9 / 4) (1 / 10) 2
          (1 / 5)).voltage_model_tremblay_hybrid sample_ex (9 / 4) ((9 / 4) * (1 / 5)) (9 / 4) 0
        = 41 / 10 :=
  ⟨by with_unfolding_all decide, by norm_num,
    voltage_model_calibrated sample_ex
      ⟨⟨4, 41 / 10⟩, 41 / 10, 4, 37 / 10, 9 / 4, 1 / 10, 2, 1 / 5, 0, 0, 0, 0, 0⟩ (9 / 4)
      (by with_unfolding_all decide) (by norm_num)⟩

end VoltageCalibration

section ChargeChangeFlag

/-- C21: the KiBaM state `sample_kibam` and the 100 Ah Lithium-ion model, both with
the flags as the constructors set them, are discharged at 1 A, rested (`P = 0`), and
discharged at 1 A again; neither model clamps (the stored currents are 1, 0, 1).
After the third step the KiBaM model reports a change of direction and the
Lithium-ion model does not. -/
theorem chargeChanged_differs_after_rest :
    capacity.chargeChanged_run sample_ex (capacity.kibam sample_kibam) 12 1 [12, 0, 12]
        = [(false, 1), (false, 0), (true, 1)]
    ∧ capacity.chargeChanged_run sample_ex sample_capacity 12 1 [12, 0, 12]
        = [(false, 1), (false, 0), (false, 1)] := by
  constructor <;> with_unfolding_all rfl

end ChargeChangeFlag

section DispatchRequest
variable {F : Type} [LinearOrderedField F]

theorem battery_run_tail_lithium_ion (ex : F → F) (b : battery_t F) (P : F)
    (li : capacity_lithium_ion_t F) (hc : b._capacity = capacity.lithium_ion li) :
    (((b.runThermalModel (P / b.battery_voltage)).runCapacityModel ex P
        (b.runThermalModel (P / b.battery_voltage)).battery_voltage).runVoltageModel ex)._capacity
      = capacity.lithium_ion
          ((li.updateCapacity P b.battery_voltage b._dt b._lifetime.cycles_elapsed).updateCapacityForThermal
            (b._thermal.updateTemperature (P / b.battery_voltage) b._dt).getCapacityPercent) := by
  simp only [battery_t.runVoltageModel, battery_t.runCapacityModel, battery_t.runThermalModel,
    battery_t.battery_voltage, hc, capacity.updateCapacity, capacity.updateCapacityForThermal]

/-- What `battery_t::run` leaves in a Lithium-ion capacity model: the state after
`updateCapacity` at the voltage before the step, then `updateCapacityForThermal`. -/
theorem battery_run_lithium_ion (ex : F → F) (b b1 : battery_t F) (P : F)
    (li : capacity_lithium_ion_t F) (h : b.run ex P = .ok b1)
    (hc : b._capacity = capacity.lithium_ion li) :
    ∃ (cycles : Int) (pct : F),
      b1._capacity = capacity.lithium_ion
        ((li.updateCapacity P b.battery_voltage b._dt cycles).updateCapacityForThermal pct) := by
  unfold battery_t.run at h
  by_cases hf : (b._capacity.chargeChanged || b._firstStep) = true
  · simp only [hf, if_true] at h
    obtain ⟨r, hr, h⟩ := Except_bind_eq_ok _ _ _ h
    obtain ⟨r1, hr1, hr2⟩ := Except_bind_eq_ok _ _ _ hr
    cases hr2
    cases h
    exact ⟨_, _, battery_run_tail_lithium_ion ex _ P li hc⟩
  · simp only [hf, if_false, Bool.false_eq_true] at h
    obtain ⟨r, hr, h⟩ := Except_bind_eq_ok _ _ _ h
    cases hr
    cases h
    exact ⟨_, _, battery_run_tail_lithium_ion ex _ P li hc⟩

/-- The current a Lithium-ion model stores when neither clamp fires. -/
theorem li_update_I_unclamped (li : capacity_lithium_ion_t F) (P V dt : F) (cycles : Int)
    (hlo : 0 ≤ li._q0 - P / V * dt)
    (hhi : li._q0 - P / V * dt ≤ (li.updateCapacity P V dt cycles)._qmax) :
    (li.updateCapacity P V dt cycles)._I = P / V := by
  rw [li_update_I, if_neg (not_lt.mpr hhi), if_neg (not_lt.mpr hlo), if_neg (not_lt.mpr hhi)]

/-- C26: a returning `dispatch()` call on a bank with a Lithium-ion unit, nonzero
series count, nonzero unit voltage and nonzero dispatch step, with
`kilowatt_to_watt = 1000`.  Let `e` be the energy the decision table requests and
`I = 1000 * e / dt / series / V` the unit current of that request.  If the capacity
model does not clamp (`0 ≤ q0 - I * dt_unit ≤ qmax`), the stored current is `I` and
`energy_tofrom_battery()` is `e`. -/
theorem dispatch_realizes_request (ex : F → F) (u : units_t F) (d d1 : dispatch_manual_t F)
    (hour : Nat) (pv load : F) (li : capacity_lithium_ion_t F) (ip : Int) (cc cd cg : Bool)
    (e : F)
    (h : d.dispatch ex u hour pv load = .ok d1)
    (hp : d.profileIndex hour = .ok ip)
    (hcc : boolAt d._charge_array ip = .ok cc)
    (hcd : boolAt d._discharge_array ip = .ok cd)
    (hcg : boolAt d._gridcharge_array ip = .ok cg)
    (he : e = (dispatch_decision pv load cc cd cg
      ((d._BatteryBank.bank_charge_needed * d._BatteryBank.bank_voltage)
        * u.watt_to_kilowatt)).1)
    (hu : u.kilowatt_to_watt = 1000)
    (hcap : d._BatteryBank._battery._capacity = capacity.lithium_ion li)
    (hs : d._BatteryBank._num_batteries_series ≠ 0)
    (hV : d._BatteryBank._battery.battery_voltage ≠ 0)
    (hdt : d._dt ≠ 0)
    (hlo : 0 ≤ li._q0 - 1000 * e / d._dt / (d._BatteryBank._num_batteries_series : F)
      / d._BatteryBank._battery.battery_voltage * d._BatteryBank._battery._dt)
    (hhi : li._q0 - 1000 * e / d._dt / (d._BatteryBank._num_batteries_series : F)
      / d._BatteryBank._battery.battery_voltage * d._BatteryBank._battery._dt
        ≤ d1._BatteryBank._battery._capacity.qmax) :
    d1._BatteryBank._battery._capacity.I
        = 1000 * e / d._dt / (d._BatteryBank._num_batteries_series : F)
          / d._BatteryBank._battery.battery_voltage
    ∧ d1.energy_tofrom_battery = e := by
  obtain ⟨ip1, cc1, cd1, cg1, bank, hp1, h1, h2, h3, h4, h5, _, h7, _⟩ :=
    dispatch_ok_inv ex u d d1 hour pv load h
  rw [hp] at hp1
  cases hp1
  rw [hcc] at h1
  rw [hcd] at h2
  rw [hcg] at h3
  cases h1
  cases h2
  cases h3
  rw [← he, hu] at h4
  unfold battery_bank_t.run at h4
  obtain ⟨b1, hb1, hb2⟩ := Except_bind_eq_ok _ _ _ h4
  cases hb2
  obtain ⟨cycles, pct, hc1⟩ := battery_run_lithium_ion ex _ _ _ li hb1 hcap
  have hsF : (d._BatteryBank._num_batteries_series : F) ≠ 0 := Int.cast_ne_zero.mpr hs
  rw [h5] at hhi
  simp only at hhi
  rw [hc1] at hhi
  have hI : d1._BatteryBank._battery._capacity.I
      = 1000 * e / d._dt / (d._BatteryBank._num_batteries_series : F)
          / d._BatteryBank._battery.battery_voltage := by
    rw [h5]
    simp only
    rw [hc1]
    exact li_update_I_unclamped li _ _ _ cycles hlo hhi
  refine ⟨hI, ?_⟩
  simp only [dispatch_manual_t.energy_tofrom_battery]
  rw [h7]
  rw [h5] at hI
  simp only at hI
  rw [hI]
  simp only [battery_bank_t.bank_voltage]
  field_simp
  ring

/-- C26 witness: the sample controller at hour 0 with no PV and a load of 0.48 kWh
requests a discharge of 0.48 kWh (20 A per unit), which the 100 Ah unit delivers. -/
theorem dispatch_realizes_request_witness :
    (match sample_dispatch.dispatch sample_ex sample_units 0 0 (12 / 25) with
      | .ok x => x
      | .error _ => sample_dispatch)._BatteryBank._battery._capacity.I = 20
    ∧ (match sample_dispatch.dispatch sample_ex sample_units 0 0 (12 / 25) with
      | .ok x => x
      | .error _ => sample_dispatch).energy_tofrom_battery = 12 / 25 :=
  have h := dispatch_realizes_request sample_ex sample_units sample_dispatch
    (match sample_dispatch.dispatch sample_ex sample_units 0 0 (12 / 25) with
      | .ok x => x
      | .error _ => sample_dispatch)
    0 0 (12 / 25) (capacity_lithium_ion_t.init 100 12 100 0 0 0) 0 true true false (12 / 25)
    (by with_unfolding_all rfl) (by with_unfolding_all rfl) (by with_unfolding_all rfl)
    (by with_unfolding_all rfl) (by with_unfolding_all rfl) (by with_unfolding_all rfl)
    (by with_unfolding_all rfl) (by with_unfolding_all rfl) (by with_unfolding_all decide)
    (by with_unfolding_all decide) (by with_unfolding_all decide)
    (by with_unfolding_all decide) (by with_unfolding_all decide)
  ⟨h.1.trans (by with_unfolding_all rfl), h.2⟩

end DispatchRequest

section InvLemmas
variable {F : Type} [LinearOrderedField F]

theorem list_split_last_three {α : Type} (xs : List α) (h : 3 ≤ xs.length) :
    ∃ (pre : List α) (a b c : α), xs = pre ++ [a, b, c] := by
  rcases List.eq_nil_or_concat xs with h0 | ⟨ys, c, rfl⟩
  · subst h0
    simp at h
  rcases List.eq_nil_or_concat ys with h0 | ⟨zs, b, rfl⟩
  · subst h0
    simp at h
  rcases List.eq_nil_or_concat zs with h0 | ⟨pre, a, rfl⟩
  · subst h0
    simp at h
  exact ⟨pre, a, b, c, by simp⟩

theorem peakAt_append_left {α : Type} (xs ys : List α) (k : Int) (h0 : 0 ≤ k)
    (hk : k < (xs.length : Int)) : peakAt (xs ++ ys) k = peakAt xs k := by
  simp only [peakAt, if_pos h0]
  rw [List.getElem?_append_left (by omega)]

theorem peakAt_ok_of_lt {α : Type} (xs : List α) (k : Int) (h0 : 0 ≤ k)
    (hk : k < (xs.length : Int)) : ∃ s, peakAt xs k = .ok s := by
  have hlt : k.toNat < xs.length := by omega
  refine ⟨xs[k.toNat], ?_⟩
  simp only [peakAt, if_pos h0, List.getElem?_eq_getElem hlt]

/-- One pass of the loop of `rainflow` from a state with the loop invariant and at
least three points: every index used is inside the peak sequence, and a range is
counted only when four points or more are stored, after which the invariant holds
again. -/
theorem rainflow_loop_inv_pass (ex : F → F) (lt : lifetime_t F) (hL : rainflow_loop_inv lt)
    (h2 : 2 ≤ lt._jlt) :
    ∃ (pre : List F) (a b c : F),
      lt._Peaks = pre ++ [a, b, c] ∧ lt._jlt = (pre.length : Int) + 2
      ∧ rainflow_ranges lt = .ok { lt with _Ylt := |b - a|, _Xlt := |c - b| }
      ∧ startIsEndpointOfY { lt with _Ylt := |b - a|, _Xlt := |c - b| }
          = .ok (decide (lt._Slt = b ∨ lt._Slt = a))
      ∧ ((lt._Slt = b ∨ lt._Slt = a) → ∃ s, peakAt lt._Peaks (lt._klt + 1) = .ok s)
      ∧ (¬ (lt._Slt = b ∨ lt._Slt = a) →
          4 ≤ lt._Peaks.length
          ∧ ∃ lt2, countRangeY ex { lt with _Ylt := |b - a|, _Xlt := |c - b| } = .ok lt2
            ∧ rainflow_loop_inv lt2
            ∧ lt2._Peaks.length + 2 = lt._Peaks.length
            ∧ lt2._nCycles = lt._nCycles + 1) := by
  obtain ⟨hj, hk0, hkj, hk2, hS⟩ := hL
  have hlen : 3 ≤ lt._Peaks.length := by omega
  obtain ⟨pre, a, b, c, hP⟩ := list_split_last_three lt._Peaks hlen
  have hj2 : lt._jlt = (pre.length : Int) + 2 := by
    rw [hP] at hj
    simp only [List.length_append, List.length_cons, List.length_nil] at hj
    push_cast at hj
    omega
  obtain ⟨p2, p1, p0⟩ := peakAt_last_three pre a b c
  refine ⟨pre, a, b, c, hP, hj2, rainflow_ranges_last_three lt pre a b c hP hj2,
    startIsEndpointOfY_last_three { lt with _Ylt := |b - a|, _Xlt := |c - b| } pre a b c hP hj2,
    ?_, ?_⟩
  · intro _
    have hklt := hk2 h2
    exact peakAt_ok_of_lt _ _ (by omega) (by omega)
  · intro hne
    have hkpre : lt._klt < (pre.length : Int) := by
      have hklt := hk2 h2
      by_contra hcon
      rw [hP] at hS
      rcases (by omega : lt._klt = (pre.length : Int) + 2 - 1
          ∨ lt._klt = (pre.length : Int) + 2 - 2) with hk | hk
      · rw [hk, p1] at hS
        cases hS
        exact hne (Or.inl rfl)
      · rw [hk, p0] at hS
        cases hS
        exact hne (Or.inr rfl)
    have hpre : 1 ≤ pre.length := by omega
    have hc := countRangeY_last_three ex { lt with _Ylt := |b - a|, _Xlt := |c - b| }
      pre a b c hP hj2
    refine ⟨?_, _, hc, ?_, ?_, rfl⟩
    · rw [hP]
      simp only [List.length_append, List.length_cons, List.length_nil]
      omega
    · refine ⟨?_, hk0, ?_, ?_, ?_⟩
      · simp only [List.length_append, List.length_cons, List.length_nil]
        push_cast
        omega
      · show lt._klt ≤ lt._jlt - 2
        omega
      · intro _
        show lt._klt < lt._jlt - 2
        omega
      · show peakAt (pre ++ [c]) lt._klt = .ok lt._Slt
        rw [peakAt_append_left _ _ _ hk0 hkpre]
        rw [hP, peakAt_append_left _ _ _ hk0 hkpre] at hS
        exact hS
    · rw [hP]
      simp only [List.length_append, List.length_cons, List.length_nil]

/-- From a state with the loop invariant the loop of `rainflow` returns, asking for
more data; at the exit `_klt ≤ _jlt`, `_Slt` is the peak at `_klt`, and every counted
cycle has removed two points. -/
theorem rainflow_loop_inv_spec (ex : F → F) (n : Nat) :
    ∀ lt : lifetime_t F, rainflow_loop_inv lt → lt._Peaks.length ≤ n →
      ∃ lt1, rainflow_loop ex n lt = .ok (lt1, RetCode.LT_GET_DATA)
        ∧ lt1._jlt + 1 = (lt1._Peaks.length : Int) ∧ 0 ≤ lt1._klt ∧ lt1._klt ≤ lt1._jlt
        ∧ peakAt lt1._Peaks lt1._klt = .ok lt1._Slt
        ∧ 2 * lt1._nCycles + (lt1._Peaks.length : Int)
            = 2 * lt._nCycles + (lt._Peaks.length : Int)
        ∧ lt._nCycles ≤ lt1._nCycles := by
  induction n with
  | zero =>
    intro lt hL hn
    obtain ⟨hj, hk0, hkj, _, _⟩ := hL
    omega
  | succ n ih =>
    intro lt hL hn
    by_cases h2 : 2 ≤ lt._jlt
    · obtain ⟨pre, a, b, c, hP, hj2, hr, hs, hadv, hcnt⟩ := rainflow_loop_inv_pass ex lt hL h2
      obtain ⟨hj, hk0, hkj, hk2, hS⟩ := hL
      have hpass := rainflow_loop_pass ex n lt _ h2 hr
      by_cases hxy : |c - b| < |b - a|
      · refine ⟨{ lt with _Ylt := |b - a|, _Xlt := |c - b| }, ?_, hj, hk0, hkj, hS, rfl,
          le_refl _⟩
        rw [hpass, compareRanges_of_lt ex _ hxy]
        rfl
      · have hyx : |b - a| ≤ |c - b| := not_lt.mp hxy
        by_cases he : lt._Slt = b ∨ lt._Slt = a
        · have ht : startIsEndpointOfY { lt with _Ylt := |b - a|, _Xlt := |c - b| }
              = .ok true := by
            rw [hs]
            simp only [decide_eq_true he]
          rcases eq_or_lt_of_le hyx with heq | hlt
          · refine ⟨{ lt with _Ylt := |b - a|, _Xlt := |c - b| }, ?_, hj, hk0, hkj, hS, rfl,
              le_refl _⟩
            rw [hpass, compareRanges_contained_eq ex _ heq.symm ht]
            rfl
          · obtain ⟨s, hs1⟩ := hadv he
            have hklt := hk2 h2
            refine ⟨⟨lt._a0, lt._a1, lt._a2, lt._a3, lt._a4, lt._Peaks, lt._nCycles, lt._Dlt,
              lt._jlt, lt._klt + 1, |c - b|, |b - a|, s, lt._Range⟩,
              ?_, hj, ?_, ?_, hs1, rfl, le_refl _⟩
            · rw [hpass, compareRanges_contained_gt ex _ hlt ht s hs1]
              rfl
            · show 0 ≤ lt._klt + 1
              omega
            · show lt._klt + 1 ≤ lt._jlt
              omega
        · have hf : startIsEndpointOfY { lt with _Ylt := |b - a|, _Xlt := |c - b| }
              = .ok false := by
            rw [hs]
            simp only [decide_eq_false he]
          obtain ⟨h4, lt2, hc, hL2, hlen2, hn2⟩ := hcnt he
          obtain ⟨lt1, hloop, e1, e2, e3, e4, e5, e6⟩ := ih lt2 hL2 (by omega)
          refine ⟨lt1, ?_, e1, e2, e3, e4, ?_, ?_⟩
          · rw [hpass, compareRanges_count ex _ hyx hf, hc]
            exact hloop
          · rw [e5, hn2]
            have : (lt2._Peaks.length : Int) + 2 = (lt._Peaks.length : Int) := by
              exact_mod_cast hlen2
            omega
          · omega
    · obtain ⟨hj, hk0, hkj, _, hS⟩ := hL
      refine ⟨lt, ?_, hj, hk0, hkj, hS, rfl, le_refl _⟩
      have h2n : ¬ (lt._jlt ≥ 2) := h2
      simp only [rainflow_loop, if_neg h2n]

/-- One `rainflow` call from the constructed state or from a state with the invariant
returns, restores the invariant, and keeps `2 * cycles + points` in step with the
number of values fed. -/
theorem rainflow_inv_step (ex : F → F) (lt : lifetime_t F) (d : F)
    (h : (lt._Peaks = [] ∧ lt._jlt = 0) ∨ rainflow_inv lt) :
    ∃ lt1, rainflow ex lt d = .ok lt1 ∧ rainflow_inv lt1
      ∧ 2 * lt1._nCycles + (lt1._Peaks.length : Int)
          = 2 * lt._nCycles + (lt._Peaks.length : Int) + 1
      ∧ lt._nCycles ≤ lt1._nCycles := by
  have key : ∀ lt2 : lifetime_t F, rainflow_loop_inv lt2 →
      (rainflow_loop ex (lt2._Peaks.length + 1) lt2 >>= fun r =>
          if r.2 = RetCode.LT_GET_DATA then Except.ok { r.1 with _jlt := r.1._jlt + 1 }
          else Except.ok r.1) = rainflow ex lt d →
      lt2._nCycles = lt._nCycles → lt2._Peaks.length = lt._Peaks.length + 1 →
      ∃ lt1, rainflow ex lt d = .ok lt1 ∧ rainflow_inv lt1
        ∧ 2 * lt1._nCycles + (lt1._Peaks.length : Int)
            = 2 * lt._nCycles + (lt._Peaks.length : Int) + 1
        ∧ lt._nCycles ≤ lt1._nCycles := by
    intro lt2 hL hrw hn hlen
    obtain ⟨lt1, hloop, e1, e2, e3, e4, e5, e6⟩ :=
      rainflow_loop_inv_spec ex (lt2._Peaks.length + 1) lt2 hL (by omega)
    rw [← hrw, hloop]
    refine ⟨{ lt1 with _jlt := lt1._jlt + 1 }, rfl, ⟨?_, e2, ?_, e4⟩, ?_, ?_⟩
    · show lt1._jlt + 1 = (lt1._Peaks.length : Int)
      exact e1
    · show lt1._klt < lt1._jlt + 1
      omega
    · show 2 * lt1._nCycles + (lt1._Peaks.length : Int)
        = 2 * lt._nCycles + (lt._Peaks.length : Int) + 1
      rw [e5, hn, hlen]
      push_cast
      omega
    · show lt._nCycles ≤ lt1._nCycles
      omega
  rcases h with ⟨hP, hj⟩ | ⟨hj, hk0, hkj, hS⟩
  · refine key { lt with _Peaks := lt._Peaks ++ [d], _Slt := d, _klt := lt._jlt } ?_ ?_ rfl ?_
    · refine ⟨?_, ?_, ?_, ?_, ?_⟩
      · show lt._jlt + 1 = ((lt._Peaks ++ [d]).length : Int)
        rw [hP, hj]
        rfl
      · show 0 ≤ lt._jlt
        omega
      · show lt._jlt ≤ lt._jlt
        omega
      · intro h2
        have : 2 ≤ lt._jlt := h2
        omega
      · show peakAt (lt._Peaks ++ [d]) lt._jlt = .ok d
        rw [hP, hj]
        rfl
    · simp only [rainflow, if_pos hj]
    · simp only [List.length_append, List.length_cons, List.length_nil]
  · have hj0 : ¬ (lt._jlt = 0) := by omega
    refine key { lt with _Peaks := lt._Peaks ++ [d] } ?_ ?_ rfl ?_
    · refine ⟨?_, hk0, ?_, ?_, ?_⟩
      · show lt._jlt + 1 = ((lt._Peaks ++ [d]).length : Int)
        simp only [List.length_append, List.length_cons, List.length_nil]
        push_cast
        omega
      · show lt._klt ≤ lt._jlt
        omega
      · intro _
        exact hkj
      · show peakAt (lt._Peaks ++ [d]) lt._klt = .ok lt._Slt
        rw [peakAt_append_left _ _ _ hk0 (by omega)]
        exact hS
    · simp only [rainflow, if_neg hj0]
    · simp only [List.length_append, List.length_cons, List.length_nil]

/-- Any run of `rainflow` calls from the constructed state or from a state with the
invariant returns; the invariant holds after each call. -/
theorem rainflow_all_inv (ex : F → F) (ds : List F) :
    ∀ lt : lifetime_t F, ((lt._Peaks = [] ∧ lt._jlt = 0) ∨ rainflow_inv lt) →
      ∃ lt1, rainflow_all ex lt ds = .ok lt1
        ∧ (ds ≠ [] → rainflow_inv lt1)
        ∧ 2 * lt1._nCycles + (lt1._Peaks.length : Int)
            = 2 * lt._nCycles + (lt._Peaks.length : Int) + (ds.length : Int)
        ∧ lt._nCycles ≤ lt1._nCycles := by
  induction ds with
  | nil =>
    intro lt _
    exact ⟨lt, rfl, fun h => absurd rfl h, by simp, le_refl _⟩
  | cons d ds ih =>
    intro lt h
    obtain ⟨lt1, h1, hI1, hc1, hn1⟩ := rainflow_inv_step ex lt d h
    obtain ⟨lt2, h2, hI2, hc2, hn2⟩ := ih lt1 (Or.inr hI1)
    refine ⟨lt2, ?_, ?_, ?_, ?_⟩
    · simp only [rainflow_all, h1, Except_ok_bind]
      exact h2
    · intro _
      cases ds with
      | nil =>
        simp only [rainflow_all] at h2
        cases h2
        exact hI1
      | cons e es => exact hI2 (by simp)
    · rw [hc2, hc1]
      simp only [List.length_cons]
      push_cast
      omega
    · omega

end InvLemmas

section FinishSafe
variable {F : Type} [LinearOrderedField F]

end FinishSafe

section RainflowClaims
variable {F : Type} [LinearOrderedField F]

/-- C23: for every sequence of `rainflow` calls from the constructed state, every call
returns, so that no read of `_Peaks` and no `pop_back` fails, and after each call
`_jlt` is the number of stored peaks, `0 ≤ _klt < _jlt` and `_Slt = _Peaks[_klt]`.  The
state in which a call enters its loop (the first call, and a call from a state with
the invariant) has the loop invariant; in a pass from a state
with the loop invariant and `_jlt ≥ 2` the reads at `_jlt`, `_jlt - 1`, `_jlt - 2` and
`_klt + 1` are inside the peak sequence, and a range is counted only when four points
or more are stored, so that the three `pop_back` calls leave one element at least,
and the loop invariant holds again. -/
theorem rainflow_index_safety (ex : F → F) (a0 a1 a2 a3 a4 : F) (ds : List F) :
    (∃ lt, rainflow_all ex (lifetime_t.init a0 a1 a2 a3 a4) ds = .ok lt
        ∧ (ds ≠ [] → rainflow_inv lt))
    ∧ (∀ d : F, rainflow_loop_inv
        (⟨a0, a1, a2, a3, a4, [d], 0, 0, 0, 0, 0, 0, d, 0⟩ : lifetime_t F))
    ∧ (∀ (lt : lifetime_t F) (d : F), rainflow_inv lt →
        rainflow_loop_inv { lt with _Peaks := lt._Peaks ++ [d] })
    ∧ (∀ (lt : lifetime_t F), rainflow_loop_inv lt → 2 ≤ lt._jlt →
        ∃ (pre : List F) (a b c : F),
          lt._Peaks = pre ++ [a, b, c] ∧ lt._jlt = (pre.length : Int) + 2
          ∧ rainflow_ranges lt = .ok { lt with _Ylt := |b - a|, _Xlt := |c - b| }
          ∧ startIsEndpointOfY { lt with _Ylt := |b - a|, _Xlt := |c - b| }
              = .ok (decide (lt._Slt = b ∨ lt._Slt = a))
          ∧ ((lt._Slt = b ∨ lt._Slt = a) → ∃ s, peakAt lt._Peaks (lt._klt + 1) = .ok s)
          ∧ (¬ (lt._Slt = b ∨ lt._Slt = a) →
              4 ≤ lt._Peaks.length
              ∧ ∃ lt2, countRangeY ex { lt with _Ylt := |b - a|, _Xlt := |c - b| } = .ok lt2
                ∧ rainflow_loop_inv lt2
                ∧ lt2._Peaks.length + 2 = lt._Peaks.length
                ∧ lt2._nCycles = lt._nCycles + 1)) := by
  refine ⟨?_, ?_, ?_, fun lt hL h2 => rainflow_loop_inv_pass ex lt hL h2⟩
  · obtain ⟨lt, h, hI, _, _⟩ := rainflow_all_inv ex ds (lifetime_t.init a0 a1 a2 a3 a4)
      (Or.inl ⟨rfl, rfl⟩)
    exact ⟨lt, h, hI⟩
  · intro d
    exact ⟨rfl, le_refl _, le_refl _,
      fun h => absurd (show (2 : Int) ≤ 0 from h) (by decide), rfl⟩
  · intro lt d hI
    obtain ⟨hj, hk0, hkj, hS⟩ := hI
    refine ⟨?_, hk0, ?_, fun _ => hkj, ?_⟩
    · show lt._jlt + 1 = ((lt._Peaks ++ [d]).length : Int)
      simp only [List.length_append, List.length_cons, List.length_nil]
      push_cast
      omega
    · show lt._klt ≤ lt._jlt
      omega
    · show peakAt (lt._Peaks ++ [d]) lt._klt = .ok lt._Slt
      rw [peakAt_append_left _ _ _ hk0 (by omega)]
      exact hS

/-- C23 witness: after the values `0, 40, 20, 50` the invariant holds. -/
theorem rainflow_index_safety_witness :
    ∃ lt, rainflow_all sample_ex sample_lifetime [0, 40, 20, 50] = .ok lt
      ∧ rainflow_inv lt :=
  (rainflow_index_safety sample_ex 0 1000 (-1 / 100) 0 0 [0, 40, 20, 50]).1.imp
    fun _ h => ⟨h.1, h.2 (by simp)⟩

/-- C24: after any `n` calls of `rainflow` from the constructed state,
`2 * cycles_elapsed() + (number of stored peaks) = n`; the cycle count is not negative;
once a value has been fed one peak at least is stored and the cycle count is at most
`floor((n - 1) / 2)`. -/
theorem rainflow_point_conservation (ex : F → F) (a0 a1 a2 a3 a4 : F) (ds : List F) :
    ∃ lt, rainflow_all ex (lifetime_t.init a0 a1 a2 a3 a4) ds = .ok lt
      ∧ 2 * lt.cycles_elapsed + (lt._Peaks.length : Int) = (ds.length : Int)
      ∧ 0 ≤ lt.cycles_elapsed
      ∧ (ds ≠ [] → 1 ≤ lt._Peaks.length
          ∧ lt.cycles_elapsed ≤ ((ds.length : Int) - 1) / 2) := by
  obtain ⟨lt, h, hI, hc, hn⟩ := rainflow_all_inv ex ds (lifetime_t.init a0 a1 a2 a3 a4)
    (Or.inl ⟨rfl, rfl⟩)
  have hc0 : 2 * lt._nCycles + (lt._Peaks.length : Int) = (ds.length : Int) := by
    rw [hc]
    simp [lifetime_t.init]
  have hn0 : 0 ≤ lt._nCycles := hn
  refine ⟨lt, h, hc0, hn0, fun hds => ?_⟩
  obtain ⟨hj, hk0, hkj, _⟩ := hI hds
  simp only [lifetime_t.cycles_elapsed]
  constructor
  · omega
  · omega

/-- C24 witness: after the four values `0, 40, 20, 50` one cycle is counted and two
peaks are stored. -/
theorem rainflow_point_conservation_witness :
    ∃ lt, rainflow_all sample_ex sample_lifetime [0, 40, 20, 50] = .ok lt
      ∧ 2 * lt.cycles_elapsed + (lt._Peaks.length : Int) = 4
      ∧ 1 ≤ lt._Peaks.length :=
  (rainflow_point_conservation sample_ex 0 1000 (-1 / 100) 0 0 [0, 40, 20, 50]).imp
    fun _ h => ⟨h.1, h.2.1, (h.2.2.2 (by simp)).1⟩

end RainflowClaims

end Battery
